import Mathlib

/-!
# wl1271 firmware command channel (`drivers/net/wireless/wl12xx/wl1271_cmd.c`)

A shallow embedding of the command/response engine of the wl1271 driver.

* The host side of the driver is a state `World`: the fields of `struct wl1271`
  that the command code touches, the function-static `do_cal` of
  `wl1271_cmd_join`, and the chronological list of actions issued to the
  transport (`wl1271_write`, `wl1271_read`, `wl1271_write32`, `wl1271_read32`)
  and of delays (`udelay`, `msleep`).
* Everything the host observes from outside (the `jiffies` counter, register
  and memory contents of the device, whether `kzalloc` succeeds) is an
  `Oracle`: the n-th observation of each kind is a function of n.  The world
  keeps one cursor per kind of observation.
* Constants, macros and struct sizes that live in headers which are not part of
  the sources are fields of `Defs`; every theorem holds for all their values.
* The two polling loops are unbounded in C; they take a fuel argument here and
  yield `none` when the fuel is used up before the loop exits.
* Diagnostics (`wl1271_error`, `wl1271_warning`, `wl1271_debug`, `WARN_ON`) have
  no effect on the state or on the transport and are left out.
-/

namespace Wl1271

/-! ## Constants -/

/-- Linux errno values (asm-generic/errno-base.h, errno.h). -/
def EIO : Int := 5
def ENOMEM : Int := 12
def ENODEV : Int := 19
def EINVAL : Int := 22
def ETIMEDOUT : Int := 110

/-- Length of an Ethernet address (linux/if_ether.h). -/
def ETH_ALEN : Nat := 6

/-- Line 40 of wl1271_cmd.c. -/
def WL1271_CMD_FAST_POLL_COUNT : Nat := 50

/-- Constants, macros and struct sizes from headers that are not among the
sources (wl1271.h, wl1271_reg.h, wl1271_acx.h, wl1271_cmd.h, wl1271_event.h,
linux/jiffies.h).  They are parameters of the model. -/
structure Defs where
  BITS_PER_LONG : Nat
  /-- Macro msecs_to_jiffies of linux/jiffies.h. -/
  msecs_to_jiffies : Nat → Nat
  /-- Macro time_after(a, b) of linux/jiffies.h. -/
  time_after : Nat → Nat → Bool
  WL1271_COMMAND_TIMEOUT : Nat
  WL1271_EVENT_TIMEOUT : Nat
  ACX_REG_INTERRUPT_TRIG : Nat
  ACX_REG_INTERRUPT_NO_CLEAR : Nat
  ACX_REG_INTERRUPT_ACK : Nat
  INTR_TRIG_CMD : Nat
  WL1271_ACX_INTR_CMD_COMPLETE : Nat
  CMD_STATUS_SUCCESS : Nat
  CMD_TEST : Nat
  CMD_START_JOIN : Nat
  CMD_SET_KEYS : Nat
  TEST_CMD_CHANNEL_TUNE : Nat
  TEST_CMD_UPDATE_PD_REFERENCE_POINT : Nat
  TEST_CMD_P2G_CAL : Nat
  WL1271_CHANNEL_TUNE_BAND_2_4 : Nat
  WL1271_PD_REFERENCE_POINT_BAND_B_G : Nat
  WL1271_CAL_P2G_BAND_B_G : Nat
  IEEE80211_BAND_5GHZ : Nat
  WL1271_JOIN_CMD_BSS_TYPE_5GHZ : Nat
  WL1271_DEFAULT_DTIM_PERIOD : Nat
  WL1271_JOIN_CMD_CTRL_TX_FLUSH : Nat
  WL1271_JOIN_CMD_TX_SESSION_OFFSET : Nat
  SESSION_COUNTER_MAX : Nat
  JOIN_EVENT_COMPLETE_ID : Nat
  KEY_WEP : Nat
  KEY_TKIP : Nat
  /-- Size of the ssid array of struct wl1271_cmd_join. -/
  IW_ESSID_MAX_SIZE : Nat
  /-- Size of the key array of struct wl1271_cmd_set_keys. -/
  MAX_KEY_SIZE : Nat
  sizeof_cmd_cal_channel_tune : Nat
  sizeof_cmd_cal_update_ref_point : Nat
  sizeof_cmd_cal_p2g : Nat
  sizeof_cmd_join : Nat
  sizeof_cmd_set_keys : Nat
  /-- The inline function wl1271_11a_enabled() of wl1271.h. -/
  wl1271_11a_enabled : Bool
  WL1271_SCAN_BAND_2_4_GHZ : Nat
  WL1271_SCAN_BAND_5_GHZ : Nat
  WL1271_SCAN_BAND_DUAL : Nat
  IEEE80211_BAND_2GHZ : Nat
  IEEE80211_CHAN_DISABLED : Nat
  CFG_RX_ALL_GOOD : Nat
  CFG_RX_PRSP_EN : Nat
  CFG_RX_MGMT_EN : Nat
  CFG_RX_BCN_EN : Nat
  WL1271_SCAN_OPT_PASSIVE : Nat
  WL1271_SCAN_OPT_PRIORITY_HIGH : Nat
  WL1271_SCAN_DEFAULT_TAG : Nat
  /-- Size of the channels array of struct wl1271_cmd_scan. -/
  WL1271_SCAN_MAX_CHANNELS : Nat
  WL1271_SCAN_CHAN_MIN_DURATION : Nat
  WL1271_SCAN_CHAN_MAX_DURATION : Nat
  WL1271_SCAN_CURRENT_TX_PWR : Nat
  /-- Size of the template_data array of struct wl1271_cmd_template_set. -/
  WL1271_CMD_TEMPL_MAX_SIZE : Nat
  CMD_TEMPL_CFG_PROBE_REQ_2_4 : Nat
  CMD_TEMPL_CFG_PROBE_REQ_5 : Nat
  CMD_INTERROGATE : Nat
  CMD_CONFIGURE : Nat
  CMD_SET_TEMPLATE : Nat
  CMD_TRIGGER_SCAN_TO : Nat
  CMD_SCAN : Nat
  /-- The value sizeof(struct acx_header). -/
  sizeof_acx_header : Nat
  sizeof_cmd_scan : Nat
  sizeof_cmd_trigger_scan_to : Nat
  sizeof_cmd_template_set : Nat
  BSS_TYPE_IBSS : Nat
  CMD_TEMPL_NULL_DATA : Nat
  CMD_TEMPL_KLV : Nat
  CMD_TEMPL_PS_POLL : Nat
  CMD_TEMPL_KLV_IDX_NULL_DATA : Nat
  WL1271_RATE_AUTOMATIC : Nat
  /-- The value sizeof(struct wl12xx_null_data_template). -/
  sizeof_null_data_template : Nat

/-! ## Byte order and memory helpers -/

/-- Bytes of a 16-bit value in little-endian order (cpu_to_le16 followed by a
store). -/
def le16_bytes (v : Nat) : List Nat := [v % 256, v / 256 % 256]

/-- Value of two little-endian bytes (a load followed by le16_to_cpu). -/
def le16_value (lo hi : Nat) : Nat := lo % 256 + 256 * (hi % 256)

/-- Value of a u32 lying in memory as four bytes; the target (MSM, ARM) is
little-endian. -/
def u32_value (l : List Nat) : Nat :=
  l.getD 0 0 % 256 + 256 * (l.getD 1 0 % 256) + 65536 * (l.getD 2 0 % 256)
    + 16777216 * (l.getD 3 0 % 256)

/-- The C call memcpy(dst, src, n) on byte arrays: the first n bytes of dst are
replaced by the first n bytes of src. -/
def memcpy (dst src : List Nat) (n : Nat) : List Nat :=
  src.take n ++ dst.drop n

/-- The slice p[off .. off+n) of a byte array. -/
def slice (p : List Nat) (off n : Nat) : List Nat :=
  (p.drop off).take n

/-- The C call memcpy(dst + doff, src + soff, n). -/
def memcpy_at (dst : List Nat) (doff : Nat) (src : List Nat) (soff n : Nat) : List Nat :=
  dst.take doff ++ slice src soff n ++ dst.drop (doff + n)

/-! ## Command buffers -/

/-- The C type struct wl1271_cmd_header: id and status, both __le16, held here as the
16-bit values they denote.  Its declaration (wl1271_cmd.h) is not among the
sources; the layout, id at offset 0 and status at offset 2, is the order the
spec gives. -/
structure wl1271_cmd_header where
  id : Nat
  status : Nat
deriving DecidableEq

/-- sizeof(struct wl1271_cmd_header). -/
def sizeof_cmd_header : Nat := 4

/-- The four bytes of a command header in memory. -/
def wl1271_cmd_header.bytes (h : wl1271_cmd_header) : List Nat :=
  le16_bytes h.id ++ le16_bytes h.status

/-- The header that four bytes of memory denote. -/
def wl1271_cmd_header.of_bytes (l : List Nat) : wl1271_cmd_header :=
  { id := le16_value (l.getD 0 0) (l.getD 1 0),
    status := le16_value (l.getD 2 0) (l.getD 3 0) }

/-- The C type struct wl1271_cmd_cal_channel_tune, without its command header. -/
structure cmd_cal_channel_tune where
  test_id : Nat
  band : Nat
  channel : Nat
deriving DecidableEq

/-- The C type struct wl1271_cmd_cal_update_ref_point, without its command header. -/
structure cmd_cal_update_ref_point where
  test_id : Nat
  ref_power : Nat
  ref_detector : Nat
  sub_band : Nat
deriving DecidableEq

/-- The C type struct wl1271_cmd_cal_p2g, without its command header. -/
structure cmd_cal_p2g where
  test_id : Nat
  sub_band_mask : Nat
deriving DecidableEq

/-- The C type struct wl1271_cmd_join, without its command header.  The six bytes that
the code addresses through `(u8 *) &join->bssid_lsb` are the field bssid. -/
structure cmd_join where
  bssid : List Nat
  beacon_interval : Nat
  rx_config_options : Nat
  rx_filter_options : Nat
  basic_rate_set : Nat
  dtim_interval : Nat
  bss_type : Nat
  channel : Nat
  ssid_len : Nat
  ssid : List Nat
  ctrl : Nat
deriving DecidableEq

/-- The C type struct wl1271_cmd_set_keys, without its command header.  Of the arrays
ac_seq_num16 and ac_seq_num32 only element 0 is ever written. -/
structure cmd_set_keys where
  addr : List Nat
  key_action : Nat
  key_size : Nat
  key_type : Nat
  ssid_profile : Nat
  id : Nat
  key : List Nat
  ac_seq_num16_0 : Nat
  ac_seq_num32_0 : Nat
deriving DecidableEq

/-- The C type struct basic_scan_parameters (the field params of struct
wl1271_cmd_scan). -/
structure basic_scan_parameters where
  rx_config_options : Nat
  rx_filter_options : Nat
  scan_options : Nat
  num_channels : Nat
  num_probe_requests : Nat
  tx_rate : Nat
  tid_trigger : Nat
  ssid_len : Nat
  ssid : List Nat
  scan_tag : Nat
  band : Nat
deriving DecidableEq

/-- The C type struct basic_scan_channel_parameters (an element of the field
channels of struct wl1271_cmd_scan).  The fields bssid_lsb (four bytes) and
bssid_msb (two bytes) are held as the numbers their bytes denote. -/
structure basic_scan_channel_parameters where
  min_duration : Nat
  max_duration : Nat
  bssid_lsb : Nat
  bssid_msb : Nat
  early_termination : Nat
  tx_power_att : Nat
  channel : Nat
deriving DecidableEq

/-- The C type struct wl1271_cmd_scan, without its command header. -/
structure cmd_scan where
  params : basic_scan_parameters
  channels : List basic_scan_channel_parameters
deriving DecidableEq

/-- The C type struct wl1271_cmd_trigger_scan_to, without its command header. -/
structure cmd_trigger_scan_to where
  timeout : Nat
deriving DecidableEq

/-- The C type struct wl1271_cmd_template_set, without its command header. -/
structure cmd_template_set where
  len : Nat
  template_type : Nat
  index : Nat
  enabled_rates : Nat
  short_retry_limit : Nat
  long_retry_limit : Nat
  template_data : List Nat
deriving DecidableEq

/-- A caller's buffer for wl1271_cmd_interrogate and wl1271_cmd_configure,
without its command header: the rest of struct acx_header (id and len, both
__le16, held as the values they denote) and the bytes that follow it. -/
structure acx_body where
  id : Nat
  len : Nat
  payload : List Nat
deriving DecidableEq

/-- What follows the command header in a command buffer.  The constructor
`overwritten b n bytes` is the body b after its first n bytes have been
replaced by bytes read from the device. -/
inductive Body where
  | cal_channel_tune (c : cmd_cal_channel_tune)
  | cal_update_ref_point (c : cmd_cal_update_ref_point)
  | cal_p2g (c : cmd_cal_p2g)
  | join (c : cmd_join)
  | set_keys (c : cmd_set_keys)
  | scan (c : cmd_scan)
  | trigger_scan_to (c : cmd_trigger_scan_to)
  | template_set (c : cmd_template_set)
  | acx (c : acx_body)
  | overwritten (b : Body) (n : Nat) (bytes : List Nat)
deriving DecidableEq

/-- A command buffer: the header every command starts with, and the rest. -/
structure Buf where
  header : wl1271_cmd_header
  body : Body
deriving DecidableEq

/-- The buffer after its first n bytes have been replaced by the first n bytes
of src (what wl1271_read does to its destination). -/
def Buf.overwrite (b : Buf) (src : List Nat) (n : Nat) : Buf :=
  { header := wl1271_cmd_header.of_bytes (memcpy b.header.bytes src (min n sizeof_cmd_header)),
    body := if n ≤ sizeof_cmd_header then b.body
            else Body.overwritten b.body (n - sizeof_cmd_header)
                   (slice src sizeof_cmd_header (n - sizeof_cmd_header)) }

/-! ## Actions, oracle and world -/

/-- What the driver does to the outside, in the order it does it. -/
inductive Action where
  /-- The call wl1271_write(wl, addr, buf, len, false). -/
  | write (addr : Nat) (buf : Buf) (len : Nat)
  /-- The call wl1271_read(wl, addr, dst, len, false). -/
  | read (addr : Nat) (len : Nat)
  /-- The call wl1271_write32(wl, reg, val). -/
  | write32 (reg : Nat) (val : Nat)
  /-- The call wl1271_read32(wl, reg). -/
  | read32 (reg : Nat)
  | udelay (usecs : Nat)
  | msleep (msecs : Nat)
deriving DecidableEq

/-- Whether an action goes through the transport (the delays do not). -/
def Action.is_transport : Action → Bool
  | .udelay _ => false
  | .msleep _ => false
  | _ => true

/-- Everything the driver observes from outside.  The first argument of each
field counts the observations of that kind made so far. -/
structure Oracle where
  /-- Value of the n-th read of the jiffies counter. -/
  jiffies : Nat → Nat
  /-- Value the n-th wl1271_read32 returns for a register address. -/
  read32 : Nat → Nat → Nat
  /-- Bytes the n-th wl1271_read returns for an address and a length. -/
  read : Nat → Nat → Nat → List Nat
  /-- Whether the n-th kzalloc succeeds. -/
  kzalloc : Nat → Bool
  /-- The frame the n-th call of a mac80211 frame builder (ieee80211_probereq_get
  and its like) returns as skb->data, with skb->len its length; none is a NULL
  skb. -/
  skb : Nat → Option (List Nat)

/-- The C type struct ieee80211_channel: the fields the scan reads. -/
structure ieee80211_channel where
  flags : Nat
  hw_value : Nat
deriving DecidableEq

/-- The C type struct ieee80211_supported_band: the fields the scan reads;
channels is none for a NULL pointer. -/
structure ieee80211_supported_band where
  channels : Option (List ieee80211_channel)
  n_channels : Nat
deriving DecidableEq

/-- The C type struct wl1271_scan (the field scan of struct wl1271).  The
in-progress flag is not here: it is the bit WL1271_FLAG_SCANNING of wl->flags. -/
structure wl1271_scan where
  state : Nat
  ssid : List Nat
  ssid_len : Nat
  active : Nat
  high_prio : Nat
  probe_requests : Nat
deriving DecidableEq

/-- The fields of struct wl1271 used by the command code. -/
structure wl1271 where
  cmd_box_addr : Nat
  mbox_ptr0 : Nat
  mbox_ptr1 : Nat
  bssid : List Nat
  rx_config : Nat
  rx_filter : Nat
  basic_rate_set : Nat
  band : Nat
  beacon_int : Nat
  channel : Nat
  ssid_len : Nat
  ssid : List Nat
  session_counter : Nat
  tx_security_last_seq : Nat
  tx_security_seq : Nat
  /-- The bit WL1271_FLAG_SCANNING of wl->flags. -/
  flag_scanning : Bool
  scan : wl1271_scan
  /-- The field wl->conf.tx.basic_rate. -/
  conf_tx_basic_rate : Nat
  /-- The field wl->conf.tx.basic_rate_5. -/
  conf_tx_basic_rate_5 : Nat
  /-- The field wl->conf.tx.rc_conf.short_retry_limit. -/
  conf_short_retry_limit : Nat
  /-- The field wl->conf.tx.rc_conf.long_retry_limit. -/
  conf_long_retry_limit : Nat
  /-- The band wl->hw->wiphy->bands[IEEE80211_BAND_2GHZ]. -/
  band_2ghz : ieee80211_supported_band
  /-- The band wl->hw->wiphy->bands[IEEE80211_BAND_5GHZ]. -/
  band_5ghz : ieee80211_supported_band
  bss_type : Nat
  basic_rate : Nat
deriving DecidableEq

/-- Host state. -/
structure World where
  wl : wl1271
  /-- The variable `static bool do_cal` of wl1271_cmd_join. -/
  do_cal : Bool
  /-- Actions issued so far, oldest first. -/
  trace : List Action
  n_jiffies : Nat
  n_read32 : Nat
  n_read : Nat
  n_kzalloc : Nat
  n_skb : Nat
deriving DecidableEq

/-- Append an action to the trace. -/
def World.emit (w : World) (a : Action) : World :=
  { w with trace := w.trace ++ [a] }

/-- A read of the jiffies counter. -/
def read_jiffies (o : Oracle) (w : World) : Nat × World :=
  (o.jiffies w.n_jiffies, { w with n_jiffies := w.n_jiffies + 1 })

/-- The call kzalloc(size, GFP_KERNEL): whether it returned non-NULL. -/
def kzalloc (o : Oracle) (w : World) : Bool × World :=
  (o.kzalloc w.n_kzalloc, { w with n_kzalloc := w.n_kzalloc + 1 })

def wl1271_write (w : World) (addr : Nat) (buf : Buf) (len : Nat) : World :=
  w.emit (.write addr buf len)

def wl1271_write32 (w : World) (reg val : Nat) : World :=
  w.emit (.write32 reg val)

/-- The call wl1271_read32: the value is a u32. -/
def wl1271_read32 (o : Oracle) (w : World) (reg : Nat) : Nat × World :=
  (o.read32 w.n_read32 reg % 2 ^ 32,
   { w with n_read32 := w.n_read32 + 1, trace := w.trace ++ [.read32 reg] })

/-- The call wl1271_read: the len bytes the device returns. -/
def wl1271_read (o : Oracle) (w : World) (addr len : Nat) : List Nat × World :=
  (o.read w.n_read addr len,
   { w with n_read := w.n_read + 1, trace := w.trace ++ [.read addr len] })

def udelay (w : World) (usecs : Nat) : World := w.emit (.udelay usecs)

def msleep (w : World) (msecs : Nat) : World := w.emit (.msleep msecs)

/-! ## wl1271_cmd_send -/

/-- How the completion poll loop of wl1271_cmd_send was left. -/
inductive PollExit where
  | complete
  | timed_out
deriving DecidableEq

/-- The loop `while (!(intr & WL1271_ACX_INTR_CMD_COMPLETE))` of
wl1271_cmd_send, lines 73-87; poll_count is a u16. -/
def wl1271_cmd_send_poll (d : Defs) (o : Oracle) (timeout : Nat) :
    Nat → Nat → Nat → World → Option (PollExit × World)
  | 0, _, _, _ => none
  | fuel + 1, intr, poll_count, w =>
    if intr &&& d.WL1271_ACX_INTR_CMD_COMPLETE ≠ 0 then
      some (.complete, w)
    else
      let (j, w) := read_jiffies o w
      if d.time_after j timeout then
        some (.timed_out, w)
      else
        let poll_count := (poll_count + 1) % 2 ^ 16
        let w := if poll_count < WL1271_CMD_FAST_POLL_COUNT then udelay w 10 else msleep w 1
        let (intr, w) := wl1271_read32 o w d.ACX_REG_INTERRUPT_NO_CLEAR
        wl1271_cmd_send_poll d o timeout fuel intr poll_count w

/-- Result of a call that returns an int and leaves a command buffer behind. -/
structure SendResult where
  ret : Int
  buf : Buf
  world : World
deriving DecidableEq

/-- Lines 89-104 of wl1271_cmd_send: read back the status, acknowledge. -/
def wl1271_cmd_send_finish (d : Defs) (o : Oracle) (w : World) (buf : Buf) (res_len : Nat) :
    SendResult :=
  let res_len := if res_len = 0 then sizeof_cmd_header else res_len
  let (bytes, w) := wl1271_read o w w.wl.cmd_box_addr res_len
  let buf := buf.overwrite bytes res_len
  let status := buf.header.status
  let ret : Int := if status ≠ d.CMD_STATUS_SUCCESS then - EIO else 0
  let w := wl1271_write32 w d.ACX_REG_INTERRUPT_ACK d.WL1271_ACX_INTR_CMD_COMPLETE
  { ret := ret, buf := buf, world := w }

/-- Lines 60-72 of wl1271_cmd_send: stamp the header, write the command, trigger
it, compute the deadline and take the first reading of the interrupt register.
Yields the stamped buffer, the deadline, the reading and the world. -/
def wl1271_cmd_send_start (d : Defs) (o : Oracle) (w : World) (id : Nat) (buf : Buf)
    (len : Nat) : Buf × Nat × Nat × World :=
  let buf := { buf with header := { id := id % 2 ^ 16, status := 0 } }
  let w := wl1271_write w w.wl.cmd_box_addr buf len
  let w := wl1271_write32 w d.ACX_REG_INTERRUPT_TRIG d.INTR_TRIG_CMD
  let (j, w) := read_jiffies o w
  let timeout := (j + d.msecs_to_jiffies d.WL1271_COMMAND_TIMEOUT) % 2 ^ d.BITS_PER_LONG
  let (intr, w) := wl1271_read32 o w d.ACX_REG_INTERRUPT_NO_CLEAR
  (buf, timeout, intr, w)

/-- The function wl1271_cmd_send (lines 50-105). -/
def wl1271_cmd_send (d : Defs) (o : Oracle) (fuel : Nat) (w : World) (id : Nat) (buf : Buf)
    (len res_len : Nat) : Option SendResult :=
  let (buf, timeout, intr, w) := wl1271_cmd_send_start d o w id buf len
  match wl1271_cmd_send_poll d o timeout fuel intr 0 w with
  | none => none
  | some (.timed_out, w) => some { ret := - ETIMEDOUT, buf := buf, world := w }
  | some (.complete, w) => some (wl1271_cmd_send_finish d o w buf res_len)

/-! ## Calibration (lines 107-199) and wl1271_cmd_test (lines 370-388) -/

/-- The function wl1271_cmd_test; answer is a u8. -/
def wl1271_cmd_test (d : Defs) (o : Oracle) (fuel : Nat) (w : World) (buf : Buf)
    (buf_len answer : Nat) : Option SendResult :=
  let res_len := if answer % 256 ≠ 0 then buf_len else 0
  wl1271_cmd_send d o fuel w d.CMD_TEST buf buf_len res_len

/-- A command buffer fresh from kzalloc, with the given body. -/
def Buf.fresh (b : Body) : Buf := { header := { id := 0, status := 0 }, body := b }

/-- The command buffer wl1271_cmd_cal_channel_tune fills in (lines 116-120). -/
def cal_channel_tune_cmd (d : Defs) : Buf :=
  Buf.fresh (.cal_channel_tune
    { test_id := d.TEST_CMD_CHANNEL_TUNE, band := d.WL1271_CHANNEL_TUNE_BAND_2_4, channel := 7 })

/-- The command buffer wl1271_cmd_cal_update_ref_point fills in (lines 139-145). -/
def cal_update_ref_point_cmd (d : Defs) : Buf :=
  Buf.fresh (.cal_update_ref_point
    { test_id := d.TEST_CMD_UPDATE_PD_REFERENCE_POINT, ref_power := 0, ref_detector := 0,
      sub_band := d.WL1271_PD_REFERENCE_POINT_BAND_B_G })

/-- The command buffer wl1271_cmd_cal_p2g fills in (lines 164-166). -/
def cal_p2g_cmd (d : Defs) : Buf :=
  Buf.fresh (.cal_p2g { test_id := d.TEST_CMD_P2G_CAL, sub_band_mask := d.WL1271_CAL_P2G_BAND_B_G })

/-- The common shape of the three calibration sub-commands: allocate, fill in,
wl1271_cmd_test with no answer, free, return ret. -/
def cal_sub_command (d : Defs) (o : Oracle) (fuel : Nat) (w : World) (cmd : Buf) (size : Nat) :
    Option (Int × World) :=
  let (ok, w) := kzalloc o w
  if !ok then some (- ENOMEM, w)
  else
    match wl1271_cmd_test d o fuel w cmd size 0 with
    | none => none
    | some r => some (r.ret, r.world)

def wl1271_cmd_cal_channel_tune (d : Defs) (o : Oracle) (fuel : Nat) (w : World) :
    Option (Int × World) :=
  cal_sub_command d o fuel w (cal_channel_tune_cmd d) d.sizeof_cmd_cal_channel_tune

def wl1271_cmd_cal_update_ref_point (d : Defs) (o : Oracle) (fuel : Nat) (w : World) :
    Option (Int × World) :=
  cal_sub_command d o fuel w (cal_update_ref_point_cmd d) d.sizeof_cmd_cal_update_ref_point

def wl1271_cmd_cal_p2g (d : Defs) (o : Oracle) (fuel : Nat) (w : World) :
    Option (Int × World) :=
  cal_sub_command d o fuel w (cal_p2g_cmd d) d.sizeof_cmd_cal_p2g

/-- The function wl1271_cmd_cal (lines 176-199). -/
def wl1271_cmd_cal (d : Defs) (o : Oracle) (fuel : Nat) (w : World) : Option (Int × World) :=
  match wl1271_cmd_cal_channel_tune d o fuel w with
  | none => none
  | some (ret, w) =>
    if ret < 0 then some (ret, w)
    else
      match wl1271_cmd_cal_update_ref_point d o fuel w with
      | none => none
      | some (ret, w) =>
        if ret < 0 then some (ret, w)
        else
          match wl1271_cmd_cal_p2g d o fuel w with
          | none => none
          | some (ret, w) =>
            if ret < 0 then some (ret, w) else some (ret, w)

/-! ## wl1271_cmd_wait_for_event (lines 264-287) -/

/-- The do-while loop of wl1271_cmd_wait_for_event. -/
def wl1271_cmd_wait_for_event_loop (d : Defs) (o : Oracle) (mask timeout : Nat) :
    Nat → World → Option (Int × World)
  | 0, _ => none
  | fuel + 1, w =>
    let (j, w) := read_jiffies o w
    if d.time_after j timeout then
      some (- ETIMEDOUT, w)
    else
      let w := msleep w 1
      let (bytes, w) := wl1271_read o w w.wl.mbox_ptr0 4
      let events_vector := u32_value bytes
      let event := events_vector &&& mask
      let (bytes, w) := wl1271_read o w w.wl.mbox_ptr1 4
      let events_vector := u32_value bytes
      let event := event ||| (events_vector &&& mask)
      if event = 0 then wl1271_cmd_wait_for_event_loop d o mask timeout fuel w
      else some (0, w)

/-- The function wl1271_cmd_wait_for_event; mask is a u32. -/
def wl1271_cmd_wait_for_event (d : Defs) (o : Oracle) (fuel : Nat) (w : World) (mask : Nat) :
    Option (Int × World) :=
  let (j, w) := read_jiffies o w
  let timeout := (j + d.msecs_to_jiffies d.WL1271_EVENT_TIMEOUT) % 2 ^ d.BITS_PER_LONG
  wl1271_cmd_wait_for_event_loop d o (mask % 2 ^ 32) timeout fuel w

/-! ## wl1271_cmd_join (lines 289-360) -/

/-- Lines 297-303: the calibration that the first joins run.  The error of a
failed calibration is only logged. -/
def wl1271_cmd_join_cal (d : Defs) (o : Oracle) (fuel : Nat) (w : World) : Option World :=
  if w.do_cal then
    match wl1271_cmd_cal d o fuel w with
    | none => none
    | some (ret, w) => if ret < 0 then some w else some { w with do_cal := false }
  else some w

/-- A join command fresh from kzalloc. -/
def cmd_join.zero (d : Defs) : cmd_join :=
  { bssid := List.replicate ETH_ALEN 0, beacon_interval := 0, rx_config_options := 0,
    rx_filter_options := 0, basic_rate_set := 0, dtim_interval := 0, bss_type := 0,
    channel := 0, ssid_len := 0, ssid := List.replicate d.IW_ESSID_MAX_SIZE 0, ctrl := 0 }

/-- Lines 313-316: `for (i = 0; i < ETH_ALEN; i++) bssid[i] = wl->bssid[ETH_ALEN - i - 1]`. -/
def reverse_bssid (dst src : List Nat) : List Nat :=
  (List.range ETH_ALEN).foldl (fun b i => b.set i (src.getD (ETH_ALEN - i - 1) 0)) dst

/-- Lines 311-343: fill in the join command, step the session counter, reset
the TX security counters.  Yields the command and the new state. -/
def wl1271_cmd_join_prepare (d : Defs) (w : World) (bss_type : Nat) : Buf × World :=
  let wl := w.wl
  let join := cmd_join.zero d
  let join := { join with bssid := reverse_bssid join.bssid wl.bssid }
  let join := { join with rx_config_options := wl.rx_config }
  let join := { join with rx_filter_options := wl.rx_filter }
  let join := { join with bss_type := bss_type % 256 }
  let join := { join with basic_rate_set := wl.basic_rate_set }
  let join :=
    if wl.band = d.IEEE80211_BAND_5GHZ then
      { join with bss_type := (join.bss_type ||| d.WL1271_JOIN_CMD_BSS_TYPE_5GHZ) % 256 }
    else join
  let join := { join with beacon_interval := wl.beacon_int % 2 ^ 16 }
  let join := { join with dtim_interval := d.WL1271_DEFAULT_DTIM_PERIOD % 256 }
  let join := { join with channel := wl.channel % 256 }
  let join := { join with ssid_len := wl.ssid_len }
  let join := { join with ssid := memcpy join.ssid wl.ssid wl.ssid_len }
  let join := { join with ctrl := d.WL1271_JOIN_CMD_CTRL_TX_FLUSH % 256 }
  let wl := { wl with session_counter := wl.session_counter + 1 }
  let wl := if wl.session_counter ≥ d.SESSION_COUNTER_MAX then { wl with session_counter := 0 } else wl
  let join :=
    { join with ctrl := (join.ctrl ||| (wl.session_counter <<< d.WL1271_JOIN_CMD_TX_SESSION_OFFSET)) % 256 }
  let wl := { wl with tx_security_last_seq := 0 }
  let wl := { wl with tx_security_seq := 0 }
  (Buf.fresh (.join join), { w with wl := wl })

/-- Lines 345-359: send START_JOIN, then wait for the join-complete event. -/
def wl1271_cmd_join_send (d : Defs) (o : Oracle) (fuel : Nat) (w : World) (join : Buf) :
    Option (Int × World) :=
  match wl1271_cmd_send d o fuel w d.CMD_START_JOIN join d.sizeof_cmd_join 0 with
  | none => none
  | some r =>
    if r.ret < 0 then some (r.ret, r.world)
    else wl1271_cmd_wait_for_event d o fuel r.world d.JOIN_EVENT_COMPLETE_ID

/-- The function wl1271_cmd_join; bss_type is a u8. -/
def wl1271_cmd_join (d : Defs) (o : Oracle) (fuel : Nat) (w : World) (bss_type : Nat) :
    Option (Int × World) :=
  match wl1271_cmd_join_cal d o fuel w with
  | none => none
  | some w =>
    let (ok, w) := kzalloc o w
    if !ok then some (- ENOMEM, w)
    else
      let (join, w) := wl1271_cmd_join_prepare d w bss_type
      wl1271_cmd_join_send d o fuel w join

/-! ## wl1271_cmd_set_key (lines 895-950) -/

/-- A set-keys command fresh from kzalloc. -/
def cmd_set_keys.zero (d : Defs) : cmd_set_keys :=
  { addr := List.replicate ETH_ALEN 0, key_action := 0, key_size := 0, key_type := 0,
    ssid_profile := 0, id := 0, key := List.replicate d.MAX_KEY_SIZE 0,
    ac_seq_num16_0 := 0, ac_seq_num32_0 := 0 }

/-- Lines 908-936: the command wl1271_cmd_set_key fills in.  The arguments id,
key_type and key_size are u8, action and tx_seq_16 are u16, tx_seq_32 is u32. -/
def set_key_cmd (d : Defs) (action id key_type key_size : Nat) (key addr : List Nat)
    (tx_seq_32 tx_seq_16 : Nat) : cmd_set_keys :=
  let key_type := key_type % 256
  let key_size := key_size % 256
  let cmd := cmd_set_keys.zero d
  let cmd := if key_type ≠ d.KEY_WEP then { cmd with addr := memcpy cmd.addr addr ETH_ALEN } else cmd
  let cmd := { cmd with key_action := action % 2 ^ 16 }
  let cmd := { cmd with key_size := key_size }
  let cmd := { cmd with key_type := key_type }
  let cmd := { cmd with ac_seq_num16_0 := tx_seq_16 % 2 ^ 16 }
  let cmd := { cmd with ac_seq_num32_0 := tx_seq_32 % 2 ^ 32 }
  let cmd := { cmd with ssid_profile := 0 }
  let cmd := { cmd with id := id % 256 }
  if key_type = d.KEY_TKIP then
    let cmd := { cmd with key := memcpy_at cmd.key 0 key 0 16 }
    let cmd := { cmd with key := memcpy_at cmd.key 16 key 24 8 }
    { cmd with key := memcpy_at cmd.key 24 key 16 8 }
  else
    { cmd with key := memcpy_at cmd.key 0 key 0 key_size }

/-- The function wl1271_cmd_set_key. -/
def wl1271_cmd_set_key (d : Defs) (o : Oracle) (fuel : Nat) (w : World)
    (action id key_type key_size : Nat) (key addr : List Nat) (tx_seq_32 tx_seq_16 : Nat) :
    Option (Int × World) :=
  let (ok, w) := kzalloc o w
  if !ok then some (- ENOMEM, w)
  else
    let cmd := Buf.fresh (.set_keys (set_key_cmd d action id key_type key_size key addr tx_seq_32 tx_seq_16))
    match wl1271_cmd_send d o fuel w d.CMD_SET_KEYS cmd d.sizeof_cmd_set_keys 0 with
    | none => none
    | some r => some (r.ret, r.world)

/-! ## wl1271_cmd_interrogate and wl1271_cmd_configure (lines 398-444) -/

/-- The value of `cpu_to_le16(len - sizeof(*acx))`: the low 16 bits of the
size_t difference (a size_t has at least 16 bits). -/
def acx_payload_len (d : Defs) (len : Nat) : Nat :=
  (((len : Int) - (d.sizeof_acx_header : Int)) % 65536).toNat

/-- Lines 405-408 and 432-435: the caller's buffer with acx->id and acx->len
filled in; id is a u16. -/
def acx_stamped (d : Defs) (id : Nat) (header : wl1271_cmd_header) (acx : acx_body)
    (len : Nat) : Buf :=
  let acx := { acx with id := id % 2 ^ 16 }
  let acx := { acx with len := acx_payload_len d len }
  { header := header, body := Body.acx acx }

/-- The function wl1271_cmd_interrogate.  The caller's buffer `void *buf` is
given as its command header and what follows it. -/
def wl1271_cmd_interrogate (d : Defs) (o : Oracle) (fuel : Nat) (w : World) (id : Nat)
    (header : wl1271_cmd_header) (acx : acx_body) (len : Nat) : Option SendResult :=
  wl1271_cmd_send d o fuel w d.CMD_INTERROGATE (acx_stamped d id header acx len)
    d.sizeof_acx_header len

/-- The function wl1271_cmd_configure. -/
def wl1271_cmd_configure (d : Defs) (o : Oracle) (fuel : Nat) (w : World) (id : Nat)
    (header : wl1271_cmd_header) (acx : acx_body) (len : Nat) : Option SendResult :=
  match wl1271_cmd_send d o fuel w d.CMD_CONFIGURE (acx_stamped d id header acx len) len 0 with
  | none => none
  | some r => if r.ret < 0 then some r else some { r with ret := 0 }

/-! ## wl1271_cmd_template_set (lines 703-741) -/

/-- A template-set command fresh from kzalloc. -/
def cmd_template_set.zero (d : Defs) : cmd_template_set :=
  { len := 0, template_type := 0, index := 0, enabled_rates := 0, short_retry_limit := 0,
    long_retry_limit := 0, template_data := List.replicate d.WL1271_CMD_TEMPL_MAX_SIZE 0 }

/-- Lines 711-728: the command wl1271_cmd_template_set fills in.  The payload
pointer buf is none when NULL; template_id is a u16, rates a u32, and the
fields template_type, index and the retry limits are bytes. -/
def template_set_cmd (d : Defs) (wl : wl1271) (template_id : Nat) (buf : Option (List Nat))
    (buf_len index rates : Nat) : cmd_template_set :=
  let buf_len := min buf_len d.WL1271_CMD_TEMPL_MAX_SIZE
  let cmd := cmd_template_set.zero d
  let cmd := { cmd with len := buf_len % 2 ^ 16 }
  let cmd := { cmd with template_type := template_id % 2 ^ 16 % 256 }
  let cmd := { cmd with enabled_rates := rates % 2 ^ 32 }
  let cmd := { cmd with short_retry_limit := wl.conf_short_retry_limit % 256 }
  let cmd := { cmd with long_retry_limit := wl.conf_long_retry_limit % 256 }
  let cmd := { cmd with index := index % 256 }
  match buf with
  | some payload => { cmd with template_data := memcpy cmd.template_data payload buf_len }
  | none => cmd

/-- The function wl1271_cmd_template_set. -/
def wl1271_cmd_template_set (d : Defs) (o : Oracle) (fuel : Nat) (w : World) (template_id : Nat)
    (buf : Option (List Nat)) (buf_len index rates : Nat) : Option (Int × World) :=
  let (ok, w) := kzalloc o w
  if !ok then some (- ENOMEM, w)
  else
    let cmd := Buf.fresh (.template_set (template_set_cmd d w.wl template_id buf buf_len index rates))
    match wl1271_cmd_send d o fuel w d.CMD_SET_TEMPLATE cmd d.sizeof_cmd_template_set 0 with
    | none => none
    | some r => some (r.ret, r.world)

/-! ## wl1271_cmd_build_null_data, wl1271_cmd_build_klv_null_data and
wl1271_cmd_build_ps_poll (lines 743-812) -/

/-- The call ieee80211_nullfunc_get(wl->hw, wl->vif): the next frame mac80211
hands out, none when it returns NULL. -/
def ieee80211_nullfunc_get (o : Oracle) (w : World) : Option (List Nat) × World :=
  (o.skb w.n_skb, { w with n_skb := w.n_skb + 1 })

/-- The call ieee80211_pspoll_get(wl->hw, wl->vif): the next frame mac80211
hands out, none when it returns NULL. -/
def ieee80211_pspoll_get (o : Oracle) (w : World) : Option (List Nat) × World :=
  (o.skb w.n_skb, { w with n_skb := w.n_skb + 1 })

/-- The function wl1271_cmd_build_null_data (lines 743-770).  In an IBSS no
frame is asked for: the template is set from a NULL pointer with the size of
struct wl12xx_null_data_template.  The variable size holds skb->len, the
length of the frame. -/
def wl1271_cmd_build_null_data (d : Defs) (o : Oracle) (fuel : Nat) (w : World) :
    Option (Int × World) :=
  if w.wl.bss_type = d.BSS_TYPE_IBSS then
    wl1271_cmd_template_set d o fuel w d.CMD_TEMPL_NULL_DATA none d.sizeof_null_data_template 0
      d.WL1271_RATE_AUTOMATIC
  else
    let (skb, w) := ieee80211_nullfunc_get o w
    match skb with
    | none => some (- ENOMEM, w)
    | some data =>
      wl1271_cmd_template_set d o fuel w d.CMD_TEMPL_NULL_DATA (some data) data.length 0
        d.WL1271_RATE_AUTOMATIC

/-- The function wl1271_cmd_build_klv_null_data (lines 772-795). -/
def wl1271_cmd_build_klv_null_data (d : Defs) (o : Oracle) (fuel : Nat) (w : World) :
    Option (Int × World) :=
  let (skb, w) := ieee80211_nullfunc_get o w
  match skb with
  | none => some (- ENOMEM, w)
  | some data =>
    wl1271_cmd_template_set d o fuel w d.CMD_TEMPL_KLV (some data) data.length
      d.CMD_TEMPL_KLV_IDX_NULL_DATA d.WL1271_RATE_AUTOMATIC

/-- The function wl1271_cmd_build_ps_poll (lines 797-812); ret starts as 0 and
the argument aid is not used. -/
def wl1271_cmd_build_ps_poll (d : Defs) (o : Oracle) (fuel : Nat) (w : World) (_aid : Nat) :
    Option (Int × World) :=
  let (skb, w) := ieee80211_pspoll_get o w
  match skb with
  | none => some (0, w)
  | some data =>
    wl1271_cmd_template_set d o fuel w d.CMD_TEMPL_PS_POLL (some data) data.length 0
      w.wl.basic_rate

/-! ## wl1271_cmd_build_probe_req (lines 814-842) -/

/-- The call ieee80211_probereq_get(wl->hw, wl->vif, ssid, ssid_len, ie, ie_len):
the frame is the oracle's, whatever the arguments. -/
def ieee80211_probereq_get (o : Oracle) (w : World) (_ssid : Option (List Nat)) (_ssid_len : Nat)
    (_ie : Option (List Nat)) (_ie_len : Nat) : Option (List Nat) × World :=
  (o.skb w.n_skb, { w with n_skb := w.n_skb + 1 })

/-- The function wl1271_cmd_build_probe_req; band is a u8. -/
def wl1271_cmd_build_probe_req (d : Defs) (o : Oracle) (fuel : Nat) (w : World)
    (ssid : Option (List Nat)) (ssid_len : Nat) (ie : Option (List Nat)) (ie_len band : Nat) :
    Option (Int × World) :=
  let (skb, w) := ieee80211_probereq_get o w ssid ssid_len ie ie_len
  match skb with
  | none => some (- ENOMEM, w)
  | some data =>
    if band % 256 = d.IEEE80211_BAND_2GHZ then
      wl1271_cmd_template_set d o fuel w d.CMD_TEMPL_CFG_PROBE_REQ_2_4 (some data) data.length 0
        w.wl.conf_tx_basic_rate
    else
      wl1271_cmd_template_set d o fuel w d.CMD_TEMPL_CFG_PROBE_REQ_5 (some data) data.length 0
        w.wl.conf_tx_basic_rate_5

/-! ## wl1271_cmd_scan (lines 569-701) -/

/-- Lines 582-592: the mac80211 band and the rate that the requested scan band
selects; none is the final `else return -EINVAL`. -/
def scan_select_band (d : Defs) (wl : wl1271) (band : Nat) : Option (Nat × Nat) :=
  if band = d.WL1271_SCAN_BAND_2_4_GHZ then
    some (d.IEEE80211_BAND_2GHZ, wl.conf_tx_basic_rate)
  else if band = d.WL1271_SCAN_BAND_DUAL ∧ d.wl1271_11a_enabled = true then
    some (d.IEEE80211_BAND_2GHZ, wl.conf_tx_basic_rate)
  else if band = d.WL1271_SCAN_BAND_5_GHZ ∧ d.wl1271_11a_enabled = true then
    some (d.IEEE80211_BAND_5GHZ, wl.conf_tx_basic_rate_5)
  else none

/-- The band wl->hw->wiphy->bands[ieee_band], for the two indices the scan
uses. -/
def wl1271.bands (d : Defs) (wl : wl1271) (ieee_band : Nat) : ieee80211_supported_band :=
  if ieee_band = d.IEEE80211_BAND_2GHZ then wl.band_2ghz else wl.band_5ghz

/-- An element of params->channels fresh from kzalloc. -/
def basic_scan_channel_parameters.zero : basic_scan_channel_parameters :=
  { min_duration := 0, max_duration := 0, bssid_lsb := 0, bssid_msb := 0, early_termination := 0,
    tx_power_att := 0, channel := 0 }

/-- Lines 629-638: the descriptor written for a channel. -/
def scan_channel_descriptor (d : Defs) (ch : ieee80211_channel) : basic_scan_channel_parameters :=
  { min_duration := d.WL1271_SCAN_CHAN_MIN_DURATION % 2 ^ 32,
    max_duration := d.WL1271_SCAN_CHAN_MAX_DURATION % 2 ^ 32,
    bssid_lsb := 0xffffffff,
    bssid_msb := 0xffff,
    early_termination := 0,
    tx_power_att := d.WL1271_SCAN_CURRENT_TX_PWR % 256,
    channel := ch.hw_value % 256 }

/-- The element channels[i] of a channel array. -/
def channel_at (channels : List ieee80211_channel) (i : Nat) : ieee80211_channel :=
  channels.getD i { flags := 0, hw_value := 0 }

/-- One round of the loop of lines 627-641, on the pair of j and
params->channels. -/
def scan_channel_step (d : Defs) (channels : List ieee80211_channel)
    (st : Nat × List basic_scan_channel_parameters) (i : Nat) :
    Nat × List basic_scan_channel_parameters :=
  if (channel_at channels i).flags &&& d.IEEE80211_CHAN_DISABLED = 0 then
    (st.1 + 1, st.2.set st.1 (scan_channel_descriptor d (channel_at channels i)))
  else st

/-- The loop `for (i = 0, j = 0; i < n_ch && i < WL1271_SCAN_MAX_CHANNELS; i++)`
of lines 627-641: the final j and params->channels. -/
def scan_channels (d : Defs) (channels : List ieee80211_channel) (n_ch : Nat) :
    Nat × List basic_scan_channel_parameters :=
  (List.range (min n_ch d.WL1271_SCAN_MAX_CHANNELS)).foldl (scan_channel_step d channels)
    (0, List.replicate d.WL1271_SCAN_MAX_CHANNELS basic_scan_channel_parameters.zero)

/-- A struct basic_scan_parameters fresh from kzalloc. -/
def basic_scan_parameters.zero (d : Defs) : basic_scan_parameters :=
  { rx_config_options := 0, rx_filter_options := 0, scan_options := 0, num_channels := 0,
    num_probe_requests := 0, tx_rate := 0, tid_trigger := 0, ssid_len := 0,
    ssid := List.replicate d.IW_ESSID_MAX_SIZE 0, scan_tag := 0, band := 0 }

/-- Lines 607-648: the scan command wl1271_cmd_scan fills in.  The arguments
active_scan, high_prio, band and probe_requests are bytes; ssid is none when
NULL. -/
def scan_cmd (d : Defs) (ssid : Option (List Nat)) (ssid_len active_scan high_prio band
    probe_requests rate : Nat) (channels : List ieee80211_channel) (n_ch : Nat) : cmd_scan :=
  let params := basic_scan_parameters.zero d
  let params := { params with rx_config_options := d.CFG_RX_ALL_GOOD % 2 ^ 32 }
  let params := { params with
    rx_filter_options := (d.CFG_RX_PRSP_EN ||| d.CFG_RX_MGMT_EN ||| d.CFG_RX_BCN_EN) % 2 ^ 32 }
  let scan_options := 0
  let scan_options :=
    if active_scan = 0 then (scan_options ||| d.WL1271_SCAN_OPT_PASSIVE) % 2 ^ 16 else scan_options
  let scan_options :=
    if high_prio ≠ 0 then (scan_options ||| d.WL1271_SCAN_OPT_PRIORITY_HIGH) % 2 ^ 16
    else scan_options
  let params := { params with scan_options := scan_options }
  let params := { params with num_probe_requests := probe_requests }
  let params := { params with tx_rate := rate % 2 ^ 32 }
  let params := { params with tid_trigger := 0 }
  let params := { params with scan_tag := d.WL1271_SCAN_DEFAULT_TAG % 256 }
  let params :=
    if band = d.WL1271_SCAN_BAND_DUAL then { params with band := d.WL1271_SCAN_BAND_2_4_GHZ % 256 }
    else { params with band := band }
  let jc := scan_channels d channels n_ch
  let params := { params with num_channels := jc.1 % 256 }
  let params :=
    match ssid with
    | some s =>
      if ssid_len ≠ 0 then
        { params with ssid_len := ssid_len % 256, ssid := memcpy params.ssid s ssid_len }
      else params
    | none => params
  { params := params, channels := jc.2 }

/-- Lines 675-688: set the scanning flag and record the scan parameters. -/
def scan_record (d : Defs) (w : World) (ssid : Option (List Nat)) (ssid_len active_scan high_prio
    band probe_requests : Nat) : World :=
  let wl := w.wl
  let wl := { wl with flag_scanning := true }
  let wl :=
    if d.wl1271_11a_enabled = true then
      let wl := { wl with scan := { wl.scan with state := band } }
      if band = d.WL1271_SCAN_BAND_DUAL then
        let wl := { wl with scan := { wl.scan with active := active_scan } }
        let wl := { wl with scan := { wl.scan with high_prio := high_prio } }
        let wl := { wl with scan := { wl.scan with probe_requests := probe_requests } }
        match ssid with
        | some s =>
          if ssid_len ≠ 0 then
            { wl with scan := { wl.scan with ssid_len := ssid_len,
                                             ssid := memcpy wl.scan.ssid s ssid_len } }
          else { wl with scan := { wl.scan with ssid_len := 0 } }
        | none => { wl with scan := { wl.scan with ssid_len := 0 } }
      else wl
    else wl
  { w with wl := wl }

/-- The call clear_bit(WL1271_FLAG_SCANNING, &wl->flags). -/
def clear_scanning (w : World) : World :=
  { w with wl := { w.wl with flag_scanning := false } }

/-- Lines 690-700: send the scan command; on failure clear the scanning flag. -/
def wl1271_cmd_scan_start (d : Defs) (o : Oracle) (fuel : Nat) (w : World) (params : cmd_scan) :
    Option (Int × World) :=
  match wl1271_cmd_send d o fuel w d.CMD_SCAN (Buf.fresh (.scan params)) d.sizeof_cmd_scan 0 with
  | none => none
  | some r => if r.ret < 0 then some (r.ret, clear_scanning r.world) else some (r.ret, r.world)

/-- Lines 657-700: allocate and send the scan-timeout trigger with the timeout
disabled, set the flag and record the parameters, send the scan command. -/
def wl1271_cmd_scan_trigger (d : Defs) (o : Oracle) (fuel : Nat) (w : World) (params : cmd_scan)
    (ssid : Option (List Nat)) (ssid_len active_scan high_prio band probe_requests : Nat) :
    Option (Int × World) :=
  let (ok, w) := kzalloc o w
  if !ok then some (- ENOMEM, w)
  else
    match wl1271_cmd_send d o fuel w d.CMD_TRIGGER_SCAN_TO
        (Buf.fresh (.trigger_scan_to { timeout := 0 })) d.sizeof_cmd_trigger_scan_to 0 with
    | none => none
    | some r =>
      if r.ret < 0 then some (r.ret, r.world)
      else
        wl1271_cmd_scan_start d o fuel
          (scan_record d r.world ssid ssid_len active_scan high_prio band probe_requests) params

/-- Lines 603-700: allocate and fill in the scan command, set the probe-request
template, then go on with the trigger. -/
def wl1271_cmd_scan_body (d : Defs) (o : Oracle) (fuel : Nat) (w : World)
    (ssid : Option (List Nat)) (ssid_len : Nat) (ie : Option (List Nat))
    (ie_len active_scan high_prio band probe_requests ieee_band rate : Nat)
    (channels : List ieee80211_channel) (n_ch : Nat) : Option (Int × World) :=
  let (ok, w) := kzalloc o w
  if !ok then some (- ENOMEM, w)
  else
    let params := scan_cmd d ssid ssid_len active_scan high_prio band probe_requests rate channels n_ch
    match wl1271_cmd_build_probe_req d o fuel w ssid ssid_len ie ie_len ieee_band with
    | none => none
    | some (ret, w) =>
      if ret < 0 then some (ret, w)
      else
        wl1271_cmd_scan_trigger d o fuel w params ssid ssid_len active_scan high_prio band
          probe_requests

/-- The function wl1271_cmd_scan; active_scan, high_prio, band and
probe_requests are u8. -/
def wl1271_cmd_scan (d : Defs) (o : Oracle) (fuel : Nat) (w : World) (ssid : Option (List Nat))
    (ssid_len : Nat) (ie : Option (List Nat)) (ie_len active_scan high_prio band
    probe_requests : Nat) : Option (Int × World) :=
  let active_scan := active_scan % 256
  let high_prio := high_prio % 256
  let band := band % 256
  let probe_requests := probe_requests % 256
  match scan_select_band d w.wl band with
  | none => some (- EINVAL, w)
  | some (ieee_band, rate) =>
    match (w.wl.bands d ieee_band).channels with
    | none => some (- EINVAL, w)
    | some channels =>
      if w.wl.flag_scanning = true then some (- EINVAL, w)
      else
        wl1271_cmd_scan_body d o fuel w ssid ssid_len ie ie_len active_scan high_prio band
          probe_requests ieee_band rate channels (w.wl.bands d ieee_band).n_channels

/-! ## Vocabulary of the statements -/

/-- Whether a reading of the interrupt status register has the
command-complete bit set. -/
def cmd_complete (d : Defs) (intr : Nat) : Bool :=
  decide (intr &&& d.WL1271_ACX_INTR_CMD_COMPLETE ≠ 0)

/-- The actions of n rounds of the poll loop of wl1271_cmd_send entered with
the given poll_count: a wait, then a read of the interrupt status register. -/
def poll_actions (d : Defs) : Nat → Nat → List Action
  | _, 0 => []
  | poll_count, n + 1 =>
    let poll_count := (poll_count + 1) % 2 ^ 16
    (if poll_count < WL1271_CMD_FAST_POLL_COUNT then Action.udelay 10 else Action.msleep 1)
      :: Action.read32 d.ACX_REG_INTERRUPT_NO_CLEAR :: poll_actions d poll_count n

/-- The world after n rounds of the poll loop and j further reads of jiffies. -/
def World.after_poll (d : Defs) (w : World) (poll_count n j : Nat) : World :=
  { w with n_jiffies := w.n_jiffies + n + j, n_read32 := w.n_read32 + n,
           trace := w.trace ++ poll_actions d poll_count n }

/-- The k-th value of intr the poll loop tests when it is entered with the
reading intr in world w. -/
def poll_reading (d : Defs) (o : Oracle) (intr : Nat) (w : World) : Nat → Nat
  | 0 => intr
  | k + 1 => o.read32 (w.n_read32 + k) d.ACX_REG_INTERRUPT_NO_CLEAR % 2 ^ 32

/-- Whether the k-th deadline check of the poll loop entered in world w fails. -/
def poll_late (d : Defs) (o : Oracle) (timeout : Nat) (w : World) (k : Nat) : Bool :=
  d.time_after (o.jiffies (w.n_jiffies + k)) timeout

/-- The first n tests of the poll loop find the bit clear and the deadline
not passed. -/
def poll_pending (d : Defs) (o : Oracle) (timeout intr : Nat) (w : World) (n : Nat) : Prop :=
  ∀ k, k < n → cmd_complete d (poll_reading d o intr w k) = false ∧ poll_late d o timeout w k = false

/-- The k-th reading of the interrupt status register that a wl1271_cmd_send
entered in world w obtains (k = 0 is the reading before the loop). -/
def send_reading (d : Defs) (o : Oracle) (w : World) (k : Nat) : Nat :=
  o.read32 (w.n_read32 + k) d.ACX_REG_INTERRUPT_NO_CLEAR % 2 ^ 32

/-- The deadline a wl1271_cmd_send entered in world w computes (line 70). -/
def send_deadline (d : Defs) (o : Oracle) (w : World) : Nat :=
  (o.jiffies w.n_jiffies + d.msecs_to_jiffies d.WL1271_COMMAND_TIMEOUT) % 2 ^ d.BITS_PER_LONG

/-- Whether the k-th deadline check (line 74) of a wl1271_cmd_send entered in
world w fails, that is time_after(jiffies, timeout) holds. -/
def send_late (d : Defs) (o : Oracle) (w : World) (k : Nat) : Bool :=
  d.time_after (o.jiffies (w.n_jiffies + 1 + k)) (send_deadline d o w)

/-- Readings 0 .. n-1 lack the command-complete bit and deadline checks
0 .. n-1 pass. -/
def send_pending (d : Defs) (o : Oracle) (w : World) (n : Nat) : Prop :=
  ∀ k, k < n → cmd_complete d (send_reading d o w k) = false ∧ send_late d o w k = false

/-- Reading n is the first with the command-complete bit, and no deadline
check failed before it was obtained. -/
def send_completes_at (d : Defs) (o : Oracle) (w : World) (n : Nat) : Prop :=
  send_pending d o w n ∧ cmd_complete d (send_reading d o w n) = true

/-- Deadline check n fails, and no reading obtained until then (readings
0 .. n) has the command-complete bit. -/
def send_times_out_at (d : Defs) (o : Oracle) (w : World) (n : Nat) : Prop :=
  send_pending d o w n ∧ cmd_complete d (send_reading d o w n) = false ∧ send_late d o w n = true

/-- The command buffer as wl1271_cmd_send writes it to the device: the
caller's buffer with the id stamped and the status cleared (lines 61-62). -/
def stamped (id : Nat) (buf : Buf) : Buf :=
  { buf with header := { id := id % 2 ^ 16, status := 0 } }

/-- The length wl1271_cmd_send reads back (lines 90-91). -/
def read_back_len (res_len : Nat) : Nat :=
  if res_len = 0 then sizeof_cmd_header else res_len

/-- The buffer after the read-back of a wl1271_cmd_send entered in world w. -/
def read_back (o : Oracle) (w : World) (id : Nat) (buf : Buf) (res_len : Nat) : Buf :=
  (stamped id buf).overwrite (o.read w.n_read w.wl.cmd_box_addr (read_back_len res_len))
    (read_back_len res_len)

/-- The actions a wl1271_cmd_send issues up to and including reading n of the
interrupt status register. -/
def send_actions (d : Defs) (w : World) (id : Nat) (buf : Buf) (len n : Nat) : List Action :=
  [Action.write w.wl.cmd_box_addr (stamped id buf) len,
   Action.write32 d.ACX_REG_INTERRUPT_TRIG d.INTR_TRIG_CMD,
   Action.read32 d.ACX_REG_INTERRUPT_NO_CLEAR] ++ poll_actions d 0 n

/-- The two actions that end a completed wl1271_cmd_send: the read-back and
the acknowledgement. -/
def finish_actions (d : Defs) (w : World) (res_len : Nat) : List Action :=
  [Action.read w.wl.cmd_box_addr (read_back_len res_len),
   Action.write32 d.ACX_REG_INTERRUPT_ACK d.WL1271_ACX_INTR_CMD_COMPLETE]

/-- The result of a wl1271_cmd_send entered in world w that sees the
command-complete bit in reading n. -/
def send_completed (d : Defs) (o : Oracle) (w : World) (id : Nat) (buf : Buf)
    (len res_len n : Nat) : SendResult :=
  { ret := if (read_back o w id buf res_len).header.status ≠ d.CMD_STATUS_SUCCESS then - EIO else 0,
    buf := read_back o w id buf res_len,
    world := { w with n_jiffies := w.n_jiffies + 1 + n, n_read32 := w.n_read32 + 1 + n,
                      n_read := w.n_read + 1,
                      trace := w.trace ++ (send_actions d w id buf len n ++ finish_actions d w res_len) } }

/-- The result of a wl1271_cmd_send entered in world w whose deadline check n
fails. -/
def send_timed_out (d : Defs) (w : World) (id : Nat) (buf : Buf) (len n : Nat) : SendResult :=
  { ret := - ETIMEDOUT,
    buf := stamped id buf,
    world := { w with n_jiffies := w.n_jiffies + 1 + n + 1, n_read32 := w.n_read32 + 1 + n,
                      trace := w.trace ++ send_actions d w id buf len n } }

/-- The world in which wl1271_cmd_send enters its poll loop. -/
def send_entry (d : Defs) (w : World) (id : Nat) (buf : Buf) (len : Nat) : World :=
  { w with n_jiffies := w.n_jiffies + 1, n_read32 := w.n_read32 + 1,
           trace := w.trace ++ send_actions d w id buf len 0 }

/-- Whether wl1271_cmd_send, entered in world w, returns the value v: some
amount of fuel lets the call return, and it returns v. -/
def send_returns (d : Defs) (o : Oracle) (w : World) (id : Nat) (buf : Buf) (len res_len : Nat)
    (v : Int) : Prop :=
  ∃ fuel r, wl1271_cmd_send d o fuel w id buf len res_len = some r ∧ r.ret = v

/-- The actions of n rounds of the loop of wl1271_cmd_wait_for_event: a sleep,
a read of event mailbox A, a read of event mailbox B. -/
def wait_actions (mbox_a mbox_b : Nat) : Nat → List Action
  | 0 => []
  | n + 1 =>
    Action.msleep 1 :: Action.read mbox_a 4 :: Action.read mbox_b 4
      :: wait_actions mbox_a mbox_b n

/-- The world after n full rounds of the event loop and j further reads of
jiffies. -/
def World.after_wait (w : World) (n j : Nat) : World :=
  { w with n_jiffies := w.n_jiffies + n + j, n_read := w.n_read + 2 * n,
           trace := w.trace ++ wait_actions w.wl.mbox_ptr0 w.wl.mbox_ptr1 n }

/-- Whether deadline check k of the event loop entered in world w fails. -/
def loop_late (d : Defs) (o : Oracle) (timeout : Nat) (w : World) (k : Nat) : Bool :=
  d.time_after (o.jiffies (w.n_jiffies + k)) timeout

/-- The value of event that round k of the event loop entered in world w
computes. -/
def loop_event (o : Oracle) (mask : Nat) (w : World) (k : Nat) : Nat :=
  (u32_value (o.read (w.n_read + 2 * k) w.wl.mbox_ptr0 4) &&& mask)
    ||| (u32_value (o.read (w.n_read + 2 * k + 1) w.wl.mbox_ptr1 4) &&& mask)

/-- Rounds 0 .. n-1 of the event loop pass their deadline check and find no
event. -/
def loop_pending (d : Defs) (o : Oracle) (mask timeout : Nat) (w : World) (n : Nat) : Prop :=
  ∀ k, k < n → loop_late d o timeout w k = false ∧ loop_event o mask w k = 0

/-- The world in which wl1271_cmd_wait_for_event enters its loop. -/
def wait_entry (w : World) : World := { w with n_jiffies := w.n_jiffies + 1 }

/-- The deadline a wl1271_cmd_wait_for_event entered in world w computes
(line 269). -/
def wait_deadline (d : Defs) (o : Oracle) (w : World) : Nat :=
  (o.jiffies w.n_jiffies + d.msecs_to_jiffies d.WL1271_EVENT_TIMEOUT) % 2 ^ d.BITS_PER_LONG

/-- Whether the deadline check of iteration k (line 272) of a
wl1271_cmd_wait_for_event entered in world w fails. -/
def wait_late (d : Defs) (o : Oracle) (w : World) (k : Nat) : Bool :=
  d.time_after (o.jiffies (w.n_jiffies + 1 + k)) (wait_deadline d o w)

/-- The word iteration k reads from event mailbox A. -/
def wait_mbox_a (o : Oracle) (w : World) (k : Nat) : Nat :=
  u32_value (o.read (w.n_read + 2 * k) w.wl.mbox_ptr0 4)

/-- The word iteration k reads from event mailbox B. -/
def wait_mbox_b (o : Oracle) (w : World) (k : Nat) : Nat :=
  u32_value (o.read (w.n_read + 2 * k + 1) w.wl.mbox_ptr1 4)

/-- Whether in iteration k mailbox A or mailbox B holds a bit of the mask. -/
def wait_hit (o : Oracle) (w : World) (mask k : Nat) : Bool :=
  decide (wait_mbox_a o w k &&& (mask % 2 ^ 32) ≠ 0 ∨ wait_mbox_b o w k &&& (mask % 2 ^ 32) ≠ 0)

/-- Iterations 0 .. n-1 pass their deadline check and find no overlap. -/
def wait_pending (d : Defs) (o : Oracle) (w : World) (mask n : Nat) : Prop :=
  ∀ k, k < n → wait_late d o w k = false ∧ wait_hit o w mask k = false

/-- Iteration n is the first whose deadline check passes and in which a
mailbox overlaps the mask; no deadline check failed before. -/
def wait_succeeds_at (d : Defs) (o : Oracle) (w : World) (mask n : Nat) : Prop :=
  wait_pending d o w mask n ∧ wait_late d o w n = false ∧ wait_hit o w mask n = true

/-- The deadline check of iteration n fails, before any iteration with an
overlap. -/
def wait_times_out_at (d : Defs) (o : Oracle) (w : World) (mask n : Nat) : Prop :=
  wait_pending d o w mask n ∧ wait_late d o w n = true

/-- Whether wl1271_cmd_wait_for_event, entered in world w, returns v. -/
def wait_returns (d : Defs) (o : Oracle) (w : World) (mask : Nat) (v : Int) : Prop :=
  ∃ fuel r, wl1271_cmd_wait_for_event d o fuel w mask = some r ∧ r.1 = v

instance (d : Defs) (o : Oracle) (w : World) (n : Nat) : Decidable (send_pending d o w n) := by
  unfold send_pending; infer_instance

instance (d : Defs) (o : Oracle) (w : World) (n : Nat) : Decidable (send_completes_at d o w n) := by
  unfold send_completes_at; infer_instance

instance (d : Defs) (o : Oracle) (w : World) (n : Nat) : Decidable (send_times_out_at d o w n) := by
  unfold send_times_out_at; infer_instance

instance (d : Defs) (o : Oracle) (w : World) (mask n : Nat) : Decidable (wait_pending d o w mask n) := by
  unfold wait_pending; infer_instance

instance (d : Defs) (o : Oracle) (w : World) (mask n : Nat) :
    Decidable (wait_succeeds_at d o w mask n) := by
  unfold wait_succeeds_at; infer_instance

instance (d : Defs) (o : Oracle) (w : World) (mask n : Nat) :
    Decidable (wait_times_out_at d o w mask n) := by
  unfold wait_times_out_at; infer_instance

/-- The command buffers written to the device by a list of actions, in order. -/
def writes : List Action → List Buf
  | [] => []
  | Action.write _ b _ :: l => b :: writes l
  | _ :: l => writes l

/-- The three calibration commands as they reach the device, in the order
wl1271_cmd_cal issues them. -/
def cal_commands (d : Defs) : List Buf :=
  [stamped d.CMD_TEST (cal_channel_tune_cmd d), stamped d.CMD_TEST (cal_update_ref_point_cmd d),
   stamped d.CMD_TEST (cal_p2g_cmd d)]

/-- A call that takes fuel converges to a result: from some amount of fuel
on, it returns that result. -/
def Converges {α : Type} (f : Nat → Option α) (a : α) : Prop :=
  ∃ n, ∀ fuel, n < fuel → f fuel = some a

/-- A run of successive wl1271_cmd_join calls, one per given bss_type; the
values the calls return are dropped. -/
def join_calls (d : Defs) (o : Oracle) (fuel : Nat) : List Nat → World → Option World
  | [], w => some w
  | bss_type :: rest, w =>
    match wl1271_cmd_join d o fuel w bss_type with
    | none => none
    | some (_, w) => join_calls d o fuel rest w

/-- The clock is live: from every point on, against every deadline, some later
deadline check fails. -/
def Live (d : Defs) (o : Oracle) : Prop :=
  ∀ j timeout, ∃ k, d.time_after (o.jiffies (j + k)) timeout = true

/-! ## Example values, to run the model on concrete inputs -/

/-- The macro time_after(a, b) of linux/jiffies.h, `(long)(b) - (long)(a) < 0`,
for 32-bit longs. -/
def time_after32 (a b : Nat) : Bool :=
  decide (2 ^ 31 ≤ (b % 2 ^ 32 + 2 ^ 32 - a % 2 ^ 32) % 2 ^ 32)

/-- Example values for the constants of the missing headers. -/
def example_defs : Defs :=
  { BITS_PER_LONG := 32
    msecs_to_jiffies := fun m => m / 10
    time_after := time_after32
    WL1271_COMMAND_TIMEOUT := 2000
    WL1271_EVENT_TIMEOUT := 750
    ACX_REG_INTERRUPT_TRIG := 0x300474
    ACX_REG_INTERRUPT_NO_CLEAR := 0x3004B0
    ACX_REG_INTERRUPT_ACK := 0x3004F0
    INTR_TRIG_CMD := 1
    WL1271_ACX_INTR_CMD_COMPLETE := 16
    CMD_STATUS_SUCCESS := 1
    CMD_TEST := 23
    CMD_START_JOIN := 11
    CMD_SET_KEYS := 12
    TEST_CMD_CHANNEL_TUNE := 0x0D
    TEST_CMD_UPDATE_PD_REFERENCE_POINT := 0x1D
    TEST_CMD_P2G_CAL := 0x02
    WL1271_CHANNEL_TUNE_BAND_2_4 := 0
    WL1271_PD_REFERENCE_POINT_BAND_B_G := 0
    WL1271_CAL_P2G_BAND_B_G := 1
    IEEE80211_BAND_5GHZ := 1
    WL1271_JOIN_CMD_BSS_TYPE_5GHZ := 0x10
    WL1271_DEFAULT_DTIM_PERIOD := 1
    WL1271_JOIN_CMD_CTRL_TX_FLUSH := 0x80
    WL1271_JOIN_CMD_TX_SESSION_OFFSET := 1
    SESSION_COUNTER_MAX := 7
    JOIN_EVENT_COMPLETE_ID := 0x20000
    KEY_WEP := 1
    KEY_TKIP := 2
    IW_ESSID_MAX_SIZE := 32
    MAX_KEY_SIZE := 32
    sizeof_cmd_cal_channel_tune := 12
    sizeof_cmd_cal_update_ref_point := 16
    sizeof_cmd_cal_p2g := 16
    sizeof_cmd_join := 68
    sizeof_cmd_set_keys := 72
    wl1271_11a_enabled := false
    WL1271_SCAN_BAND_2_4_GHZ := 0
    WL1271_SCAN_BAND_5_GHZ := 1
    WL1271_SCAN_BAND_DUAL := 2
    IEEE80211_BAND_2GHZ := 0
    IEEE80211_CHAN_DISABLED := 1
    CFG_RX_ALL_GOOD := 0
    CFG_RX_PRSP_EN := 4
    CFG_RX_MGMT_EN := 16
    CFG_RX_BCN_EN := 2048
    WL1271_SCAN_OPT_PASSIVE := 1
    WL1271_SCAN_OPT_PRIORITY_HIGH := 4
    WL1271_SCAN_DEFAULT_TAG := 1
    WL1271_SCAN_MAX_CHANNELS := 24
    WL1271_SCAN_CHAN_MIN_DURATION := 30000
    WL1271_SCAN_CHAN_MAX_DURATION := 60000
    WL1271_SCAN_CURRENT_TX_PWR := 0
    WL1271_CMD_TEMPL_MAX_SIZE := 252
    CMD_TEMPL_CFG_PROBE_REQ_2_4 := 1
    CMD_TEMPL_CFG_PROBE_REQ_5 := 2
    CMD_INTERROGATE := 1
    CMD_CONFIGURE := 2
    CMD_SET_TEMPLATE := 19
    CMD_TRIGGER_SCAN_TO := 21
    CMD_SCAN := 8
    sizeof_acx_header := 8
    sizeof_cmd_scan := 272
    sizeof_cmd_trigger_scan_to := 8
    sizeof_cmd_template_set := 268
    BSS_TYPE_IBSS := 0
    CMD_TEMPL_NULL_DATA := 0
    CMD_TEMPL_KLV := 5
    CMD_TEMPL_PS_POLL := 6
    CMD_TEMPL_KLV_IDX_NULL_DATA := 0
    WL1271_RATE_AUTOMATIC := 0x80000000
    sizeof_null_data_template := 24 }

/-- An example device state. -/
def example_wl : wl1271 :=
  { cmd_box_addr := 0x40000, mbox_ptr0 := 0x50000, mbox_ptr1 := 0x50100,
    bssid := [0x00, 0x1A, 0x2B, 0x3C, 0x4D, 0x5E], rx_config := 0, rx_filter := 0,
    basic_rate_set := 1, band := 0, beacon_int := 100, channel := 6, ssid_len := 3,
    ssid := [0x61, 0x62, 0x63], session_counter := 6, tx_security_last_seq := 9,
    tx_security_seq := 77, flag_scanning := false,
    scan := { state := 7, ssid := List.replicate 32 0, ssid_len := 0, active := 0,
              high_prio := 0, probe_requests := 0 },
    conf_tx_basic_rate := 1, conf_tx_basic_rate_5 := 8, conf_short_retry_limit := 10,
    conf_long_retry_limit := 10,
    band_2ghz :=
      { channels := some [{ flags := 0, hw_value := 1 }, { flags := 1, hw_value := 2 },
                          { flags := 0, hw_value := 3 }],
        n_channels := 3 },
    band_5ghz := { channels := none, n_channels := 0 },
    bss_type := 2, basic_rate := 1 }

/-- An example host state: nothing issued yet, calibration not yet done. -/
def example_world : World :=
  { wl := example_wl, do_cal := true, trace := [], n_jiffies := 0, n_read32 := 0, n_read := 0,
    n_kzalloc := 0, n_skb := 0 }

/-- An example command buffer. -/
def example_buf : Buf := cal_p2g_cmd example_defs

/-- A device that completes every command at its third reading of the
interrupt register with the given status, and whose event mailbox B shows the
given word; each read of jiffies advances the clock by one. -/
def answering_oracle (status mbox_b : Nat) : Oracle :=
  { jiffies := fun n => n
    read32 := fun n _ => if 2 ≤ n % 3 then 16 else 0
    read := fun _ addr _ =>
      if addr = 0x40000 then [0, 0, status % 256, status / 256]
      else if addr = 0x50100 then [mbox_b % 256, mbox_b / 256 % 256, mbox_b / 65536 % 256, mbox_b / 16777216]
      else [0, 0, 0, 0]
    kzalloc := fun _ => true
    skb := fun _ => some [0x40, 0, 0, 0] }

/-- A device that never answers; each read of jiffies advances the clock by
1000. -/
def silent_oracle : Oracle :=
  { jiffies := fun n => 1000 * n
    read32 := fun _ _ => 0
    read := fun _ _ _ => [0, 0, 0, 0]
    kzalloc := fun _ => true
    skb := fun _ => some [0x40, 0, 0, 0] }

/-- A device that completes every command at its first reading of the
interrupt register; the n-th block read from the command box carries the
n-th status of the list (success once the list is used up), block reads from
the event mailboxes carry the given word, and the n-th kzalloc succeeds as
the list of booleans says (it succeeds once that list is used up). -/
def scripted_oracle (statuses : List Nat) (mbox : Nat) (allocs : List Bool) : Oracle :=
  { jiffies := fun n => n
    read32 := fun _ _ => 16
    read := fun n addr _ =>
      if addr = 0x40000 then [0, 0, statuses.getD n 1 % 256, 0]
      else [mbox % 256, mbox / 256 % 256, mbox / 65536 % 256, mbox / 16777216 % 256]
    kzalloc := fun n => allocs.getD n true
    skb := fun _ => some [0x40, 0, 0, 0] }

/-- The example values with the upper band (802.11a) enabled. -/
def example_defs_11a : Defs := { example_defs with wl1271_11a_enabled := true }

/-- A scan has got as far as lines 675-700: from a world w3 that differs from w
in trace and cursors only, the flag is set and the parameters recorded, and
the scan command params is sent, giving the result r. -/
def scan_reaches_start (d : Defs) (o : Oracle) (fuel : Nat) (w : World) (params : cmd_scan)
    (ssid : Option (List Nat)) (ssid_len active_scan high_prio band probe_requests : Nat)
    (r : Int × World) : Prop :=
  ∃ w3, w3.wl = w.wl ∧ (∃ acts, w3.trace = w.trace ++ acts) ∧
    wl1271_cmd_scan_start d o fuel
      (scan_record d w3 ssid ssid_len active_scan high_prio band probe_requests) params = some r

/-- Whether lines 582-592 accept the requested band. -/
def scan_band_accepted (d : Defs) (band : Nat) : Prop :=
  band = d.WL1271_SCAN_BAND_2_4_GHZ ∨
  (band = d.WL1271_SCAN_BAND_DUAL ∧ d.wl1271_11a_enabled = true) ∨
  (band = d.WL1271_SCAN_BAND_5_GHZ ∧ d.wl1271_11a_enabled = true)

/-- The values a scan that gets past its argument checks can return. -/
def scan_errno (v : Int) : Prop :=
  v = 0 ∨ v = - EIO ∨ v = - ETIMEDOUT ∨ v = - ENOMEM

/-- The example world with a scan already in progress. -/
def example_world_scanning : World :=
  { example_world with wl := { example_wl with flag_scanning := true } }

/-- A device that leaves the command-complete bit clear in the first n
readings of the interrupt register and shows it from then on, with a clock
that stands still; commands end with status success. -/
def delayed_oracle (n : Nat) : Oracle :=
  { jiffies := fun _ => 0
    read32 := fun k _ => if n ≤ k then 16 else 0
    read := fun _ _ _ => [0, 0, 1, 0]
    kzalloc := fun _ => true
    skb := fun _ => some [0x40, 0, 0, 0] }

/-- A host on which mac80211 hands out no frame; the device completes every
command at once. -/
def frameless_oracle : Oracle :=
  { scripted_oracle [] 0 [] with skb := fun _ => none }

/-- The delays among a list of actions, in order. -/
def waits (acts : List Action) : List Action :=
  acts.filter (fun a => !a.is_transport)

/-- A device whose event mailbox A shows the given word and whose event
mailbox B shows nothing, on the example addresses. -/
def mailbox_a_oracle (mbox_a : Nat) : Oracle :=
  { jiffies := fun n => n
    read32 := fun _ _ => 16
    read := fun _ addr _ =>
      if addr = 0x50000 then
        [mbox_a % 256, mbox_a / 256 % 256, mbox_a / 65536 % 256, mbox_a / 16777216 % 256]
      else [0, 0, 0, 0]
    kzalloc := fun _ => true
    skb := fun _ => some [0x40, 0, 0, 0] }

/-- The probe-request template a scan of the given mac80211 band sets (lines
829-836), from the frame mac80211 hands out next in world w. -/
def probe_req_template (d : Defs) (o : Oracle) (w : World) (ieee_band : Nat) : cmd_template_set :=
  if ieee_band % 256 = d.IEEE80211_BAND_2GHZ then
    template_set_cmd d w.wl d.CMD_TEMPL_CFG_PROBE_REQ_2_4 (some ((o.skb w.n_skb).getD []))
      ((o.skb w.n_skb).getD []).length 0 w.wl.conf_tx_basic_rate
  else
    template_set_cmd d w.wl d.CMD_TEMPL_CFG_PROBE_REQ_5 (some ((o.skb w.n_skb).getD []))
      ((o.skb w.n_skb).getD []).length 0 w.wl.conf_tx_basic_rate_5

/-- The three commands a scan writes to the device, in the order it writes
them: the probe-request template, the scan-timeout trigger with the timeout
disabled, and the scan command. -/
def scan_commands (d : Defs) (o : Oracle) (w : World) (ssid : Option (List Nat))
    (ssid_len active_scan high_prio band probe_requests ieee_band rate : Nat)
    (channels : List ieee80211_channel) (n_ch : Nat) : List Buf :=
  [stamped d.CMD_SET_TEMPLATE (Buf.fresh (Body.template_set (probe_req_template d o w ieee_band))),
   stamped d.CMD_TRIGGER_SCAN_TO (Buf.fresh (Body.trigger_scan_to { timeout := 0 })),
   stamped d.CMD_SCAN (Buf.fresh (Body.scan
     (scan_cmd d ssid ssid_len active_scan high_prio band probe_requests rate channels n_ch)))]

/-! ## The poll loop of wl1271_cmd_send -/

theorem poll_zero (d : Defs) (o : Oracle) (T intr pc : Nat) (w : World) :
    wl1271_cmd_send_poll d o T 0 intr pc w = none := rfl

theorem poll_succ (d : Defs) (o : Oracle) (T fuel intr pc : Nat) (w : World) :
    wl1271_cmd_send_poll d o T (fuel + 1) intr pc w =
      if cmd_complete d intr = true then some (PollExit.complete, w)
      else if poll_late d o T w 0 = true then
        some (PollExit.timed_out, w.after_poll d pc 0 1)
      else
        wl1271_cmd_send_poll d o T fuel (poll_reading d o intr w 1) ((pc + 1) % 2 ^ 16)
          (w.after_poll d pc 1 0) := by
  simp only [wl1271_cmd_send_poll, cmd_complete, poll_late, read_jiffies, wl1271_read32,
    World.after_poll, poll_actions, poll_reading, udelay, msleep, World.emit,
    decide_eq_true_eq, Nat.add_zero, List.append_nil]
  by_cases h1 : intr &&& d.WL1271_ACX_INTR_CMD_COMPLETE ≠ 0
  · simp [h1]
  · simp only [h1, if_false]
    by_cases h2 : d.time_after (o.jiffies w.n_jiffies) T = true
    · simp [h2]
    · simp only [h2, if_false]
      by_cases h3 : (pc + 1) % 65536 < WL1271_CMD_FAST_POLL_COUNT
      · simp [h3, List.append_assoc]
      · simp [h3, List.append_assoc]

theorem after_poll_zero (d : Defs) (w : World) (pc : Nat) : w.after_poll d pc 0 0 = w := by
  simp [World.after_poll, poll_actions]

theorem after_poll_shift (d : Defs) (w : World) (pc n j : Nat) :
    (w.after_poll d pc 1 0).after_poll d ((pc + 1) % 2 ^ 16) n j = w.after_poll d pc (n + 1) j := by
  simp only [World.after_poll, poll_actions, World.mk.injEq, List.append_assoc, true_and,
    Nat.add_zero, List.cons_append, List.nil_append, and_true]
  refine ⟨by omega, by omega⟩

theorem poll_reading_shift (d : Defs) (o : Oracle) (intr : Nat) (w : World) (pc k : Nat) :
    poll_reading d o (poll_reading d o intr w 1) (w.after_poll d pc 1 0) k
      = poll_reading d o intr w (k + 1) := by
  cases k with
  | zero => rfl
  | succ k =>
    simp only [poll_reading, World.after_poll]
    congr 2
    omega

theorem poll_late_shift (d : Defs) (o : Oracle) (T : Nat) (w : World) (pc k : Nat) :
    poll_late d o T (w.after_poll d pc 1 0) k = poll_late d o T w (k + 1) := by
  simp only [poll_late, World.after_poll]
  congr 2
  omega

theorem poll_pending_shift (d : Defs) (o : Oracle) (T intr : Nat) (w : World) (pc n : Nat)
    (h : poll_pending d o T intr w (n + 1)) :
    poll_pending d o T (poll_reading d o intr w 1) (w.after_poll d pc 1 0) n := by
  intro k hk
  rw [poll_reading_shift, poll_late_shift]
  exact h (k + 1) (by omega)

theorem poll_pending_unshift (d : Defs) (o : Oracle) (T intr : Nat) (w : World) (pc n : Nat)
    (h0 : cmd_complete d intr = false) (h1 : poll_late d o T w 0 = false)
    (h : poll_pending d o T (poll_reading d o intr w 1) (w.after_poll d pc 1 0) n) :
    poll_pending d o T intr w (n + 1) := by
  intro k hk
  cases k with
  | zero => exact ⟨h0, h1⟩
  | succ k =>
    have := h k (by omega)
    rwa [poll_reading_shift, poll_late_shift] at this

/-- The poll loop run forwards: when the first n tests leave it pending, test n
decides how it exits, provided the fuel reaches that far. -/
theorem poll_run (d : Defs) (o : Oracle) (T : Nat) :
    ∀ (n fuel intr pc : Nat) (w : World), poll_pending d o T intr w n → n < fuel →
      (cmd_complete d (poll_reading d o intr w n) = true →
        wl1271_cmd_send_poll d o T fuel intr pc w = some (PollExit.complete, w.after_poll d pc n 0)) ∧
      (cmd_complete d (poll_reading d o intr w n) = false → poll_late d o T w n = true →
        wl1271_cmd_send_poll d o T fuel intr pc w = some (PollExit.timed_out, w.after_poll d pc n 1)) := by
  intro n
  induction n with
  | zero =>
    intro fuel intr pc w _ hf
    obtain ⟨f, rfl⟩ : ∃ f, fuel = f + 1 := ⟨fuel - 1, by omega⟩
    constructor
    · intro hc
      have hc' : cmd_complete d intr = true := hc
      rw [poll_succ, if_pos hc', after_poll_zero]
    · intro hc hl
      have hc' : cmd_complete d intr = false := hc
      rw [poll_succ, if_neg (by simp [hc']), if_pos hl]
  | succ n ih =>
    intro fuel intr pc w hp hf
    obtain ⟨f, rfl⟩ : ∃ f, fuel = f + 1 := ⟨fuel - 1, by omega⟩
    have h0 := hp 0 (by omega)
    have hc0 : cmd_complete d intr = false := h0.1
    have hl0 : poll_late d o T w 0 = false := h0.2
    have hrec := ih f (poll_reading d o intr w 1) ((pc + 1) % 2 ^ 16) (w.after_poll d pc 1 0)
      (poll_pending_shift d o T intr w pc n hp) (by omega)
    rw [poll_reading_shift, poll_late_shift, after_poll_shift, after_poll_shift] at hrec
    rw [poll_succ, if_neg (by simp [hc0]), if_neg (by simp [hl0])]
    exact hrec

/-- The poll loop run backwards: whenever it exits, it does so at some test n
reached within the fuel, all earlier tests having left it pending. -/
theorem poll_spec (d : Defs) (o : Oracle) (T : Nat) :
    ∀ (fuel intr pc : Nat) (w : World) (e : PollExit) (w' : World),
      wl1271_cmd_send_poll d o T fuel intr pc w = some (e, w') →
      ∃ n, n < fuel ∧ poll_pending d o T intr w n ∧
        ((e = PollExit.complete ∧ cmd_complete d (poll_reading d o intr w n) = true ∧
            w' = w.after_poll d pc n 0) ∨
         (e = PollExit.timed_out ∧ cmd_complete d (poll_reading d o intr w n) = false ∧
            poll_late d o T w n = true ∧ w' = w.after_poll d pc n 1)) := by
  intro fuel
  induction fuel with
  | zero => intro intr pc w e w' h; simp [poll_zero] at h
  | succ f ih =>
    intro intr pc w e w' h
    rw [poll_succ] at h
    by_cases hc : cmd_complete d intr = true
    · rw [if_pos hc] at h
      simp only [Option.some.injEq, Prod.mk.injEq] at h
      refine ⟨0, by omega, fun k hk => absurd hk (by omega), Or.inl ⟨h.1.symm, hc, ?_⟩⟩
      rw [after_poll_zero]; exact h.2.symm
    · rw [if_neg hc] at h
      have hc0 : cmd_complete d intr = false := by simpa using hc
      by_cases hl : poll_late d o T w 0 = true
      · rw [if_pos hl] at h
        simp only [Option.some.injEq, Prod.mk.injEq] at h
        exact ⟨0, by omega, fun k hk => absurd hk (by omega), Or.inr ⟨h.1.symm, hc0, hl, h.2.symm⟩⟩
      · rw [if_neg hl] at h
        have hl0 : poll_late d o T w 0 = false := by simpa using hl
        obtain ⟨n, hn, hp, hcase⟩ := ih _ _ _ _ _ h
        refine ⟨n + 1, by omega, poll_pending_unshift d o T intr w pc n hc0 hl0 hp, ?_⟩
        rw [poll_reading_shift, poll_late_shift, after_poll_shift, after_poll_shift] at hcase
        exact hcase

/-- With a live clock the poll loop exits, given enough fuel. -/
theorem poll_returns (d : Defs) (o : Oracle) (T : Nat) (hlive : Live d o) :
    ∀ (intr pc : Nat) (w : World), ∃ n, ∀ fuel, n < fuel →
      ∃ r, wl1271_cmd_send_poll d o T fuel intr pc w = some r := by
  intro intr pc w
  obtain ⟨k, hk⟩ := hlive w.n_jiffies T
  -- the first test at which the loop stops being pending
  have key : ∀ m, (poll_pending d o T intr w m) ∨
      ∃ n, n < m ∧ poll_pending d o T intr w n ∧
        (cmd_complete d (poll_reading d o intr w n) = true ∨
          (cmd_complete d (poll_reading d o intr w n) = false ∧ poll_late d o T w n = true)) := by
    intro m
    induction m with
    | zero => exact Or.inl (fun k hk => absurd hk (by omega))
    | succ m ih =>
      rcases ih with hp | ⟨n, hn, hp, hx⟩
      · by_cases hc : cmd_complete d (poll_reading d o intr w m) = true
        · exact Or.inr ⟨m, by omega, hp, Or.inl hc⟩
        · have hc0 : cmd_complete d (poll_reading d o intr w m) = false := by simpa using hc
          by_cases hl : poll_late d o T w m = true
          · exact Or.inr ⟨m, by omega, hp, Or.inr ⟨hc0, hl⟩⟩
          · have hl0 : poll_late d o T w m = false := by simpa using hl
            left
            intro j hj
            rcases Nat.lt_succ_iff_lt_or_eq.mp hj with hlt | heq
            · exact hp j hlt
            · subst heq; exact ⟨hc0, hl0⟩
      · exact Or.inr ⟨n, by omega, hp, hx⟩
  rcases key (k + 1) with hp | ⟨n, _, hp, hx⟩
  · have := (hp k (by omega)).2
    simp only [poll_late] at this
    rw [hk] at this
    exact absurd this (by simp)
  · refine ⟨n, fun fuel hf => ?_⟩
    have hr := poll_run d o T n fuel intr pc w hp hf
    rcases hx with hc | ⟨hc, hl⟩
    · exact ⟨_, hr.1 hc⟩
    · exact ⟨_, hr.2 hc hl⟩

/-! ## wl1271_cmd_send characterised -/

theorem cmd_send_unfold (d : Defs) (o : Oracle) (fuel : Nat) (w : World) (id : Nat) (buf : Buf)
    (len res_len : Nat) :
    wl1271_cmd_send d o fuel w id buf len res_len =
      match wl1271_cmd_send_poll d o (send_deadline d o w) fuel (send_reading d o w 0) 0
          (send_entry d w id buf len) with
      | none => none
      | some (PollExit.timed_out, w') =>
        some { ret := - ETIMEDOUT, buf := stamped id buf, world := w' }
      | some (PollExit.complete, w') =>
        some (wl1271_cmd_send_finish d o w' (stamped id buf) res_len) := by
  simp [wl1271_cmd_send, wl1271_cmd_send_start, send_entry, send_deadline, send_reading,
    send_actions, poll_actions, stamped, wl1271_write, wl1271_write32, wl1271_read32,
    read_jiffies, World.emit]

theorem send_reading_eq (d : Defs) (o : Oracle) (w : World) (id : Nat) (buf : Buf) (len k : Nat) :
    poll_reading d o (send_reading d o w 0) (send_entry d w id buf len) k = send_reading d o w k := by
  cases k with
  | zero => rfl
  | succ k =>
    simp only [poll_reading, send_entry, send_reading]
    congr 2
    omega

theorem send_late_eq (d : Defs) (o : Oracle) (w : World) (id : Nat) (buf : Buf) (len k : Nat) :
    poll_late d o (send_deadline d o w) (send_entry d w id buf len) k = send_late d o w k := rfl

theorem send_pending_eq (d : Defs) (o : Oracle) (w : World) (id : Nat) (buf : Buf) (len n : Nat) :
    poll_pending d o (send_deadline d o w) (send_reading d o w 0) (send_entry d w id buf len) n
      ↔ send_pending d o w n := by
  simp only [poll_pending, send_pending, send_reading_eq, send_late_eq]

theorem finish_eq (d : Defs) (o : Oracle) (w : World) (id : Nat) (buf : Buf)
    (len res_len n : Nat) :
    wl1271_cmd_send_finish d o ((send_entry d w id buf len).after_poll d 0 n 0) (stamped id buf) res_len
      = send_completed d o w id buf len res_len n := by
  simp [wl1271_cmd_send_finish, send_completed, send_entry, World.after_poll, read_back,
    read_back_len, wl1271_read, wl1271_write32, World.emit, send_actions, finish_actions,
    poll_actions, List.append_assoc]

theorem timed_out_eq (d : Defs) (w : World) (id : Nat) (buf : Buf) (len n : Nat) :
    ({ ret := - ETIMEDOUT, buf := stamped id buf,
       world := (send_entry d w id buf len).after_poll d 0 n 1 } : SendResult)
      = send_timed_out d w id buf len n := by
  simp [send_timed_out, send_entry, World.after_poll, send_actions, poll_actions,
    List.append_assoc]

/-- A send that sees the command-complete bit in reading n returns the
completed result, once the fuel exceeds n. -/
theorem cmd_send_complete (d : Defs) (o : Oracle) (fuel : Nat) (w : World) (id : Nat) (buf : Buf)
    (len res_len n : Nat) (h : send_completes_at d o w n) (hf : n < fuel) :
    wl1271_cmd_send d o fuel w id buf len res_len
      = some (send_completed d o w id buf len res_len n) := by
  have hp := (send_pending_eq d o w id buf len n).mpr h.1
  have hr := (poll_run d o (send_deadline d o w) n fuel (send_reading d o w 0) 0
    (send_entry d w id buf len) hp hf).1 (by rw [send_reading_eq]; exact h.2)
  rw [cmd_send_unfold, hr]
  simp only [finish_eq]

/-- A send whose deadline check n fails returns the timed-out result, once
the fuel exceeds n. -/
theorem cmd_send_timeout (d : Defs) (o : Oracle) (fuel : Nat) (w : World) (id : Nat) (buf : Buf)
    (len res_len n : Nat) (h : send_times_out_at d o w n) (hf : n < fuel) :
    wl1271_cmd_send d o fuel w id buf len res_len = some (send_timed_out d w id buf len n) := by
  have hp := (send_pending_eq d o w id buf len n).mpr h.1
  have hr := (poll_run d o (send_deadline d o w) n fuel (send_reading d o w 0) 0
    (send_entry d w id buf len) hp hf).2 (by rw [send_reading_eq]; exact h.2.1)
    (by rw [send_late_eq]; exact h.2.2)
  rw [cmd_send_unfold, hr]
  simp only [timed_out_eq]

/-- Every result of wl1271_cmd_send is one of the two above. -/
theorem cmd_send_spec (d : Defs) (o : Oracle) (fuel : Nat) (w : World) (id : Nat) (buf : Buf)
    (len res_len : Nat) (r : SendResult)
    (h : wl1271_cmd_send d o fuel w id buf len res_len = some r) :
    ∃ n, n < fuel ∧
      ((send_completes_at d o w n ∧ r = send_completed d o w id buf len res_len n) ∨
       (send_times_out_at d o w n ∧ r = send_timed_out d w id buf len n)) := by
  rw [cmd_send_unfold] at h
  cases hpoll : wl1271_cmd_send_poll d o (send_deadline d o w) fuel (send_reading d o w 0) 0
      (send_entry d w id buf len) with
  | none => rw [hpoll] at h; simp at h
  | some ew =>
    obtain ⟨e, w'⟩ := ew
    obtain ⟨n, hn, hp, hcase⟩ := poll_spec d o _ _ _ _ _ _ _ hpoll
    rw [send_pending_eq] at hp
    rw [send_reading_eq, send_late_eq] at hcase
    rw [hpoll] at h
    refine ⟨n, hn, ?_⟩
    rcases hcase with ⟨he, hc, hw⟩ | ⟨he, hc, hl, hw⟩
    · subst he; subst hw
      simp only [Option.some.injEq] at h
      rw [finish_eq] at h
      exact Or.inl ⟨⟨hp, hc⟩, h.symm⟩
    · subst he; subst hw
      simp only [Option.some.injEq] at h
      rw [timed_out_eq] at h
      exact Or.inr ⟨⟨hp, hc, hl⟩, h.symm⟩

/-- With a live clock wl1271_cmd_send returns, given enough fuel. -/
theorem cmd_send_returns (d : Defs) (o : Oracle) (hlive : Live d o) (w : World) (id : Nat)
    (buf : Buf) (len res_len : Nat) :
    ∃ n, ∀ fuel, n < fuel → ∃ r, wl1271_cmd_send d o fuel w id buf len res_len = some r := by
  obtain ⟨n, hn⟩ := poll_returns d o (send_deadline d o w) hlive (send_reading d o w 0) 0
    (send_entry d w id buf len)
  refine ⟨n, fun fuel hf => ?_⟩
  obtain ⟨⟨e, w'⟩, hr⟩ := hn fuel hf
  rw [cmd_send_unfold, hr]
  cases e <;> simp

/-- More fuel does not change a result of wl1271_cmd_send. -/
theorem cmd_send_mono (d : Defs) (o : Oracle) (fuel fuel' : Nat) (w : World) (id : Nat)
    (buf : Buf) (len res_len : Nat) (r : SendResult)
    (h : wl1271_cmd_send d o fuel w id buf len res_len = some r) (hf : fuel ≤ fuel') :
    wl1271_cmd_send d o fuel' w id buf len res_len = some r := by
  obtain ⟨n, hn, hcase⟩ := cmd_send_spec d o fuel w id buf len res_len r h
  rcases hcase with ⟨hc, hr⟩ | ⟨ht, hr⟩
  · rw [hr]; exact cmd_send_complete d o fuel' w id buf len res_len n hc (by omega)
  · rw [hr]; exact cmd_send_timeout d o fuel' w id buf len res_len n ht (by omega)

/-! ## wl1271_cmd_wait_for_event characterised -/

theorem lor_eq_zero_iff (a b : Nat) : a ||| b = 0 ↔ a = 0 ∧ b = 0 := by
  constructor
  · intro h
    have hbit : ∀ i, (a.testBit i || b.testBit i) = false := by
      intro i
      rw [← Nat.testBit_lor, h, Nat.zero_testBit]
    constructor
    · apply Nat.eq_of_testBit_eq
      intro i
      have := hbit i
      simp only [Bool.or_eq_false_iff] at this
      rw [this.1, Nat.zero_testBit]
    · apply Nat.eq_of_testBit_eq
      intro i
      have := hbit i
      simp only [Bool.or_eq_false_iff] at this
      rw [this.2, Nat.zero_testBit]
  · rintro ⟨rfl, rfl⟩
    rfl

theorem wait_loop_zero (d : Defs) (o : Oracle) (mask T : Nat) (w : World) :
    wl1271_cmd_wait_for_event_loop d o mask T 0 w = none := rfl

theorem wait_loop_succ (d : Defs) (o : Oracle) (mask T fuel : Nat) (w : World) :
    wl1271_cmd_wait_for_event_loop d o mask T (fuel + 1) w =
      if loop_late d o T w 0 = true then some (- ETIMEDOUT, w.after_wait 0 1)
      else if loop_event o mask w 0 = 0 then
        wl1271_cmd_wait_for_event_loop d o mask T fuel (w.after_wait 1 0)
      else some (0, w.after_wait 1 0) := by
  simp only [wl1271_cmd_wait_for_event_loop, loop_late, loop_event, read_jiffies, wl1271_read,
    msleep, World.emit, World.after_wait, wait_actions, Nat.add_zero, Nat.mul_zero,
    Nat.mul_one, List.append_nil, List.append_assoc, List.cons_append, List.nil_append]

theorem after_wait_shift (w : World) (n j : Nat) :
    (w.after_wait 1 0).after_wait n j = w.after_wait (n + 1) j := by
  simp only [World.after_wait, wait_actions, World.mk.injEq, List.append_assoc, true_and,
    Nat.add_zero, List.cons_append, List.nil_append, and_true]
  refine ⟨by omega, by omega⟩

theorem loop_late_shift (d : Defs) (o : Oracle) (T : Nat) (w : World) (k : Nat) :
    loop_late d o T (w.after_wait 1 0) k = loop_late d o T w (k + 1) := by
  simp only [loop_late, World.after_wait]
  congr 2
  omega

theorem loop_event_shift (o : Oracle) (mask : Nat) (w : World) (k : Nat) :
    loop_event o mask (w.after_wait 1 0) k = loop_event o mask w (k + 1) := by
  simp only [loop_event, World.after_wait]
  have h1 : w.n_read + 2 * 1 + 2 * k = w.n_read + 2 * (k + 1) := by omega
  rw [h1]

theorem loop_pending_shift (d : Defs) (o : Oracle) (mask T : Nat) (w : World) (n : Nat)
    (h : loop_pending d o mask T w (n + 1)) : loop_pending d o mask T (w.after_wait 1 0) n := by
  intro k hk
  rw [loop_late_shift, loop_event_shift]
  exact h (k + 1) (by omega)

theorem loop_pending_unshift (d : Defs) (o : Oracle) (mask T : Nat) (w : World) (n : Nat)
    (h0 : loop_late d o T w 0 = false) (h1 : loop_event o mask w 0 = 0)
    (h : loop_pending d o mask T (w.after_wait 1 0) n) : loop_pending d o mask T w (n + 1) := by
  intro k hk
  cases k with
  | zero => exact ⟨h0, h1⟩
  | succ k =>
    have := h k (by omega)
    rwa [loop_late_shift, loop_event_shift] at this

/-- The event loop run forwards. -/
theorem wait_loop_run (d : Defs) (o : Oracle) (mask T : Nat) :
    ∀ (n fuel : Nat) (w : World), loop_pending d o mask T w n → n < fuel →
      (loop_late d o T w n = true →
        wl1271_cmd_wait_for_event_loop d o mask T fuel w = some (- ETIMEDOUT, w.after_wait n 1)) ∧
      (loop_late d o T w n = false → loop_event o mask w n ≠ 0 →
        wl1271_cmd_wait_for_event_loop d o mask T fuel w = some (0, w.after_wait (n + 1) 0)) := by
  intro n
  induction n with
  | zero =>
    intro fuel w _ hf
    obtain ⟨f, rfl⟩ : ∃ f, fuel = f + 1 := ⟨fuel - 1, by omega⟩
    constructor
    · intro hl
      rw [wait_loop_succ, if_pos hl]
    · intro hl he
      rw [wait_loop_succ, if_neg (by simp [hl]), if_neg he]
  | succ n ih =>
    intro fuel w hp hf
    obtain ⟨f, rfl⟩ : ∃ f, fuel = f + 1 := ⟨fuel - 1, by omega⟩
    have h0 := hp 0 (by omega)
    have hrec := ih f (w.after_wait 1 0) (loop_pending_shift d o mask T w n hp) (by omega)
    rw [loop_late_shift, loop_event_shift, after_wait_shift, after_wait_shift] at hrec
    rw [wait_loop_succ, if_neg (by simp [h0.1]), if_pos h0.2]
    exact hrec

/-- The event loop run backwards. -/
theorem wait_loop_spec (d : Defs) (o : Oracle) (mask T : Nat) :
    ∀ (fuel : Nat) (w : World) (ret : Int) (w' : World),
      wl1271_cmd_wait_for_event_loop d o mask T fuel w = some (ret, w') →
      ∃ n, n < fuel ∧ loop_pending d o mask T w n ∧
        ((ret = - ETIMEDOUT ∧ loop_late d o T w n = true ∧ w' = w.after_wait n 1) ∨
         (ret = 0 ∧ loop_late d o T w n = false ∧ loop_event o mask w n ≠ 0 ∧
            w' = w.after_wait (n + 1) 0)) := by
  intro fuel
  induction fuel with
  | zero => intro w ret w' h; simp [wait_loop_zero] at h
  | succ f ih =>
    intro w ret w' h
    rw [wait_loop_succ] at h
    by_cases hl : loop_late d o T w 0 = true
    · rw [if_pos hl] at h
      simp only [Option.some.injEq, Prod.mk.injEq] at h
      exact ⟨0, by omega, fun k hk => absurd hk (by omega), Or.inl ⟨h.1.symm, hl, h.2.symm⟩⟩
    · rw [if_neg hl] at h
      have hl0 : loop_late d o T w 0 = false := by simpa using hl
      by_cases he : loop_event o mask w 0 = 0
      · rw [if_pos he] at h
        obtain ⟨n, hn, hp, hcase⟩ := ih _ _ _ h
        refine ⟨n + 1, by omega, loop_pending_unshift d o mask T w n hl0 he hp, ?_⟩
        rw [loop_late_shift, loop_event_shift, after_wait_shift, after_wait_shift] at hcase
        exact hcase
      · rw [if_neg he] at h
        simp only [Option.some.injEq, Prod.mk.injEq] at h
        exact ⟨0, by omega, fun k hk => absurd hk (by omega),
          Or.inr ⟨h.1.symm, hl0, he, h.2.symm⟩⟩

/-- With a live clock the event loop exits, given enough fuel. -/
theorem wait_loop_returns (d : Defs) (o : Oracle) (mask T : Nat) (hlive : Live d o) (w : World) :
    ∃ n, ∀ fuel, n < fuel → ∃ r, wl1271_cmd_wait_for_event_loop d o mask T fuel w = some r := by
  obtain ⟨k, hk⟩ := hlive w.n_jiffies T
  have key : ∀ m, (loop_pending d o mask T w m) ∨
      ∃ n, n < m ∧ loop_pending d o mask T w n ∧
        (loop_late d o T w n = true ∨
          (loop_late d o T w n = false ∧ loop_event o mask w n ≠ 0)) := by
    intro m
    induction m with
    | zero => exact Or.inl (fun k hk => absurd hk (by omega))
    | succ m ih =>
      rcases ih with hp | ⟨n, hn, hp, hx⟩
      · by_cases hl : loop_late d o T w m = true
        · exact Or.inr ⟨m, by omega, hp, Or.inl hl⟩
        · have hl0 : loop_late d o T w m = false := by simpa using hl
          by_cases he : loop_event o mask w m = 0
          · left
            intro j hj
            rcases Nat.lt_succ_iff_lt_or_eq.mp hj with hlt | heq
            · exact hp j hlt
            · subst heq; exact ⟨hl0, he⟩
          · exact Or.inr ⟨m, by omega, hp, Or.inr ⟨hl0, he⟩⟩
      · exact Or.inr ⟨n, by omega, hp, hx⟩
  rcases key (k + 1) with hp | ⟨n, _, hp, hx⟩
  · have := (hp k (by omega)).1
    simp only [loop_late] at this
    rw [hk] at this
    exact absurd this (by simp)
  · refine ⟨n, fun fuel hf => ?_⟩
    have hr := wait_loop_run d o mask T n fuel w hp hf
    rcases hx with hl | ⟨hl, he⟩
    · exact ⟨_, hr.1 hl⟩
    · exact ⟨_, hr.2 hl he⟩

theorem wait_unfold (d : Defs) (o : Oracle) (fuel : Nat) (w : World) (mask : Nat) :
    wl1271_cmd_wait_for_event d o fuel w mask =
      wl1271_cmd_wait_for_event_loop d o (mask % 2 ^ 32) (wait_deadline d o w) fuel (wait_entry w) := by
  simp [wl1271_cmd_wait_for_event, wait_deadline, wait_entry, read_jiffies]

theorem wait_late_eq (d : Defs) (o : Oracle) (w : World) (k : Nat) :
    loop_late d o (wait_deadline d o w) (wait_entry w) k = wait_late d o w k := rfl

theorem wait_hit_eq (o : Oracle) (w : World) (mask k : Nat) :
    loop_event o (mask % 2 ^ 32) (wait_entry w) k = 0 ↔ wait_hit o w mask k = false := by
  simp only [loop_event, wait_entry, wait_hit, wait_mbox_a, wait_mbox_b, lor_eq_zero_iff,
    decide_eq_false_iff_not, not_or, not_not]

theorem wait_hit_ne (o : Oracle) (w : World) (mask k : Nat) :
    loop_event o (mask % 2 ^ 32) (wait_entry w) k ≠ 0 ↔ wait_hit o w mask k = true := by
  rw [Ne, wait_hit_eq]; simp

theorem wait_pending_eq (d : Defs) (o : Oracle) (w : World) (mask n : Nat) :
    loop_pending d o (mask % 2 ^ 32) (wait_deadline d o w) (wait_entry w) n
      ↔ wait_pending d o w mask n := by
  simp only [loop_pending, wait_pending, wait_late_eq, wait_hit_eq]

/-- A wait whose iteration n is the first with an overlap returns 0 in that
iteration: n + 1 rounds have run. -/
theorem wait_success (d : Defs) (o : Oracle) (fuel : Nat) (w : World) (mask n : Nat)
    (h : wait_succeeds_at d o w mask n) (hf : n < fuel) :
    wl1271_cmd_wait_for_event d o fuel w mask = some (0, (wait_entry w).after_wait (n + 1) 0) := by
  rw [wait_unfold]
  exact (wait_loop_run d o _ _ n fuel _ ((wait_pending_eq d o w mask n).mpr h.1) hf).2
    (by rw [wait_late_eq]; exact h.2.1) ((wait_hit_ne o w mask n).mpr h.2.2)

/-- A wait whose deadline check fails in iteration n returns -ETIMEDOUT there:
n rounds have run. -/
theorem wait_timeout (d : Defs) (o : Oracle) (fuel : Nat) (w : World) (mask n : Nat)
    (h : wait_times_out_at d o w mask n) (hf : n < fuel) :
    wl1271_cmd_wait_for_event d o fuel w mask
      = some (- ETIMEDOUT, (wait_entry w).after_wait n 1) := by
  rw [wait_unfold]
  exact (wait_loop_run d o _ _ n fuel _ ((wait_pending_eq d o w mask n).mpr h.1) hf).1
    (by rw [wait_late_eq]; exact h.2)

/-- Every result of wl1271_cmd_wait_for_event is one of the two above. -/
theorem wait_spec (d : Defs) (o : Oracle) (fuel : Nat) (w : World) (mask : Nat) (ret : Int)
    (w' : World) (h : wl1271_cmd_wait_for_event d o fuel w mask = some (ret, w')) :
    ∃ n, n < fuel ∧
      ((wait_succeeds_at d o w mask n ∧ ret = 0 ∧ w' = (wait_entry w).after_wait (n + 1) 0) ∨
       (wait_times_out_at d o w mask n ∧ ret = - ETIMEDOUT ∧ w' = (wait_entry w).after_wait n 1)) := by
  rw [wait_unfold] at h
  obtain ⟨n, hn, hp, hcase⟩ := wait_loop_spec d o _ _ _ _ _ _ h
  rw [wait_pending_eq] at hp
  rw [wait_late_eq, wait_hit_ne] at hcase
  refine ⟨n, hn, ?_⟩
  rcases hcase with ⟨hr, hl, hw⟩ | ⟨hr, hl, he, hw⟩
  · exact Or.inr ⟨⟨hp, hl⟩, hr, hw⟩
  · exact Or.inl ⟨⟨hp, hl, he⟩, hr, hw⟩

/-- With a live clock wl1271_cmd_wait_for_event returns, given enough fuel. -/
theorem wait_returns_of_live (d : Defs) (o : Oracle) (hlive : Live d o) (w : World) (mask : Nat) :
    ∃ n, ∀ fuel, n < fuel → ∃ r, wl1271_cmd_wait_for_event d o fuel w mask = some r := by
  obtain ⟨n, hn⟩ := wait_loop_returns d o (mask % 2 ^ 32) (wait_deadline d o w) hlive (wait_entry w)
  exact ⟨n, fun fuel hf => by rw [wait_unfold]; exact hn fuel hf⟩

/-- More fuel does not change a result of wl1271_cmd_wait_for_event. -/
theorem wait_mono (d : Defs) (o : Oracle) (fuel fuel' : Nat) (w : World) (mask : Nat)
    (r : Int × World) (h : wl1271_cmd_wait_for_event d o fuel w mask = some r) (hf : fuel ≤ fuel') :
    wl1271_cmd_wait_for_event d o fuel' w mask = some r := by
  obtain ⟨ret, w'⟩ := r
  obtain ⟨n, hn, hcase⟩ := wait_spec d o fuel w mask ret w' h
  rcases hcase with ⟨hs, hr, hw⟩ | ⟨ht, hr, hw⟩
  · rw [hr, hw]; exact wait_success d o fuel' w mask n hs (by omega)
  · rw [hr, hw]; exact wait_timeout d o fuel' w mask n ht (by omega)

/-- Once some deadline check of a wait fails, the wait stops being pending at
some iteration: by an overlap found first, or by the deadline. -/
theorem wait_exits (d : Defs) (o : Oracle) (w : World) (mask : Nat)
    (h : ∃ k, wait_late d o w k = true) :
    ∃ n, wait_succeeds_at d o w mask n ∨ wait_times_out_at d o w mask n := by
  have hex : ∃ k, wait_late d o w k = true ∨ wait_hit o w mask k = true := by
    obtain ⟨k, hk⟩ := h
    exact ⟨k, Or.inl hk⟩
  classical
  refine ⟨Nat.find hex, ?_⟩
  have hpend : wait_pending d o w mask (Nat.find hex) := by
    intro k hk
    have := Nat.find_min hex hk
    simp only [not_or, Bool.not_eq_true] at this
    exact this
  by_cases hl : wait_late d o w (Nat.find hex) = true
  · exact Or.inr ⟨hpend, hl⟩
  · rcases Nat.find_spec hex with h1 | h1
    · exact absurd h1 hl
    · exact Or.inl ⟨hpend, by simpa using hl, h1⟩

theorem mem_poll_actions (d : Defs) (a : Action) :
    ∀ (n pc : Nat), a ∈ poll_actions d pc n →
      a = Action.udelay 10 ∨ a = Action.msleep 1 ∨ a = Action.read32 d.ACX_REG_INTERRUPT_NO_CLEAR := by
  intro n
  induction n with
  | zero => intro pc h; simp [poll_actions] at h
  | succ n ih =>
    intro pc h
    simp only [poll_actions, List.mem_cons] at h
    rcases h with h | h | h
    · by_cases hp : (pc + 1) % 2 ^ 16 < WL1271_CMD_FAST_POLL_COUNT
      · rw [if_pos hp] at h; exact Or.inl h
      · rw [if_neg hp] at h; exact Or.inr (Or.inl h)
    · exact Or.inr (Or.inr h)
    · exact ih _ h

theorem mem_send_actions (d : Defs) (w : World) (id : Nat) (buf : Buf) (len n : Nat) (a : Action)
    (h : a ∈ send_actions d w id buf len n) :
    a = Action.write w.wl.cmd_box_addr (stamped id buf) len ∨
    a = Action.write32 d.ACX_REG_INTERRUPT_TRIG d.INTR_TRIG_CMD ∨
    a = Action.udelay 10 ∨ a = Action.msleep 1 ∨ a = Action.read32 d.ACX_REG_INTERRUPT_NO_CLEAR := by
  simp only [send_actions, List.mem_append, List.mem_cons, List.mem_singleton,
    List.not_mem_nil, or_false] at h
  rcases h with (h | h | h) | h
  · exact Or.inl h
  · exact Or.inr (Or.inl h)
  · exact Or.inr (Or.inr (Or.inr (Or.inr h)))
  · exact Or.inr (Or.inr (mem_poll_actions d a n 0 h))

/-- Until the poll loop is left, a send writes no word to the
interrupt-acknowledge register and reads no block from the device. -/
theorem send_actions_quiet (d : Defs) (w : World) (id : Nat) (buf : Buf) (len n : Nat)
    (hreg : d.ACX_REG_INTERRUPT_TRIG ≠ d.ACX_REG_INTERRUPT_ACK) :
    (∀ v, Action.write32 d.ACX_REG_INTERRUPT_ACK v ∉ send_actions d w id buf len n) ∧
    (∀ addr l, Action.read addr l ∉ send_actions d w id buf len n) := by
  constructor
  · intro v hmem
    rcases mem_send_actions d w id buf len n _ hmem with h | h | h | h | h
    · cases h
    · simp only [Action.write32.injEq] at h; exact hreg h.1.symm
    · cases h
    · cases h
    · cases h
  · intro addr l hmem
    rcases mem_send_actions d w id buf len n _ hmem with h | h | h | h | h <;> cases h

/-! ## Frames: what the calls leave unchanged, and what they write -/

theorem writes_append (l₁ l₂ : List Action) : writes (l₁ ++ l₂) = writes l₁ ++ writes l₂ := by
  induction l₁ with
  | nil => rfl
  | cons a l ih => cases a <;> simp [writes, ih]

theorem writes_poll_actions (d : Defs) : ∀ (n pc : Nat), writes (poll_actions d pc n) = [] := by
  intro n
  induction n with
  | zero => intro pc; rfl
  | succ n ih =>
    intro pc
    simp only [poll_actions]
    split <;> simp [writes, ih]

theorem writes_wait_actions (a b : Nat) : ∀ n, writes (wait_actions a b n) = [] := by
  intro n
  induction n with
  | zero => rfl
  | succ n ih => simp [wait_actions, writes, ih]

/-- A send leaves the device state, do_cal and the allocation count alone; the
first thing it does is write the stamped command, and it writes nothing else
to device memory; it returns 0, -EIO or -ETIMEDOUT. -/
theorem cmd_send_frame (d : Defs) (o : Oracle) (fuel : Nat) (w : World) (id : Nat) (buf : Buf)
    (len res_len : Nat) (r : SendResult)
    (h : wl1271_cmd_send d o fuel w id buf len res_len = some r) :
    r.world.wl = w.wl ∧ r.world.do_cal = w.do_cal ∧ r.world.n_kzalloc = w.n_kzalloc ∧
    (∃ rest, r.world.trace = w.trace ++ Action.write w.wl.cmd_box_addr (stamped id buf) len :: rest ∧
      writes rest = []) ∧
    (r.ret = 0 ∨ r.ret = - EIO ∨ r.ret = - ETIMEDOUT) := by
  obtain ⟨n, _, hcase⟩ := cmd_send_spec d o fuel w id buf len res_len r h
  rcases hcase with ⟨_, hr⟩ | ⟨_, hr⟩
  · subst hr
    refine ⟨rfl, rfl, rfl,
      ⟨[Action.write32 d.ACX_REG_INTERRUPT_TRIG d.INTR_TRIG_CMD,
        Action.read32 d.ACX_REG_INTERRUPT_NO_CLEAR] ++ poll_actions d 0 n
          ++ finish_actions d w res_len, ?_, ?_⟩, ?_⟩
    · simp [send_completed, send_actions, List.append_assoc]
    · simp [writes, writes_append, writes_poll_actions, finish_actions]
    · simp only [send_completed]
      split
      · exact Or.inr (Or.inl rfl)
      · exact Or.inl rfl
  · subst hr
    refine ⟨rfl, rfl, rfl,
      ⟨[Action.write32 d.ACX_REG_INTERRUPT_TRIG d.INTR_TRIG_CMD,
        Action.read32 d.ACX_REG_INTERRUPT_NO_CLEAR] ++ poll_actions d 0 n, ?_, ?_⟩,
      Or.inr (Or.inr rfl)⟩
    · simp [send_timed_out, send_actions]
    · simp [writes, writes_append, writes_poll_actions]

/-- A wait leaves the device state, do_cal and the allocation count alone and
writes nothing to the device. -/
theorem wait_frame (d : Defs) (o : Oracle) (fuel : Nat) (w : World) (mask : Nat) (ret : Int)
    (w' : World) (h : wl1271_cmd_wait_for_event d o fuel w mask = some (ret, w')) :
    w'.wl = w.wl ∧ w'.do_cal = w.do_cal ∧ w'.n_kzalloc = w.n_kzalloc ∧
    (∃ acts, w'.trace = w.trace ++ acts ∧ writes acts = []) ∧
    (ret = 0 ∨ ret = - ETIMEDOUT) := by
  obtain ⟨n, _, hcase⟩ := wait_spec d o fuel w mask ret w' h
  rcases hcase with ⟨_, hr, hw⟩ | ⟨_, hr, hw⟩
  · subst hw
    exact ⟨rfl, rfl, rfl, ⟨_, rfl, writes_wait_actions _ _ _⟩, Or.inl hr⟩
  · subst hw
    exact ⟨rfl, rfl, rfl, ⟨_, rfl, writes_wait_actions _ _ _⟩, Or.inr hr⟩

/-- The two ways a calibration sub-command returns. -/
theorem cal_sub_command_spec (d : Defs) (o : Oracle) (fuel : Nat) (w : World) (cmd : Buf)
    (size : Nat) (ret : Int) (w' : World)
    (h : cal_sub_command d o fuel w cmd size = some (ret, w')) :
    (o.kzalloc w.n_kzalloc = false ∧ ret = - ENOMEM ∧ w' = (kzalloc o w).2) ∨
    (o.kzalloc w.n_kzalloc = true ∧ ∃ r,
      wl1271_cmd_send d o fuel (kzalloc o w).2 d.CMD_TEST cmd size 0 = some r ∧
      ret = r.ret ∧ w' = r.world) := by
  cases hk : o.kzalloc w.n_kzalloc with
  | false =>
    simp only [cal_sub_command, kzalloc, hk, Bool.not_false, if_true, Option.some.injEq,
      Prod.mk.injEq] at h
    exact Or.inl ⟨rfl, h.1.symm, by simpa [kzalloc] using h.2.symm⟩
  | true =>
    have hunf : cal_sub_command d o fuel w cmd size =
        match wl1271_cmd_send d o fuel (kzalloc o w).2 d.CMD_TEST cmd size 0 with
        | none => none
        | some r => some (r.ret, r.world) := by
      simp [cal_sub_command, kzalloc, wl1271_cmd_test, hk]
    rw [hunf] at h
    right
    refine ⟨rfl, ?_⟩
    cases hs : wl1271_cmd_send d o fuel (kzalloc o w).2 d.CMD_TEST cmd size 0 with
    | none => rw [hs] at h; simp at h
    | some r =>
      rw [hs] at h
      simp only [Option.some.injEq, Prod.mk.injEq] at h
      exact ⟨r, rfl, h.1.symm, h.2.symm⟩

/-- A calibration sub-command leaves the device state and do_cal alone; it
writes at most its own command, and exactly that when it succeeds. -/
theorem cal_sub_command_frame (d : Defs) (o : Oracle) (fuel : Nat) (w : World) (cmd : Buf)
    (size : Nat) (ret : Int) (w' : World)
    (h : cal_sub_command d o fuel w cmd size = some (ret, w')) :
    w'.wl = w.wl ∧ w'.do_cal = w.do_cal ∧
    ∃ acts, w'.trace = w.trace ++ acts ∧
      (writes acts = [] ∨ writes acts = [stamped d.CMD_TEST cmd]) ∧
      (0 ≤ ret → ret = 0 ∧ writes acts = [stamped d.CMD_TEST cmd]) := by
  rcases cal_sub_command_spec d o fuel w cmd size ret w' h with ⟨_, hr, hw⟩ | ⟨_, r, hs, hr, hw⟩
  · subst hw
    refine ⟨rfl, rfl, [], by simp [kzalloc], Or.inl rfl, ?_⟩
    intro h0
    rw [hr] at h0
    simp [ENOMEM] at h0
  · obtain ⟨hwl, hdc, _, ⟨rest, htr, hwr⟩, hret⟩ := cmd_send_frame d o fuel _ _ _ _ _ r hs
    subst hw
    have hw1 : writes (Action.write (kzalloc o w).2.wl.cmd_box_addr (stamped d.CMD_TEST cmd) size :: rest)
        = [stamped d.CMD_TEST cmd] := by
      simp [writes, hwr]
    refine ⟨hwl, hdc, _, htr, Or.inr hw1, ?_⟩
    intro h0
    rw [hr] at h0
    refine ⟨?_, hw1⟩
    rw [hr]
    rcases hret with h1 | h1 | h1
    · exact h1
    · rw [h1] at h0; simp [ EIO] at h0
    · rw [h1] at h0; simp [ETIMEDOUT] at h0

/-! ## wl1271_cmd_cal characterised -/

theorem cal_stops_at_first (d : Defs) (o : Oracle) (fuel : Nat) (w : World) (r1 : Int) (w1 : World)
    (h1 : wl1271_cmd_cal_channel_tune d o fuel w = some (r1, w1)) (hr1 : r1 < 0) :
    wl1271_cmd_cal d o fuel w = some (r1, w1) := by
  simp [wl1271_cmd_cal, h1, hr1]

theorem cal_stops_at_second (d : Defs) (o : Oracle) (fuel : Nat) (w : World) (r1 : Int)
    (w1 : World) (r2 : Int) (w2 : World)
    (h1 : wl1271_cmd_cal_channel_tune d o fuel w = some (r1, w1)) (hr1 : 0 ≤ r1)
    (h2 : wl1271_cmd_cal_update_ref_point d o fuel w1 = some (r2, w2)) (hr2 : r2 < 0) :
    wl1271_cmd_cal d o fuel w = some (r2, w2) := by
  simp [wl1271_cmd_cal, h1, not_lt.mpr hr1, h2, hr2]

theorem cal_runs_third (d : Defs) (o : Oracle) (fuel : Nat) (w : World) (r1 : Int)
    (w1 : World) (r2 : Int) (w2 : World) (r3 : Int) (w3 : World)
    (h1 : wl1271_cmd_cal_channel_tune d o fuel w = some (r1, w1)) (hr1 : 0 ≤ r1)
    (h2 : wl1271_cmd_cal_update_ref_point d o fuel w1 = some (r2, w2)) (hr2 : 0 ≤ r2)
    (h3 : wl1271_cmd_cal_p2g d o fuel w2 = some (r3, w3)) :
    wl1271_cmd_cal d o fuel w = some (r3, w3) := by
  simp [wl1271_cmd_cal, h1, not_lt.mpr hr1, h2, not_lt.mpr hr2, h3]

/-- Every result of wl1271_cmd_cal arises in one of the three ways above. -/
theorem cal_cases (d : Defs) (o : Oracle) (fuel : Nat) (w : World) (ret : Int) (w' : World)
    (h : wl1271_cmd_cal d o fuel w = some (ret, w')) :
    ∃ r1 w1, wl1271_cmd_cal_channel_tune d o fuel w = some (r1, w1) ∧
      ((r1 < 0 ∧ ret = r1 ∧ w' = w1) ∨
       (0 ≤ r1 ∧ ∃ r2 w2, wl1271_cmd_cal_update_ref_point d o fuel w1 = some (r2, w2) ∧
          ((r2 < 0 ∧ ret = r2 ∧ w' = w2) ∨
           (0 ≤ r2 ∧ wl1271_cmd_cal_p2g d o fuel w2 = some (ret, w'))))) := by
  cases h1 : wl1271_cmd_cal_channel_tune d o fuel w with
  | none => simp [wl1271_cmd_cal, h1] at h
  | some p1 =>
    obtain ⟨r1, w1⟩ := p1
    refine ⟨r1, w1, rfl, ?_⟩
    by_cases hr1 : r1 < 0
    · rw [cal_stops_at_first d o fuel w r1 w1 h1 hr1] at h
      simp only [Option.some.injEq, Prod.mk.injEq] at h
      exact Or.inl ⟨hr1, h.1.symm, h.2.symm⟩
    · have hr1' : 0 ≤ r1 := not_lt.mp hr1
      right
      refine ⟨hr1', ?_⟩
      cases h2 : wl1271_cmd_cal_update_ref_point d o fuel w1 with
      | none => simp [wl1271_cmd_cal, h1, hr1, h2] at h
      | some p2 =>
        obtain ⟨r2, w2⟩ := p2
        refine ⟨r2, w2, rfl, ?_⟩
        by_cases hr2 : r2 < 0
        · rw [cal_stops_at_second d o fuel w r1 w1 r2 w2 h1 hr1' h2 hr2] at h
          simp only [Option.some.injEq, Prod.mk.injEq] at h
          exact Or.inl ⟨hr2, h.1.symm, h.2.symm⟩
        · have hr2' : 0 ≤ r2 := not_lt.mp hr2
          right
          refine ⟨hr2', ?_⟩
          cases h3 : wl1271_cmd_cal_p2g d o fuel w2 with
          | none => simp [wl1271_cmd_cal, h1, hr1, h2, hr2, h3] at h
          | some p3 =>
            obtain ⟨r3, w3⟩ := p3
            rw [cal_runs_third d o fuel w r1 w1 r2 w2 r3 w3 h1 hr1' h2 hr2' h3] at h
            exact h

/-- The commands a calibration that stops in its first sub-command has written. -/
theorem cal_writes_first (d : Defs) (o : Oracle) (fuel : Nat) (w : World) (r1 : Int) (w1 : World)
    (h1 : wl1271_cmd_cal_channel_tune d o fuel w = some (r1, w1)) :
    w1.wl = w.wl ∧ w1.do_cal = w.do_cal ∧
    ∃ acts j, w1.trace = w.trace ++ acts ∧ j ≤ 1 ∧ writes acts = (cal_commands d).take j ∧
      (0 ≤ r1 → r1 = 0 ∧ j = 1) := by
  obtain ⟨hwl, hdc, acts, htr, hw, hok⟩ := cal_sub_command_frame d o fuel w _ _ r1 w1 h1
  refine ⟨hwl, hdc, acts, ?_⟩
  rcases hw with hw | hw
  · refine ⟨0, htr, by omega, by simp [hw], ?_⟩
    intro h0
    have := (hok h0).2
    rw [hw] at this
    simp at this
  · exact ⟨1, htr, by omega, by simp [hw, cal_commands], fun h0 => ⟨(hok h0).1, rfl⟩⟩

/-- The commands a calibration that reaches its second sub-command and stops
there has written. -/
theorem cal_writes_second (d : Defs) (o : Oracle) (fuel : Nat) (w : World) (r1 : Int)
    (w1 : World) (r2 : Int) (w2 : World)
    (h1 : wl1271_cmd_cal_channel_tune d o fuel w = some (r1, w1)) (hr1 : 0 ≤ r1)
    (h2 : wl1271_cmd_cal_update_ref_point d o fuel w1 = some (r2, w2)) :
    w2.wl = w.wl ∧ w2.do_cal = w.do_cal ∧
    ∃ acts j, w2.trace = w.trace ++ acts ∧ 1 ≤ j ∧ j ≤ 2 ∧ writes acts = (cal_commands d).take j ∧
      (0 ≤ r2 → r2 = 0 ∧ j = 2) := by
  obtain ⟨hwl1, hdc1, acts1, htr1, _, hok1⟩ := cal_sub_command_frame d o fuel w _ _ r1 w1 h1
  obtain ⟨hwl2, hdc2, acts2, htr2, hw2, hok2⟩ := cal_sub_command_frame d o fuel w1 _ _ r2 w2 h2
  have hw1 := (hok1 hr1).2
  refine ⟨hwl2.trans hwl1, hdc2.trans hdc1, acts1 ++ acts2, ?_⟩
  have htr : w2.trace = w.trace ++ (acts1 ++ acts2) := by
    rw [htr2, htr1, List.append_assoc]
  rcases hw2 with hw | hw
  · refine ⟨1, htr, by omega, by omega, by simp [writes_append, hw1, hw, cal_commands], ?_⟩
    intro h0
    have := (hok2 h0).2
    rw [hw] at this
    simp at this
  · exact ⟨2, htr, by omega, by omega, by simp [writes_append, hw1, hw, cal_commands],
      fun h0 => ⟨(hok2 h0).1, rfl⟩⟩

/-- The commands a calibration that reaches its third sub-command has written. -/
theorem cal_writes_third (d : Defs) (o : Oracle) (fuel : Nat) (w : World) (r1 : Int)
    (w1 : World) (r2 : Int) (w2 : World) (r3 : Int) (w3 : World)
    (h1 : wl1271_cmd_cal_channel_tune d o fuel w = some (r1, w1)) (hr1 : 0 ≤ r1)
    (h2 : wl1271_cmd_cal_update_ref_point d o fuel w1 = some (r2, w2)) (hr2 : 0 ≤ r2)
    (h3 : wl1271_cmd_cal_p2g d o fuel w2 = some (r3, w3)) :
    w3.wl = w.wl ∧ w3.do_cal = w.do_cal ∧
    ∃ acts j, w3.trace = w.trace ++ acts ∧ 2 ≤ j ∧ j ≤ 3 ∧ writes acts = (cal_commands d).take j ∧
      (0 ≤ r3 → r3 = 0 ∧ j = 3) := by
  obtain ⟨hwl2, hdc2, acts2, j2, htr2, _, _, hw2, hok2⟩ :=
    cal_writes_second d o fuel w r1 w1 r2 w2 h1 hr1 h2
  obtain ⟨hwl3, hdc3, acts3, htr3, hw3, hok3⟩ := cal_sub_command_frame d o fuel w2 _ _ r3 w3 h3
  have hj2 : j2 = 2 := (hok2 hr2).2
  subst hj2
  refine ⟨hwl3.trans hwl2, hdc3.trans hdc2, acts2 ++ acts3, ?_⟩
  have htr : w3.trace = w.trace ++ (acts2 ++ acts3) := by
    rw [htr3, htr2, List.append_assoc]
  rcases hw3 with hw | hw
  · refine ⟨2, htr, by omega, by omega, by simp [writes_append, hw2, hw], ?_⟩
    intro h0
    have := (hok3 h0).2
    rw [hw] at this
    simp at this
  · exact ⟨3, htr, by omega, by omega, by simp [writes_append, hw2, hw, cal_commands],
      fun h0 => ⟨(hok3 h0).1, rfl⟩⟩

/-- A calibration leaves the device state and do_cal alone and writes an
initial segment of the three calibration commands, all three when it
succeeds. -/
theorem cal_frame (d : Defs) (o : Oracle) (fuel : Nat) (w : World) (ret : Int) (w' : World)
    (h : wl1271_cmd_cal d o fuel w = some (ret, w')) :
    w'.wl = w.wl ∧ w'.do_cal = w.do_cal ∧
    ∃ acts j, w'.trace = w.trace ++ acts ∧ j ≤ 3 ∧ writes acts = (cal_commands d).take j ∧
      (0 ≤ ret → ret = 0 ∧ j = 3) := by
  obtain ⟨r1, w1, h1, hcase⟩ := cal_cases d o fuel w ret w' h
  rcases hcase with ⟨hr1, hret, hw⟩ | ⟨hr1, r2, w2, h2, hcase2⟩
  · subst hret; subst hw
    obtain ⟨hwl, hdc, acts, j, htr, hj, hwr, _⟩ := cal_writes_first d o fuel w ret w' h1
    exact ⟨hwl, hdc, acts, j, htr, by omega, hwr, fun h0 => absurd hr1 (not_lt.mpr h0)⟩
  · rcases hcase2 with ⟨hr2, hret, hw⟩ | ⟨hr2, h3⟩
    · subst hret; subst hw
      obtain ⟨hwl, hdc, acts, j, htr, _, hj, hwr, _⟩ :=
        cal_writes_second d o fuel w r1 w1 ret w' h1 hr1 h2
      exact ⟨hwl, hdc, acts, j, htr, by omega, hwr, fun h0 => absurd hr2 (not_lt.mpr h0)⟩
    · obtain ⟨hwl, hdc, acts, j, htr, _, hj, hwr, hok⟩ :=
        cal_writes_third d o fuel w r1 w1 r2 w2 ret w' h1 hr1 h2 hr2 h3
      exact ⟨hwl, hdc, acts, j, htr, hj, hwr, hok⟩

/-! ## wl1271_cmd_join characterised -/

theorem prepare_world (d : Defs) (w : World) (bss_type : Nat) :
    (wl1271_cmd_join_prepare d w bss_type).2.trace = w.trace ∧
    (wl1271_cmd_join_prepare d w bss_type).2.do_cal = w.do_cal ∧
    (wl1271_cmd_join_prepare d w bss_type).2.n_kzalloc = w.n_kzalloc ∧
    (wl1271_cmd_join_prepare d w bss_type).2.wl.cmd_box_addr = w.wl.cmd_box_addr := by
  simp only [wl1271_cmd_join_prepare]
  split <;> simp

theorem prepare_security (d : Defs) (w : World) (bss_type : Nat) :
    (wl1271_cmd_join_prepare d w bss_type).2.wl.tx_security_seq = 0 ∧
    (wl1271_cmd_join_prepare d w bss_type).2.wl.tx_security_last_seq = 0 := by
  simp [wl1271_cmd_join_prepare]

theorem prepare_session_counter (d : Defs) (w : World) (bss_type : Nat) :
    (wl1271_cmd_join_prepare d w bss_type).2.wl.session_counter =
      if d.SESSION_COUNTER_MAX ≤ w.wl.session_counter + 1 then 0 else w.wl.session_counter + 1 := by
  simp only [wl1271_cmd_join_prepare]
  split <;> simp_all

theorem session_counter_step (c max : Nat) (h : c < max) :
    (if max ≤ c + 1 then 0 else c + 1) = (c + 1) % max := by
  split
  · have : c + 1 = max := by omega
    rw [this, Nat.mod_self]
  · rw [Nat.mod_eq_of_lt (by omega)]

/-- The calibration stage of a join. -/
theorem join_cal_cases (d : Defs) (o : Oracle) (fuel : Nat) (w w1 : World)
    (h : wl1271_cmd_join_cal d o fuel w = some w1) :
    (w.do_cal = false ∧ w1 = w) ∨
    (w.do_cal = true ∧ ∃ cret wc, wl1271_cmd_cal d o fuel w = some (cret, wc) ∧
      ((cret < 0 ∧ w1 = wc) ∨ (0 ≤ cret ∧ w1 = { wc with do_cal := false }))) := by
  cases hdo : w.do_cal with
  | false =>
    simp only [wl1271_cmd_join_cal, hdo, Bool.false_eq_true, if_false, Option.some.injEq] at h
    exact Or.inl ⟨rfl, h.symm⟩
  | true =>
    right
    refine ⟨rfl, ?_⟩
    cases hc : wl1271_cmd_cal d o fuel w with
    | none => simp [wl1271_cmd_join_cal, hdo, hc] at h
    | some p =>
      obtain ⟨cret, wc⟩ := p
      refine ⟨cret, wc, rfl, ?_⟩
      by_cases hneg : cret < 0
      · simp only [wl1271_cmd_join_cal, hdo, if_true, hc, hneg, Option.some.injEq] at h
        exact Or.inl ⟨hneg, h.symm⟩
      · simp only [wl1271_cmd_join_cal, hdo, if_true, hc, hneg, if_false, Option.some.injEq] at h
        exact Or.inr ⟨not_lt.mp hneg, h.symm⟩

/-- The calibration stage leaves the device state and the allocation results
to come alone, and only appends to the trace. -/
theorem join_cal_frame (d : Defs) (o : Oracle) (fuel : Nat) (w w1 : World)
    (h : wl1271_cmd_join_cal d o fuel w = some w1) :
    w1.wl = w.wl ∧ ∃ acts j, w1.trace = w.trace ++ acts ∧ j ≤ 3 ∧
      writes acts = (cal_commands d).take j ∧ (w.do_cal = false → acts = []) := by
  rcases join_cal_cases d o fuel w w1 h with ⟨hdo, hw⟩ | ⟨hdo, cret, wc, hc, hcase⟩
  · subst hw
    exact ⟨rfl, [], 0, by simp, by omega, by simp [writes], fun _ => rfl⟩
  · obtain ⟨hwl, _, acts, j, htr, hj, hwr, _⟩ := cal_frame d o fuel w cret wc hc
    rcases hcase with ⟨_, hw⟩ | ⟨_, hw⟩
    · subst hw
      exact ⟨hwl, acts, j, htr, hj, hwr, fun hf => by rw [hdo] at hf; cases hf⟩
    · subst hw
      exact ⟨hwl, acts, j, htr, hj, hwr, fun hf => by rw [hdo] at hf; cases hf⟩

theorem join_unfold (d : Defs) (o : Oracle) (fuel : Nat) (w w1 : World) (bss_type : Nat)
    (hcal : wl1271_cmd_join_cal d o fuel w = some w1) :
    wl1271_cmd_join d o fuel w bss_type =
      if o.kzalloc w1.n_kzalloc = true then
        wl1271_cmd_join_send d o fuel (wl1271_cmd_join_prepare d (kzalloc o w1).2 bss_type).2
          (wl1271_cmd_join_prepare d (kzalloc o w1).2 bss_type).1
      else some (- ENOMEM, (kzalloc o w1).2) := by
  simp only [wl1271_cmd_join, hcal, kzalloc]
  cases o.kzalloc w1.n_kzalloc <;> simp

/-- Every result of a join has gone through the calibration stage. -/
theorem join_cal_of_join (d : Defs) (o : Oracle) (fuel : Nat) (w : World) (bss_type : Nat)
    (r : Int × World) (h : wl1271_cmd_join d o fuel w bss_type = some r) :
    ∃ w1, wl1271_cmd_join_cal d o fuel w = some w1 := by
  cases hc : wl1271_cmd_join_cal d o fuel w with
  | none => simp [wl1271_cmd_join, hc] at h
  | some w1 => exact ⟨w1, rfl⟩

/-- The two ways the send-and-wait stage of a join returns. -/
theorem join_send_cases (d : Defs) (o : Oracle) (fuel : Nat) (w : World) (join : Buf)
    (r : Int × World) (h : wl1271_cmd_join_send d o fuel w join = some r) :
    ∃ s, wl1271_cmd_send d o fuel w d.CMD_START_JOIN join d.sizeof_cmd_join 0 = some s ∧
      ((s.ret < 0 ∧ r = (s.ret, s.world)) ∨
       (0 ≤ s.ret ∧ wl1271_cmd_wait_for_event d o fuel s.world d.JOIN_EVENT_COMPLETE_ID = some r)) := by
  cases hs : wl1271_cmd_send d o fuel w d.CMD_START_JOIN join d.sizeof_cmd_join 0 with
  | none => simp [wl1271_cmd_join_send, hs] at h
  | some s =>
    refine ⟨s, rfl, ?_⟩
    by_cases hneg : s.ret < 0
    · simp only [wl1271_cmd_join_send, hs, hneg, if_true, Option.some.injEq] at h
      exact Or.inl ⟨hneg, h.symm⟩
    · simp only [wl1271_cmd_join_send, hs, hneg, if_false] at h
      exact Or.inr ⟨not_lt.mp hneg, h⟩

/-- The send-and-wait stage leaves the device state and do_cal alone; its first
action is the write of the START_JOIN command, its only write to device
memory. -/
theorem join_send_frame (d : Defs) (o : Oracle) (fuel : Nat) (w : World) (join : Buf)
    (r : Int × World) (h : wl1271_cmd_join_send d o fuel w join = some r) :
    r.2.wl = w.wl ∧ r.2.do_cal = w.do_cal ∧
    ∃ rest, r.2.trace = w.trace ++
        Action.write w.wl.cmd_box_addr (stamped d.CMD_START_JOIN join) d.sizeof_cmd_join :: rest ∧
      writes rest = [] := by
  obtain ⟨s, hs, hcase⟩ := join_send_cases d o fuel w join r h
  obtain ⟨hwl, hdc, _, ⟨rest, htr, hwr⟩, _⟩ := cmd_send_frame d o fuel w _ _ _ _ s hs
  rcases hcase with ⟨_, hr⟩ | ⟨_, hwait⟩
  · subst hr
    exact ⟨hwl, hdc, rest, htr, hwr⟩
  · obtain ⟨ret, w'⟩ := r
    obtain ⟨hwl2, hdc2, _, ⟨acts, htr2, hwr2⟩, _⟩ := wait_frame d o fuel s.world _ ret w' hwait
    refine ⟨hwl2.trans hwl, hdc2.trans hdc, rest ++ acts, ?_, ?_⟩
    · simp only [htr2, htr, List.append_assoc, List.cons_append]
    · simp [writes_append, hwr, hwr2]

/-- What a join does after its calibration stage: it keeps do_cal as that
stage left it, and writes to device memory nothing but START_JOIN commands. -/
theorem join_after_cal (d : Defs) (o : Oracle) (fuel : Nat) (w w1 : World) (bss_type : Nat)
    (r : Int × World) (hcal : wl1271_cmd_join_cal d o fuel w = some w1)
    (h : wl1271_cmd_join d o fuel w bss_type = some r) :
    r.2.do_cal = w1.do_cal ∧
    ∃ acts, r.2.trace = w1.trace ++ acts ∧
      ∀ b, b ∈ writes acts → b.header.id = d.CMD_START_JOIN % 2 ^ 16 := by
  rw [join_unfold d o fuel w w1 bss_type hcal] at h
  cases hk : o.kzalloc w1.n_kzalloc with
  | false =>
    rw [hk] at h
    simp only [Bool.false_eq_true, if_false, Option.some.injEq] at h
    subst h
    exact ⟨rfl, [], by simp [kzalloc], fun b hb => by simp [writes] at hb⟩
  | true =>
    rw [hk, if_pos rfl] at h
    obtain ⟨_, hdc, rest, htr, hwr⟩ := join_send_frame d o fuel _ _ r h
    obtain ⟨hptr, hpdc, _, _⟩ := prepare_world d (kzalloc o w1).2 bss_type
    refine ⟨by rw [hdc, hpdc]; rfl, _, by rw [htr, hptr]; rfl, ?_⟩
    intro b hb
    simp only [writes, hwr, List.mem_singleton] at hb
    rw [hb]
    rfl

/-! ## With a live clock every call returns -/

theorem send_converges (d : Defs) (o : Oracle) (hlive : Live d o) (w : World) (id : Nat)
    (buf : Buf) (len res_len : Nat) :
    ∃ r, Converges (fun fuel => wl1271_cmd_send d o fuel w id buf len res_len) r := by
  obtain ⟨n, hn⟩ := cmd_send_returns d o hlive w id buf len res_len
  obtain ⟨r, hr⟩ := hn (n + 1) (by omega)
  exact ⟨r, n, fun fuel hf => cmd_send_mono d o (n + 1) fuel w id buf len res_len r hr (by omega)⟩

theorem wait_converges (d : Defs) (o : Oracle) (hlive : Live d o) (w : World) (mask : Nat) :
    ∃ r, Converges (fun fuel => wl1271_cmd_wait_for_event d o fuel w mask) r := by
  obtain ⟨n, hn⟩ := wait_returns_of_live d o hlive w mask
  obtain ⟨r, hr⟩ := hn (n + 1) (by omega)
  exact ⟨r, n, fun fuel hf => wait_mono d o (n + 1) fuel w mask r hr (by omega)⟩

theorem cal_sub_command_converges (d : Defs) (o : Oracle) (hlive : Live d o) (w : World)
    (cmd : Buf) (size : Nat) :
    ∃ r, Converges (fun fuel => cal_sub_command d o fuel w cmd size) r := by
  cases hk : o.kzalloc w.n_kzalloc with
  | false =>
    exact ⟨(- ENOMEM, (kzalloc o w).2), 0, fun fuel _ => by simp [cal_sub_command, kzalloc, hk]⟩
  | true =>
    obtain ⟨s, n, hs⟩ := send_converges d o hlive (kzalloc o w).2 d.CMD_TEST cmd size 0
    refine ⟨(s.ret, s.world), n, fun fuel hf => ?_⟩
    have := hs fuel hf
    simp only [kzalloc] at this
    simp [cal_sub_command, kzalloc, wl1271_cmd_test, hk, this]

theorem cal_converges (d : Defs) (o : Oracle) (hlive : Live d o) (w : World) :
    ∃ r, Converges (fun fuel => wl1271_cmd_cal d o fuel w) r := by
  obtain ⟨⟨r1, w1⟩, n1, h1⟩ := cal_sub_command_converges d o hlive w (cal_channel_tune_cmd d)
    d.sizeof_cmd_cal_channel_tune
  by_cases hr1 : r1 < 0
  · exact ⟨(r1, w1), n1, fun fuel hf => cal_stops_at_first d o fuel w r1 w1 (h1 fuel hf) hr1⟩
  · obtain ⟨⟨r2, w2⟩, n2, h2⟩ := cal_sub_command_converges d o hlive w1
      (cal_update_ref_point_cmd d) d.sizeof_cmd_cal_update_ref_point
    by_cases hr2 : r2 < 0
    · exact ⟨(r2, w2), max n1 n2, fun fuel hf =>
        cal_stops_at_second d o fuel w r1 w1 r2 w2 (h1 fuel (by omega)) (not_lt.mp hr1)
          (h2 fuel (by omega)) hr2⟩
    · obtain ⟨⟨r3, w3⟩, n3, h3⟩ := cal_sub_command_converges d o hlive w2 (cal_p2g_cmd d)
        d.sizeof_cmd_cal_p2g
      exact ⟨(r3, w3), max n1 (max n2 n3), fun fuel hf =>
        cal_runs_third d o fuel w r1 w1 r2 w2 r3 w3 (h1 fuel (by omega)) (not_lt.mp hr1)
          (h2 fuel (by omega)) (not_lt.mp hr2) (h3 fuel (by omega))⟩

theorem join_cal_converges (d : Defs) (o : Oracle) (hlive : Live d o) (w : World) :
    ∃ w1, Converges (fun fuel => wl1271_cmd_join_cal d o fuel w) w1 := by
  cases hdo : w.do_cal with
  | false => exact ⟨w, 0, fun fuel _ => by simp [wl1271_cmd_join_cal, hdo]⟩
  | true =>
    obtain ⟨⟨cret, wc⟩, n, hc⟩ := cal_converges d o hlive w
    exact ⟨if cret < 0 then wc else { wc with do_cal := false }, n, fun fuel hf => by
      have := hc fuel hf
      simp only at this
      simp only [wl1271_cmd_join_cal, hdo, if_true, this]
      split <;> rfl⟩

theorem join_send_converges (d : Defs) (o : Oracle) (hlive : Live d o) (w : World) (join : Buf) :
    ∃ r, Converges (fun fuel => wl1271_cmd_join_send d o fuel w join) r := by
  obtain ⟨s, n, hs⟩ := send_converges d o hlive w d.CMD_START_JOIN join d.sizeof_cmd_join 0
  by_cases hneg : s.ret < 0
  · exact ⟨(s.ret, s.world), n, fun fuel hf => by
      have := hs fuel hf
      simp only at this
      simp [wl1271_cmd_join_send, this, hneg]⟩
  · obtain ⟨r, m, hr⟩ := wait_converges d o hlive s.world d.JOIN_EVENT_COMPLETE_ID
    exact ⟨r, max n m, fun fuel hf => by
      have h1 := hs fuel (by omega)
      have h2 := hr fuel (by omega)
      simp only at h1 h2
      simp [wl1271_cmd_join_send, h1, hneg, h2]⟩

/-- With a live clock wl1271_cmd_join returns, given enough fuel. -/
theorem join_converges (d : Defs) (o : Oracle) (hlive : Live d o) (w : World) (bss_type : Nat) :
    ∃ r, Converges (fun fuel => wl1271_cmd_join d o fuel w bss_type) r := by
  obtain ⟨w1, n, hc⟩ := join_cal_converges d o hlive w
  cases hk : o.kzalloc w1.n_kzalloc with
  | false =>
    exact ⟨(- ENOMEM, (kzalloc o w1).2), n, fun fuel hf => by
      have := hc fuel hf
      simp only at this
      show wl1271_cmd_join d o fuel w bss_type = _
      rw [join_unfold d o fuel w w1 bss_type this, hk]
      simp⟩
  | true =>
    obtain ⟨r, m, hr⟩ := join_send_converges d o hlive
      (wl1271_cmd_join_prepare d (kzalloc o w1).2 bss_type).2
      (wl1271_cmd_join_prepare d (kzalloc o w1).2 bss_type).1
    exact ⟨r, max n m, fun fuel hf => by
      have h1 := hc fuel (by omega)
      have h2 := hr fuel (by omega)
      simp only at h1 h2
      show wl1271_cmd_join d o fuel w bss_type = _
      rw [join_unfold d o fuel w w1 bss_type h1, hk, if_pos rfl, h2]⟩

/-! ## wl1271_cmd_set_key characterised -/

/-- The key field of the command built for key type TKIP. -/
theorem set_key_cmd_tkip (d : Defs) (action id key_type key_size : Nat) (A B C addr : List Nat)
    (tx_seq_32 tx_seq_16 : Nat) (hA : A.length = 16) (hB : B.length = 8) (hC : C.length = 8)
    (hk : key_type % 256 = d.KEY_TKIP) :
    (set_key_cmd d action id key_type key_size (A ++ B ++ C) addr tx_seq_32 tx_seq_16).key
      = A ++ C ++ B ++ (List.replicate d.MAX_KEY_SIZE 0).drop 32 := by
  have hAB : (A ++ B).length = 24 := by simp [hA, hB]
  have hAC : (A ++ C).length = 24 := by simp [hA, hC]
  -- the three slices of the caller's key
  have s1 : slice (A ++ B ++ C) 0 16 = A := by
    simp only [slice, List.drop_zero, List.append_assoc]
    exact List.take_left' hA
  have s2 : slice (A ++ B ++ C) 24 8 = C := by
    simp only [slice]
    rw [List.drop_left' hAB]
    exact List.take_of_length_le (by omega)
  have s3 : slice (A ++ B ++ C) 16 8 = B := by
    simp only [slice, List.append_assoc]
    rw [List.drop_left' hA]
    exact List.take_left' hB
  -- the three copies
  have k1 : memcpy_at (List.replicate d.MAX_KEY_SIZE 0) 0 (A ++ B ++ C) 0 16
      = A ++ (List.replicate d.MAX_KEY_SIZE 0).drop 16 := by
    simp only [memcpy_at, s1, List.take_zero, List.nil_append, Nat.zero_add]
  have k2 : memcpy_at (A ++ (List.replicate d.MAX_KEY_SIZE 0).drop 16) 16 (A ++ B ++ C) 24 8
      = A ++ C ++ (List.replicate d.MAX_KEY_SIZE 0).drop 24 := by
    simp only [memcpy_at, s2]
    rw [List.take_left' hA, List.drop_append_eq_append_drop, hA]
    simp [List.drop_of_length_le, hA]
    omega
  have k3 : memcpy_at (A ++ C ++ (List.replicate d.MAX_KEY_SIZE 0).drop 24) 24 (A ++ B ++ C) 16 8
      = A ++ C ++ B ++ (List.replicate d.MAX_KEY_SIZE 0).drop 32 := by
    simp only [memcpy_at, s3]
    rw [List.take_left' hAC, List.drop_append_eq_append_drop, hAC]
    simp [List.drop_of_length_le, hAC]
    omega
  simp only [set_key_cmd, hk, if_true, cmd_set_keys.zero]
  split <;> simp only [k1, k2, k3]

theorem set_key_unfold (d : Defs) (o : Oracle) (fuel : Nat) (w : World)
    (action id key_type key_size : Nat) (key addr : List Nat) (tx_seq_32 tx_seq_16 : Nat) :
    wl1271_cmd_set_key d o fuel w action id key_type key_size key addr tx_seq_32 tx_seq_16 =
      if o.kzalloc w.n_kzalloc = true then
        match wl1271_cmd_send d o fuel (kzalloc o w).2 d.CMD_SET_KEYS
            (Buf.fresh (Body.set_keys
              (set_key_cmd d action id key_type key_size key addr tx_seq_32 tx_seq_16)))
            d.sizeof_cmd_set_keys 0 with
        | none => none
        | some r => some (r.ret, r.world)
      else some (- ENOMEM, (kzalloc o w).2) := by
  simp only [wl1271_cmd_set_key, kzalloc]
  cases o.kzalloc w.n_kzalloc <;> simp

/-- A set-key whose buffer is allocated returns what its one send returns. -/
theorem set_key_sends (d : Defs) (o : Oracle) (fuel : Nat) (w : World)
    (action id key_type key_size : Nat) (key addr : List Nat) (tx_seq_32 tx_seq_16 : Nat)
    (r : Int × World) (halloc : o.kzalloc w.n_kzalloc = true)
    (h : wl1271_cmd_set_key d o fuel w action id key_type key_size key addr tx_seq_32 tx_seq_16
      = some r) :
    ∃ s, wl1271_cmd_send d o fuel (kzalloc o w).2 d.CMD_SET_KEYS
        (Buf.fresh (Body.set_keys
          (set_key_cmd d action id key_type key_size key addr tx_seq_32 tx_seq_16)))
        d.sizeof_cmd_set_keys 0 = some s ∧ r = (s.ret, s.world) := by
  rw [set_key_unfold, if_pos halloc] at h
  cases hs : wl1271_cmd_send d o fuel (kzalloc o w).2 d.CMD_SET_KEYS
      (Buf.fresh (Body.set_keys
        (set_key_cmd d action id key_type key_size key addr tx_seq_32 tx_seq_16)))
      d.sizeof_cmd_set_keys 0 with
  | none => rw [hs] at h; simp at h
  | some s =>
    rw [hs] at h
    simp only [Option.some.injEq] at h
    exact ⟨s, rfl, h.symm⟩

theorem set_key_converges (d : Defs) (o : Oracle) (hlive : Live d o) (w : World)
    (action id key_type key_size : Nat) (key addr : List Nat) (tx_seq_32 tx_seq_16 : Nat) :
    ∃ r, Converges (fun fuel =>
      wl1271_cmd_set_key d o fuel w action id key_type key_size key addr tx_seq_32 tx_seq_16) r := by
  cases hk : o.kzalloc w.n_kzalloc with
  | false =>
    exact ⟨(- ENOMEM, (kzalloc o w).2), 0, fun fuel _ => by
      show wl1271_cmd_set_key d o fuel w action id key_type key_size key addr tx_seq_32 tx_seq_16 = _
      rw [set_key_unfold, hk]
      simp⟩
  | true =>
    obtain ⟨s, n, hs⟩ := send_converges d o hlive (kzalloc o w).2 d.CMD_SET_KEYS
      (Buf.fresh (Body.set_keys
        (set_key_cmd d action id key_type key_size key addr tx_seq_32 tx_seq_16)))
      d.sizeof_cmd_set_keys 0
    exact ⟨(s.ret, s.world), n, fun fuel hf => by
      have := hs fuel hf
      simp only at this
      show wl1271_cmd_set_key d o fuel w action id key_type key_size key addr tx_seq_32 tx_seq_16 = _
      rw [set_key_unfold, hk, if_pos rfl, this]⟩

/-- The example clock, which advances by one at every read, is live for the
32-bit time_after. -/
theorem example_clock_live (statuses : List Nat) (mbox : Nat) (allocs : List Bool) :
    Live example_defs (scripted_oracle statuses mbox allocs) := by
  intro j timeout
  refine ⟨(timeout + 1 + 4294967296 - j % 4294967296) % 4294967296, ?_⟩
  simp only [example_defs, scripted_oracle, time_after32, decide_eq_true_eq]
  norm_num
  omega

/-! ## Pure facts about the key and address copies -/

/-- A 32-byte key is its first 16 bytes, its next 8 and its last 8. -/
theorem key_split (key : List Nat) (h : key.length = 32) :
    key = key.take 16 ++ (key.drop 16).take 8 ++ key.drop 24 ∧
    (key.take 16).length = 16 ∧ ((key.drop 16).take 8).length = 8 ∧ (key.drop 24).length = 8 := by
  refine ⟨?_, by simp [h], by simp [h], by simp [h]⟩
  have h1 : key.drop 24 = (key.drop 16).drop 8 := by rw [List.drop_drop]
  rw [h1, List.append_assoc, List.take_append_drop, List.take_append_drop]

/-- The key field of the command built for a key type other than TKIP. -/
theorem set_key_cmd_plain (d : Defs) (action id key_type key_size : Nat) (key addr : List Nat)
    (tx_seq_32 tx_seq_16 : Nat) (hk : key_type % 256 ≠ d.KEY_TKIP) :
    (set_key_cmd d action id key_type key_size key addr tx_seq_32 tx_seq_16).key
      = key.take (key_size % 256) ++ List.replicate (d.MAX_KEY_SIZE - key_size % 256) 0 := by
  simp only [set_key_cmd, hk, if_false, cmd_set_keys.zero]
  split <;> simp [memcpy_at, slice]

/-- The address field of the command built by wl1271_cmd_set_key. -/
theorem set_key_cmd_addr (d : Defs) (action id key_type key_size : Nat) (key addr : List Nat)
    (tx_seq_32 tx_seq_16 : Nat) :
    (set_key_cmd d action id key_type key_size key addr tx_seq_32 tx_seq_16).addr
      = if key_type % 256 ≠ d.KEY_WEP then memcpy (List.replicate ETH_ALEN 0) addr ETH_ALEN
        else List.replicate ETH_ALEN 0 := by
  simp only [set_key_cmd, cmd_set_keys.zero]
  split <;> split <;> simp_all

/-- The loop of lines 315-316 on six-byte arrays. -/
theorem reverse_bssid_six (a b c e f g a' b' c' e' f' g' : Nat) :
    reverse_bssid [a', b', c', e', f', g'] [a, b, c, e, f, g] = [g, f, e, c, b, a] := rfl

theorem list_of_length_six (l : List Nat) (h : l.length = 6) :
    ∃ a b c e f g, l = [a, b, c, e, f, g] := by
  match l, h with
  | [a, b, c, e, f, g], _ => exact ⟨a, b, c, e, f, g, rfl⟩

/-- The join command that wl1271_cmd_join_prepare builds carries the reversed
station BSSID. -/
theorem prepare_bssid (d : Defs) (w : World) (bss_type : Nat) :
    ∃ j, (wl1271_cmd_join_prepare d w bss_type).1 = Buf.fresh (Body.join j) ∧
      j.bssid = reverse_bssid (List.replicate ETH_ALEN 0) w.wl.bssid := by
  simp only [wl1271_cmd_join_prepare]
  split <;> exact ⟨_, rfl, rfl⟩

/-! ## wl1271_cmd_template_set characterised -/

theorem template_set_cmd_len (d : Defs) (wl : wl1271) (template_id : Nat) (buf : Option (List Nat))
    (buf_len index rates : Nat) :
    (template_set_cmd d wl template_id buf buf_len index rates).len
      = min buf_len d.WL1271_CMD_TEMPL_MAX_SIZE % 2 ^ 16 := by
  cases buf <;> simp [template_set_cmd]

theorem template_set_cmd_data (d : Defs) (wl : wl1271) (template_id : Nat) (payload : List Nat)
    (buf_len index rates : Nat) :
    (template_set_cmd d wl template_id (some payload) buf_len index rates).template_data
      = payload.take (min buf_len d.WL1271_CMD_TEMPL_MAX_SIZE) ++
        List.replicate (d.WL1271_CMD_TEMPL_MAX_SIZE - min buf_len d.WL1271_CMD_TEMPL_MAX_SIZE) 0 := by
  simp [template_set_cmd, cmd_template_set.zero, memcpy]

theorem template_set_cmd_data_null (d : Defs) (wl : wl1271) (template_id : Nat)
    (buf_len index rates : Nat) :
    (template_set_cmd d wl template_id none buf_len index rates).template_data
      = List.replicate d.WL1271_CMD_TEMPL_MAX_SIZE 0 := by
  simp [template_set_cmd, cmd_template_set.zero]

theorem template_set_unfold (d : Defs) (o : Oracle) (fuel : Nat) (w : World) (template_id : Nat)
    (buf : Option (List Nat)) (buf_len index rates : Nat) :
    wl1271_cmd_template_set d o fuel w template_id buf buf_len index rates =
      if o.kzalloc w.n_kzalloc = true then
        match wl1271_cmd_send d o fuel (kzalloc o w).2 d.CMD_SET_TEMPLATE
            (Buf.fresh (Body.template_set
              (template_set_cmd d w.wl template_id buf buf_len index rates)))
            d.sizeof_cmd_template_set 0 with
        | none => none
        | some r => some (r.ret, r.world)
      else some (- ENOMEM, (kzalloc o w).2) := by
  simp only [wl1271_cmd_template_set, kzalloc]
  cases o.kzalloc w.n_kzalloc <;> simp

/-- The two ways wl1271_cmd_template_set returns: -ENOMEM with nothing sent
when its buffer is not allocated, and otherwise what its one send returns. -/
theorem template_set_cases (d : Defs) (o : Oracle) (fuel : Nat) (w : World) (template_id : Nat)
    (buf : Option (List Nat)) (buf_len index rates : Nat) (r : Int × World)
    (h : wl1271_cmd_template_set d o fuel w template_id buf buf_len index rates = some r) :
    (o.kzalloc w.n_kzalloc = false ∧ r = (- ENOMEM, (kzalloc o w).2)) ∨
    (o.kzalloc w.n_kzalloc = true ∧
      ∃ s, wl1271_cmd_send d o fuel (kzalloc o w).2 d.CMD_SET_TEMPLATE
          (Buf.fresh (Body.template_set
            (template_set_cmd d w.wl template_id buf buf_len index rates)))
          d.sizeof_cmd_template_set 0 = some s ∧ r = (s.ret, s.world)) := by
  rw [template_set_unfold] at h
  cases hk : o.kzalloc w.n_kzalloc with
  | false =>
    rw [hk] at h
    simp only [Bool.false_eq_true, if_false, Option.some.injEq] at h
    exact Or.inl ⟨rfl, h.symm⟩
  | true =>
    rw [hk, if_pos rfl] at h
    right
    refine ⟨rfl, ?_⟩
    cases hs : wl1271_cmd_send d o fuel (kzalloc o w).2 d.CMD_SET_TEMPLATE
        (Buf.fresh (Body.template_set
          (template_set_cmd d w.wl template_id buf buf_len index rates)))
        d.sizeof_cmd_template_set 0 with
    | none => rw [hs] at h; simp at h
    | some s =>
      rw [hs] at h
      simp only [Option.some.injEq] at h
      exact ⟨s, rfl, h.symm⟩

/-- A template-set leaves the device state and do_cal alone, returns 0 or a
negative value, and writes at most its one command to device memory. -/
theorem template_set_frame (d : Defs) (o : Oracle) (fuel : Nat) (w : World) (template_id : Nat)
    (buf : Option (List Nat)) (buf_len index rates : Nat) (r : Int × World)
    (h : wl1271_cmd_template_set d o fuel w template_id buf buf_len index rates = some r) :
    r.2.wl = w.wl ∧ r.2.do_cal = w.do_cal ∧ (r.1 = 0 ∨ r.1 < 0) ∧
    ∃ acts, r.2.trace = w.trace ++ acts ∧
      (writes acts = [] ∨ writes acts = [stamped d.CMD_SET_TEMPLATE (Buf.fresh (Body.template_set
        (template_set_cmd d w.wl template_id buf buf_len index rates)))]) := by
  rcases template_set_cases d o fuel w template_id buf buf_len index rates r h with
    ⟨_, hr⟩ | ⟨_, s, hs, hr⟩
  · subst hr
    exact ⟨rfl, rfl, Or.inr (by simp [ENOMEM]), [], by simp [kzalloc], Or.inl rfl⟩
  · obtain ⟨hwl, hdc, _, ⟨rest, htr, hwr⟩, hret⟩ := cmd_send_frame d o fuel _ _ _ _ _ s hs
    subst hr
    refine ⟨hwl, hdc, ?_, _, htr, Or.inr (by simp [writes, hwr])⟩
    rcases hret with h0 | h0 | h0
    · exact Or.inl h0
    · exact Or.inr (by rw [h0]; simp [ EIO])
    · exact Or.inr (by rw [h0]; simp [ETIMEDOUT])

theorem template_set_converges (d : Defs) (o : Oracle) (hlive : Live d o) (w : World)
    (template_id : Nat) (buf : Option (List Nat)) (buf_len index rates : Nat) :
    ∃ r, Converges (fun fuel =>
      wl1271_cmd_template_set d o fuel w template_id buf buf_len index rates) r := by
  cases hk : o.kzalloc w.n_kzalloc with
  | false =>
    exact ⟨(- ENOMEM, (kzalloc o w).2), 0, fun fuel _ => by
      show wl1271_cmd_template_set d o fuel w template_id buf buf_len index rates = _
      rw [template_set_unfold, hk]
      simp⟩
  | true =>
    obtain ⟨s, n, hs⟩ := send_converges d o hlive (kzalloc o w).2 d.CMD_SET_TEMPLATE
      (Buf.fresh (Body.template_set
        (template_set_cmd d w.wl template_id buf buf_len index rates)))
      d.sizeof_cmd_template_set 0
    exact ⟨(s.ret, s.world), n, fun fuel hf => by
      have := hs fuel hf
      simp only at this
      show wl1271_cmd_template_set d o fuel w template_id buf buf_len index rates = _
      rw [template_set_unfold, hk, if_pos rfl, this]⟩

/-! ## wl1271_cmd_interrogate and wl1271_cmd_configure characterised -/

/-- The length stamped into acx->len is the payload length as long as that
fits 16 bits. -/
theorem acx_payload_len_eq (d : Defs) (len : Nat) (hlo : d.sizeof_acx_header ≤ len)
    (hhi : len - d.sizeof_acx_header < 65536) :
    acx_payload_len d len = len - d.sizeof_acx_header := by
  simp only [acx_payload_len]
  have h1 : ((len : Int) - (d.sizeof_acx_header : Int)) = ((len - d.sizeof_acx_header : Nat) : Int) := by
    omega
  rw [h1]
  have h2 : ((len - d.sizeof_acx_header : Nat) : Int) % 65536
      = ((len - d.sizeof_acx_header : Nat) : Int) := by
    apply Int.emod_eq_of_lt <;> omega
  rw [h2]
  exact Int.toNat_natCast _

/-- The trace of a send that completes at reading n, action by action. -/
theorem send_completed_trace (d : Defs) (o : Oracle) (w : World) (id : Nat) (buf : Buf)
    (len res_len n : Nat) :
    (send_completed d o w id buf len res_len n).world.trace = w.trace ++
      ([Action.write w.wl.cmd_box_addr (stamped id buf) len,
        Action.write32 d.ACX_REG_INTERRUPT_TRIG d.INTR_TRIG_CMD,
        Action.read32 d.ACX_REG_INTERRUPT_NO_CLEAR] ++ poll_actions d 0 n ++
       [Action.read w.wl.cmd_box_addr (read_back_len res_len),
        Action.write32 d.ACX_REG_INTERRUPT_ACK d.WL1271_ACX_INTR_CMD_COMPLETE]) := by
  simp [send_completed, send_actions, finish_actions]

/-- The trace of a send that times out at deadline check n, action by action. -/
theorem send_timed_out_trace (d : Defs) (w : World) (id : Nat) (buf : Buf) (len n : Nat) :
    (send_timed_out d w id buf len n).world.trace = w.trace ++
      ([Action.write w.wl.cmd_box_addr (stamped id buf) len,
        Action.write32 d.ACX_REG_INTERRUPT_TRIG d.INTR_TRIG_CMD,
        Action.read32 d.ACX_REG_INTERRUPT_NO_CLEAR] ++ poll_actions d 0 n) := by
  simp [send_timed_out, send_actions]

/-- The function wl1271_cmd_configure returns what its send returns. -/
theorem configure_eq_send (d : Defs) (o : Oracle) (fuel : Nat) (w : World) (id : Nat)
    (header : wl1271_cmd_header) (acx : acx_body) (len : Nat) :
    wl1271_cmd_configure d o fuel w id header acx len =
      wl1271_cmd_send d o fuel w d.CMD_CONFIGURE (acx_stamped d id header acx len) len 0 := by
  simp only [wl1271_cmd_configure]
  cases hs : wl1271_cmd_send d o fuel w d.CMD_CONFIGURE (acx_stamped d id header acx len) len 0 with
  | none => rfl
  | some s =>
    simp only
    rcases (cmd_send_frame d o fuel _ _ _ _ _ s hs).2.2.2.2 with h0 | h0 | h0
    · rw [if_neg (by rw [h0]; simp)]
      congr 1
      cases s
      simp only at h0
      simp [h0]
    · rw [if_pos (by rw [h0]; simp [ EIO])]
    · rw [if_pos (by rw [h0]; simp [ETIMEDOUT])]

/-! ## wl1271_cmd_scan characterised -/

/-- A probe-request build leaves the device state and do_cal alone, returns 0
or a negative value, and only appends to the trace. -/
theorem probe_req_frame (d : Defs) (o : Oracle) (fuel : Nat) (w : World)
    (ssid : Option (List Nat)) (ssid_len : Nat) (ie : Option (List Nat)) (ie_len band : Nat)
    (r : Int × World)
    (h : wl1271_cmd_build_probe_req d o fuel w ssid ssid_len ie ie_len band = some r) :
    r.2.wl = w.wl ∧ r.2.do_cal = w.do_cal ∧ (r.1 = 0 ∨ r.1 < 0) ∧
    ∃ acts, r.2.trace = w.trace ++ acts := by
  simp only [wl1271_cmd_build_probe_req, ieee80211_probereq_get] at h
  cases hskb : o.skb w.n_skb with
  | none =>
    simp only [hskb, Option.some.injEq] at h
    subst h
    exact ⟨rfl, rfl, Or.inr (by simp [ENOMEM]), [], by simp⟩
  | some data =>
    simp only [hskb] at h
    split at h
    · obtain ⟨hwl, hdc, hret, acts, htr, _⟩ := template_set_frame d o fuel _ _ _ _ _ _ r h
      exact ⟨hwl, hdc, hret, acts, htr⟩
    · obtain ⟨hwl, hdc, hret, acts, htr, _⟩ := template_set_frame d o fuel _ _ _ _ _ _ r h
      exact ⟨hwl, hdc, hret, acts, htr⟩

theorem probe_req_converges (d : Defs) (o : Oracle) (hlive : Live d o) (w : World)
    (ssid : Option (List Nat)) (ssid_len : Nat) (ie : Option (List Nat)) (ie_len band : Nat) :
    ∃ r, Converges (fun fuel =>
      wl1271_cmd_build_probe_req d o fuel w ssid ssid_len ie ie_len band) r := by
  cases hskb : o.skb w.n_skb with
  | none =>
    exact ⟨(- ENOMEM, { w with n_skb := w.n_skb + 1 }), 0, fun fuel _ => by
      simp [wl1271_cmd_build_probe_req, ieee80211_probereq_get, hskb]⟩
  | some data =>
    by_cases hb : band % 256 = d.IEEE80211_BAND_2GHZ
    · obtain ⟨r, n, hr⟩ := template_set_converges d o hlive { w with n_skb := w.n_skb + 1 }
        d.CMD_TEMPL_CFG_PROBE_REQ_2_4 (some data) data.length 0 w.wl.conf_tx_basic_rate
      exact ⟨r, n, fun fuel hf => by
        have := hr fuel hf
        simp only at this
        simp only [wl1271_cmd_build_probe_req, ieee80211_probereq_get, hskb, hb, if_true]
        exact this⟩
    · obtain ⟨r, n, hr⟩ := template_set_converges d o hlive { w with n_skb := w.n_skb + 1 }
        d.CMD_TEMPL_CFG_PROBE_REQ_5 (some data) data.length 0 w.wl.conf_tx_basic_rate_5
      exact ⟨r, n, fun fuel hf => by
        have := hr fuel hf
        simp only at this
        simp only [wl1271_cmd_build_probe_req, ieee80211_probereq_get, hskb, hb, if_false]
        exact this⟩

/-- The two ways the last stage of a scan returns. -/
theorem scan_start_cases (d : Defs) (o : Oracle) (fuel : Nat) (w : World) (params : cmd_scan)
    (r : Int × World) (h : wl1271_cmd_scan_start d o fuel w params = some r) :
    ∃ s, wl1271_cmd_send d o fuel w d.CMD_SCAN (Buf.fresh (Body.scan params))
        d.sizeof_cmd_scan 0 = some s ∧
      ((s.ret < 0 ∧ r = (s.ret, clear_scanning s.world)) ∨ (s.ret = 0 ∧ r = (0, s.world))) := by
  cases hs : wl1271_cmd_send d o fuel w d.CMD_SCAN (Buf.fresh (Body.scan params))
      d.sizeof_cmd_scan 0 with
  | none => simp [wl1271_cmd_scan_start, hs] at h
  | some s =>
    refine ⟨s, rfl, ?_⟩
    rcases (cmd_send_frame d o fuel _ _ _ _ _ s hs).2.2.2.2 with h0 | h0 | h0
    · right
      simp only [wl1271_cmd_scan_start, hs, h0, lt_self_iff_false, if_false,
        Option.some.injEq] at h
      exact ⟨h0, h.symm⟩
    · left
      have hneg : s.ret < 0 := by rw [h0]; simp [ EIO]
      simp only [wl1271_cmd_scan_start, hs, hneg, if_true, Option.some.injEq] at h
      exact ⟨hneg, h.symm⟩
    · left
      have hneg : s.ret < 0 := by rw [h0]; simp [ETIMEDOUT]
      simp only [wl1271_cmd_scan_start, hs, hneg, if_true, Option.some.injEq] at h
      exact ⟨hneg, h.symm⟩

theorem scan_start_converges (d : Defs) (o : Oracle) (hlive : Live d o) (w : World)
    (params : cmd_scan) :
    ∃ r, Converges (fun fuel => wl1271_cmd_scan_start d o fuel w params) r := by
  obtain ⟨s, n, hs⟩ := send_converges d o hlive w d.CMD_SCAN (Buf.fresh (Body.scan params))
    d.sizeof_cmd_scan 0
  exact ⟨if s.ret < 0 then (s.ret, clear_scanning s.world) else (s.ret, s.world), n,
    fun fuel hf => by
      have := hs fuel hf
      simp only at this
      simp only [wl1271_cmd_scan_start, this]
      split <;> rfl⟩

/-- The scanning flag is set by scan_record and is the only field of the
device state, the scan record apart, that it touches. -/
theorem scan_record_flag (d : Defs) (w : World) (ssid : Option (List Nat))
    (ssid_len active_scan high_prio band probe_requests : Nat) :
    (scan_record d w ssid ssid_len active_scan high_prio band probe_requests).wl.flag_scanning
      = true ∧
    (scan_record d w ssid ssid_len active_scan high_prio band probe_requests).trace = w.trace ∧
    (scan_record d w ssid ssid_len active_scan high_prio band probe_requests).wl.cmd_box_addr
      = w.wl.cmd_box_addr := by
  refine ⟨?_, rfl, ?_⟩
  · simp only [scan_record]
    (repeat' split) <;> rfl
  · simp only [scan_record]
    (repeat' split) <;> rfl

/-- The ways the trigger stage of a scan returns: a failure that leaves the
device state alone, or the last stage. -/
theorem scan_trigger_cases (d : Defs) (o : Oracle) (fuel : Nat) (w : World) (params : cmd_scan)
    (ssid : Option (List Nat)) (ssid_len active_scan high_prio band probe_requests : Nat)
    (r : Int × World)
    (h : wl1271_cmd_scan_trigger d o fuel w params ssid ssid_len active_scan high_prio band
      probe_requests = some r) :
    (r.1 < 0 ∧ r.2.wl = w.wl) ∨
    scan_reaches_start d o fuel w params ssid ssid_len active_scan high_prio band
      probe_requests r := by
  simp only [wl1271_cmd_scan_trigger, kzalloc] at h
  cases hk : o.kzalloc w.n_kzalloc with
  | false =>
    simp only [hk, Bool.not_false, if_true, Option.some.injEq] at h
    subst h
    exact Or.inl ⟨by simp [ENOMEM], rfl⟩
  | true =>
    simp only [hk, Bool.not_true, Bool.false_eq_true, if_false] at h
    cases hs : wl1271_cmd_send d o fuel { w with n_kzalloc := w.n_kzalloc + 1 }
        d.CMD_TRIGGER_SCAN_TO (Buf.fresh (Body.trigger_scan_to { timeout := 0 }))
        d.sizeof_cmd_trigger_scan_to 0 with
    | none => rw [hs] at h; simp at h
    | some s =>
      rw [hs] at h
      simp only at h
      obtain ⟨hwl, _, _, ⟨rest, htr, _⟩, _⟩ := cmd_send_frame d o fuel _ _ _ _ _ s hs
      by_cases hneg : s.ret < 0
      · rw [if_pos hneg] at h
        simp only [Option.some.injEq] at h
        subst h
        exact Or.inl ⟨hneg, hwl⟩
      · rw [if_neg hneg] at h
        exact Or.inr ⟨s.world, hwl, ⟨_, htr⟩, h⟩

theorem scan_trigger_converges (d : Defs) (o : Oracle) (hlive : Live d o) (w : World)
    (params : cmd_scan) (ssid : Option (List Nat))
    (ssid_len active_scan high_prio band probe_requests : Nat) :
    ∃ r, Converges (fun fuel => wl1271_cmd_scan_trigger d o fuel w params ssid ssid_len
      active_scan high_prio band probe_requests) r := by
  cases hk : o.kzalloc w.n_kzalloc with
  | false =>
    exact ⟨(- ENOMEM, (kzalloc o w).2), 0, fun fuel _ => by
      simp [wl1271_cmd_scan_trigger, kzalloc, hk]⟩
  | true =>
    obtain ⟨s, n, hs⟩ := send_converges d o hlive (kzalloc o w).2 d.CMD_TRIGGER_SCAN_TO
      (Buf.fresh (Body.trigger_scan_to { timeout := 0 })) d.sizeof_cmd_trigger_scan_to 0
    by_cases hneg : s.ret < 0
    · exact ⟨(s.ret, s.world), n, fun fuel hf => by
        have := hs fuel hf
        simp only [kzalloc] at this
        simp [wl1271_cmd_scan_trigger, kzalloc, hk, this, hneg]⟩
    · obtain ⟨r, m, hr⟩ := scan_start_converges d o hlive
        (scan_record d s.world ssid ssid_len active_scan high_prio band probe_requests) params
      exact ⟨r, max n m, fun fuel hf => by
        have h1 := hs fuel (by omega)
        have h2 := hr fuel (by omega)
        simp only [kzalloc] at h1
        simp only at h2
        simp [wl1271_cmd_scan_trigger, kzalloc, hk, h1, hneg, h2]⟩

/-- The ways the body of a scan returns. -/
theorem scan_body_cases (d : Defs) (o : Oracle) (fuel : Nat) (w : World)
    (ssid : Option (List Nat)) (ssid_len : Nat) (ie : Option (List Nat))
    (ie_len active_scan high_prio band probe_requests ieee_band rate : Nat)
    (channels : List ieee80211_channel) (n_ch : Nat) (r : Int × World)
    (h : wl1271_cmd_scan_body d o fuel w ssid ssid_len ie ie_len active_scan high_prio band
      probe_requests ieee_band rate channels n_ch = some r) :
    (r.1 < 0 ∧ r.2.wl = w.wl) ∨
    scan_reaches_start d o fuel w
      (scan_cmd d ssid ssid_len active_scan high_prio band probe_requests rate channels n_ch)
      ssid ssid_len active_scan high_prio band probe_requests r := by
  simp only [wl1271_cmd_scan_body, kzalloc] at h
  cases hk : o.kzalloc w.n_kzalloc with
  | false =>
    simp only [hk, Bool.not_false, if_true, Option.some.injEq] at h
    subst h
    exact Or.inl ⟨by simp [ENOMEM], rfl⟩
  | true =>
    simp only [hk, Bool.not_true, Bool.false_eq_true, if_false] at h
    cases hp : wl1271_cmd_build_probe_req d o fuel { w with n_kzalloc := w.n_kzalloc + 1 }
        ssid ssid_len ie ie_len ieee_band with
    | none => rw [hp] at h; simp at h
    | some p =>
      obtain ⟨ret, wp⟩ := p
      rw [hp] at h
      simp only at h
      obtain ⟨hwl, _, _, acts, htr⟩ := probe_req_frame d o fuel _ _ _ _ _ _ _ hp
      by_cases hneg : ret < 0
      · rw [if_pos hneg] at h
        simp only [Option.some.injEq] at h
        subst h
        exact Or.inl ⟨hneg, hwl⟩
      · rw [if_neg hneg] at h
        rcases scan_trigger_cases d o fuel wp _ _ _ _ _ _ _ r h with ⟨hr, hw⟩ | ⟨w3, hw3, ⟨a3, ht3⟩, hst⟩
        · exact Or.inl ⟨hr, hw.trans hwl⟩
        · refine Or.inr ⟨w3, hw3.trans hwl, ⟨acts ++ a3, ?_⟩, hst⟩
          rw [ht3, htr]
          simp

theorem scan_body_converges (d : Defs) (o : Oracle) (hlive : Live d o) (w : World)
    (ssid : Option (List Nat)) (ssid_len : Nat) (ie : Option (List Nat))
    (ie_len active_scan high_prio band probe_requests ieee_band rate : Nat)
    (channels : List ieee80211_channel) (n_ch : Nat) :
    ∃ r, Converges (fun fuel => wl1271_cmd_scan_body d o fuel w ssid ssid_len ie ie_len
      active_scan high_prio band probe_requests ieee_band rate channels n_ch) r := by
  cases hk : o.kzalloc w.n_kzalloc with
  | false =>
    exact ⟨(- ENOMEM, (kzalloc o w).2), 0, fun fuel _ => by
      simp [wl1271_cmd_scan_body, kzalloc, hk]⟩
  | true =>
    obtain ⟨⟨ret, wp⟩, n, hp⟩ := probe_req_converges d o hlive (kzalloc o w).2 ssid ssid_len ie
      ie_len ieee_band
    by_cases hneg : ret < 0
    · exact ⟨(ret, wp), n, fun fuel hf => by
        have := hp fuel hf
        simp only [kzalloc] at this
        simp [wl1271_cmd_scan_body, kzalloc, hk, this, hneg]⟩
    · obtain ⟨r, m, hr⟩ := scan_trigger_converges d o hlive wp
        (scan_cmd d ssid ssid_len active_scan high_prio band probe_requests rate channels n_ch)
        ssid ssid_len active_scan high_prio band probe_requests
      exact ⟨r, max n m, fun fuel hf => by
        have h1 := hp fuel (by omega)
        have h2 := hr fuel (by omega)
        simp only [kzalloc] at h1
        simp only at h2
        simp [wl1271_cmd_scan_body, kzalloc, hk, h1, hneg, h2]⟩

theorem scan_errno_ne_einval (v : Int) (h : scan_errno v) : v ≠ - EINVAL := by
  rcases h with h | h | h | h <;> rw [h] <;> simp [ EIO, ETIMEDOUT, ENOMEM, EINVAL]

theorem send_ret_errno (d : Defs) (o : Oracle) (fuel : Nat) (w : World) (id : Nat) (buf : Buf)
    (len res_len : Nat) (s : SendResult)
    (h : wl1271_cmd_send d o fuel w id buf len res_len = some s) : scan_errno s.ret := by
  rcases (cmd_send_frame d o fuel w id buf len res_len s h).2.2.2.2 with h0 | h0 | h0
  · exact Or.inl h0
  · exact Or.inr (Or.inl h0)
  · exact Or.inr (Or.inr (Or.inl h0))

theorem template_set_ret (d : Defs) (o : Oracle) (fuel : Nat) (w : World) (template_id : Nat)
    (buf : Option (List Nat)) (buf_len index rates : Nat) (r : Int × World)
    (h : wl1271_cmd_template_set d o fuel w template_id buf buf_len index rates = some r) :
    scan_errno r.1 := by
  rcases template_set_cases d o fuel w template_id buf buf_len index rates r h with
    ⟨_, hr⟩ | ⟨_, s, hs, hr⟩
  · rw [hr]; exact Or.inr (Or.inr (Or.inr rfl))
  · rw [hr]; exact send_ret_errno d o fuel _ _ _ _ _ s hs

theorem probe_req_ret (d : Defs) (o : Oracle) (fuel : Nat) (w : World)
    (ssid : Option (List Nat)) (ssid_len : Nat) (ie : Option (List Nat)) (ie_len band : Nat)
    (r : Int × World)
    (h : wl1271_cmd_build_probe_req d o fuel w ssid ssid_len ie ie_len band = some r) :
    scan_errno r.1 := by
  simp only [wl1271_cmd_build_probe_req, ieee80211_probereq_get] at h
  cases hskb : o.skb w.n_skb with
  | none =>
    simp only [hskb, Option.some.injEq] at h
    subst h
    exact Or.inr (Or.inr (Or.inr rfl))
  | some data =>
    simp only [hskb] at h
    split at h
    · exact template_set_ret d o fuel _ _ _ _ _ _ r h
    · exact template_set_ret d o fuel _ _ _ _ _ _ r h

theorem scan_start_ret (d : Defs) (o : Oracle) (fuel : Nat) (w : World) (params : cmd_scan)
    (r : Int × World) (h : wl1271_cmd_scan_start d o fuel w params = some r) :
    scan_errno r.1 := by
  obtain ⟨s, hs, hcase⟩ := scan_start_cases d o fuel w params r h
  rcases hcase with ⟨_, hr⟩ | ⟨_, hr⟩
  · rw [hr]; exact send_ret_errno d o fuel _ _ _ _ _ s hs
  · rw [hr]; exact Or.inl rfl

theorem scan_trigger_ret (d : Defs) (o : Oracle) (fuel : Nat) (w : World) (params : cmd_scan)
    (ssid : Option (List Nat)) (ssid_len active_scan high_prio band probe_requests : Nat)
    (r : Int × World)
    (h : wl1271_cmd_scan_trigger d o fuel w params ssid ssid_len active_scan high_prio band
      probe_requests = some r) : scan_errno r.1 := by
  simp only [wl1271_cmd_scan_trigger, kzalloc] at h
  cases hk : o.kzalloc w.n_kzalloc with
  | false =>
    simp only [hk, Bool.not_false, if_true, Option.some.injEq] at h
    subst h
    exact Or.inr (Or.inr (Or.inr rfl))
  | true =>
    simp only [hk, Bool.not_true, Bool.false_eq_true, if_false] at h
    cases hs : wl1271_cmd_send d o fuel { w with n_kzalloc := w.n_kzalloc + 1 }
        d.CMD_TRIGGER_SCAN_TO (Buf.fresh (Body.trigger_scan_to { timeout := 0 }))
        d.sizeof_cmd_trigger_scan_to 0 with
    | none => rw [hs] at h; simp at h
    | some s =>
      rw [hs] at h
      simp only at h
      by_cases hneg : s.ret < 0
      · rw [if_pos hneg] at h
        simp only [Option.some.injEq] at h
        subst h
        exact send_ret_errno d o fuel _ _ _ _ _ s hs
      · rw [if_neg hneg] at h
        exact scan_start_ret d o fuel _ _ r h

theorem scan_body_ret (d : Defs) (o : Oracle) (fuel : Nat) (w : World)
    (ssid : Option (List Nat)) (ssid_len : Nat) (ie : Option (List Nat))
    (ie_len active_scan high_prio band probe_requests ieee_band rate : Nat)
    (channels : List ieee80211_channel) (n_ch : Nat) (r : Int × World)
    (h : wl1271_cmd_scan_body d o fuel w ssid ssid_len ie ie_len active_scan high_prio band
      probe_requests ieee_band rate channels n_ch = some r) : scan_errno r.1 := by
  simp only [wl1271_cmd_scan_body, kzalloc] at h
  cases hk : o.kzalloc w.n_kzalloc with
  | false =>
    simp only [hk, Bool.not_false, if_true, Option.some.injEq] at h
    subst h
    exact Or.inr (Or.inr (Or.inr rfl))
  | true =>
    simp only [hk, Bool.not_true, Bool.false_eq_true, if_false] at h
    cases hp : wl1271_cmd_build_probe_req d o fuel { w with n_kzalloc := w.n_kzalloc + 1 }
        ssid ssid_len ie ie_len ieee_band with
    | none => rw [hp] at h; simp at h
    | some p =>
      obtain ⟨ret, wp⟩ := p
      rw [hp] at h
      simp only at h
      by_cases hneg : ret < 0
      · rw [if_pos hneg] at h
        simp only [Option.some.injEq] at h
        subst h
        exact probe_req_ret d o fuel _ _ _ _ _ _ _ hp
      · rw [if_neg hneg] at h
        exact scan_trigger_ret d o fuel wp _ _ _ _ _ _ _ r h

/-- Lines 582-592 reject exactly the bands that are not accepted. -/
theorem scan_select_band_none_iff (d : Defs) (wl : wl1271) (band : Nat) :
    scan_select_band d wl band = none ↔ ¬ scan_band_accepted d band := by
  unfold scan_select_band scan_band_accepted
  by_cases h1 : band = d.WL1271_SCAN_BAND_2_4_GHZ
  · rw [if_pos h1]
    exact ⟨fun h => by simp at h, fun h => absurd (Or.inl h1) h⟩
  · rw [if_neg h1]
    by_cases h2 : band = d.WL1271_SCAN_BAND_DUAL ∧ d.wl1271_11a_enabled = true
    · rw [if_pos h2]
      exact ⟨fun h => by simp at h, fun h => absurd (Or.inr (Or.inl h2)) h⟩
    · rw [if_neg h2]
      by_cases h3 : band = d.WL1271_SCAN_BAND_5_GHZ ∧ d.wl1271_11a_enabled = true
      · rw [if_pos h3]
        exact ⟨fun h => by simp at h, fun h => absurd (Or.inr (Or.inr h3)) h⟩
      · rw [if_neg h3]
        exact ⟨fun _ h => by
          rcases h with h | h | h
          · exact h1 h
          · exact h2 h
          · exact h3 h, fun _ => rfl⟩

theorem scan_of_rejected_band (d : Defs) (o : Oracle) (fuel : Nat) (w : World)
    (ssid : Option (List Nat)) (ssid_len : Nat) (ie : Option (List Nat))
    (ie_len active_scan high_prio band probe_requests : Nat)
    (h : scan_select_band d w.wl (band % 256) = none) :
    wl1271_cmd_scan d o fuel w ssid ssid_len ie ie_len active_scan high_prio band probe_requests
      = some (- EINVAL, w) := by
  simp [wl1271_cmd_scan, h]

theorem scan_of_no_channels (d : Defs) (o : Oracle) (fuel : Nat) (w : World)
    (ssid : Option (List Nat)) (ssid_len : Nat) (ie : Option (List Nat))
    (ie_len active_scan high_prio band probe_requests ieee_band rate : Nat)
    (h : scan_select_band d w.wl (band % 256) = some (ieee_band, rate))
    (hch : (w.wl.bands d ieee_band).channels = none) :
    wl1271_cmd_scan d o fuel w ssid ssid_len ie ie_len active_scan high_prio band probe_requests
      = some (- EINVAL, w) := by
  simp [wl1271_cmd_scan, h, hch]

theorem scan_of_scanning (d : Defs) (o : Oracle) (fuel : Nat) (w : World)
    (ssid : Option (List Nat)) (ssid_len : Nat) (ie : Option (List Nat))
    (ie_len active_scan high_prio band probe_requests : Nat)
    (h : w.wl.flag_scanning = true) :
    wl1271_cmd_scan d o fuel w ssid ssid_len ie ie_len active_scan high_prio band probe_requests
      = some (- EINVAL, w) := by
  simp only [wl1271_cmd_scan]
  cases hsel : scan_select_band d w.wl (band % 256) with
  | none => rfl
  | some p =>
    obtain ⟨ieee_band, rate⟩ := p
    simp only
    cases hch : (w.wl.bands d ieee_band).channels with
    | none => rfl
    | some channels => simp [h]

theorem scan_of_body (d : Defs) (o : Oracle) (fuel : Nat) (w : World)
    (ssid : Option (List Nat)) (ssid_len : Nat) (ie : Option (List Nat))
    (ie_len active_scan high_prio band probe_requests ieee_band rate : Nat)
    (channels : List ieee80211_channel)
    (h : scan_select_band d w.wl (band % 256) = some (ieee_band, rate))
    (hch : (w.wl.bands d ieee_band).channels = some channels)
    (hflag : w.wl.flag_scanning = false) :
    wl1271_cmd_scan d o fuel w ssid ssid_len ie ie_len active_scan high_prio band probe_requests
      = wl1271_cmd_scan_body d o fuel w ssid ssid_len ie ie_len (active_scan % 256)
          (high_prio % 256) (band % 256) (probe_requests % 256) ieee_band rate channels
          (w.wl.bands d ieee_band).n_channels := by
  simp [wl1271_cmd_scan, h, hch, hflag]

/-- Every result of a scan is a failure that leaves the device state alone, or
comes from the last stage, which is reached only with the flag clear. -/
theorem scan_cases (d : Defs) (o : Oracle) (fuel : Nat) (w : World)
    (ssid : Option (List Nat)) (ssid_len : Nat) (ie : Option (List Nat))
    (ie_len active_scan high_prio band probe_requests : Nat) (r : Int × World)
    (h : wl1271_cmd_scan d o fuel w ssid ssid_len ie ie_len active_scan high_prio band
      probe_requests = some r) :
    (r.1 < 0 ∧ r.2.wl = w.wl) ∨
    (w.wl.flag_scanning = false ∧ ∃ ieee_band rate channels,
      scan_select_band d w.wl (band % 256) = some (ieee_band, rate) ∧
      (w.wl.bands d ieee_band).channels = some channels ∧
      scan_reaches_start d o fuel w
        (scan_cmd d ssid ssid_len (active_scan % 256) (high_prio % 256) (band % 256)
          (probe_requests % 256) rate channels (w.wl.bands d ieee_band).n_channels)
        ssid ssid_len (active_scan % 256) (high_prio % 256) (band % 256)
        (probe_requests % 256) r) := by
  have hinval : ((- EINVAL, w) : Int × World).1 < 0 := by simp [EINVAL]
  cases hsel : scan_select_band d w.wl (band % 256) with
  | none =>
    rw [scan_of_rejected_band d o fuel w _ _ _ _ _ _ _ _ hsel] at h
    simp only [Option.some.injEq] at h
    subst h
    exact Or.inl ⟨hinval, rfl⟩
  | some p =>
    obtain ⟨ieee_band, rate⟩ := p
    cases hch : (w.wl.bands d ieee_band).channels with
    | none =>
      rw [scan_of_no_channels d o fuel w _ _ _ _ _ _ _ _ _ _ hsel hch] at h
      simp only [Option.some.injEq] at h
      subst h
      exact Or.inl ⟨hinval, rfl⟩
    | some channels =>
      cases hflag : w.wl.flag_scanning with
      | true =>
        rw [scan_of_scanning d o fuel w _ _ _ _ _ _ _ _ hflag] at h
        simp only [Option.some.injEq] at h
        subst h
        exact Or.inl ⟨hinval, rfl⟩
      | false =>
        rw [scan_of_body d o fuel w _ _ _ _ _ _ _ _ _ _ _ hsel hch hflag] at h
        rcases scan_body_cases d o fuel w _ _ _ _ _ _ _ _ _ _ _ _ r h with hearly | hlate
        · exact Or.inl hearly
        · exact Or.inr ⟨rfl, ieee_band, rate, channels, rfl, hch, hlate⟩

/-- With a live clock wl1271_cmd_scan returns, given enough fuel. -/
theorem scan_converges (d : Defs) (o : Oracle) (hlive : Live d o) (w : World)
    (ssid : Option (List Nat)) (ssid_len : Nat) (ie : Option (List Nat))
    (ie_len active_scan high_prio band probe_requests : Nat) :
    ∃ r, Converges (fun fuel => wl1271_cmd_scan d o fuel w ssid ssid_len ie ie_len active_scan
      high_prio band probe_requests) r := by
  cases hsel : scan_select_band d w.wl (band % 256) with
  | none =>
    exact ⟨_, 0, fun fuel _ => scan_of_rejected_band d o fuel w _ _ _ _ _ _ _ _ hsel⟩
  | some p =>
    obtain ⟨ieee_band, rate⟩ := p
    cases hch : (w.wl.bands d ieee_band).channels with
    | none =>
      exact ⟨_, 0, fun fuel _ => scan_of_no_channels d o fuel w _ _ _ _ _ _ _ _ _ _ hsel hch⟩
    | some channels =>
      cases hflag : w.wl.flag_scanning with
      | true => exact ⟨_, 0, fun fuel _ => scan_of_scanning d o fuel w _ _ _ _ _ _ _ _ hflag⟩
      | false =>
        obtain ⟨r, n, hr⟩ := scan_body_converges d o hlive w ssid ssid_len ie ie_len
          (active_scan % 256) (high_prio % 256) (band % 256) (probe_requests % 256) ieee_band
          rate channels (w.wl.bands d ieee_band).n_channels
        exact ⟨r, n, fun fuel hf => by
          show wl1271_cmd_scan d o fuel w ssid ssid_len ie ie_len active_scan high_prio band
            probe_requests = _
          rw [scan_of_body d o fuel w _ _ _ _ _ _ _ _ _ _ _ hsel hch hflag]
          exact hr fuel hf⟩

/-- What the last stage leaves behind: the recorded device state with the flag
as the result tells, and a trace in which the scan command is written. -/
theorem scan_reaches_start_result (d : Defs) (o : Oracle) (fuel : Nat) (w : World)
    (params : cmd_scan) (ssid : Option (List Nat))
    (ssid_len active_scan high_prio band probe_requests : Nat) (r : Int × World)
    (h : scan_reaches_start d o fuel w params ssid ssid_len active_scan high_prio band
      probe_requests r) :
    ∃ w3, w3.wl = w.wl ∧
      ((r.1 < 0 ∧ r.2.wl = (clear_scanning
          (scan_record d w3 ssid ssid_len active_scan high_prio band probe_requests)).wl) ∨
       (r.1 = 0 ∧ r.2.wl =
          (scan_record d w3 ssid ssid_len active_scan high_prio band probe_requests).wl)) ∧
      ∃ pre rest, r.2.trace = w.trace ++ pre ++
        Action.write w.wl.cmd_box_addr (stamped d.CMD_SCAN (Buf.fresh (Body.scan params)))
          d.sizeof_cmd_scan :: rest := by
  obtain ⟨w3, hw3, ⟨pre, hpre⟩, hst⟩ := h
  obtain ⟨s, hs, hcase⟩ := scan_start_cases d o fuel _ params r hst
  obtain ⟨hwl, _, _, ⟨rest, htr, _⟩, _⟩ := cmd_send_frame d o fuel _ _ _ _ _ s hs
  obtain ⟨_, hrtr, hrbox⟩ := scan_record_flag d w3 ssid ssid_len active_scan high_prio band
    probe_requests
  have htrace : s.world.trace = w.trace ++ pre ++
      Action.write w.wl.cmd_box_addr (stamped d.CMD_SCAN (Buf.fresh (Body.scan params)))
        d.sizeof_cmd_scan :: rest := by
    rw [htr, hrtr, hrbox, hpre, hw3]
  refine ⟨w3, hw3, ?_, pre, rest, ?_⟩
  · rcases hcase with ⟨hneg, hr⟩ | ⟨h0, hr⟩
    · left
      rw [hr]
      refine ⟨hneg, ?_⟩
      simp only [clear_scanning, hwl]
    · right
      rw [hr]
      exact ⟨rfl, hwl⟩
  · rcases hcase with ⟨_, hr⟩ | ⟨_, hr⟩
    · rw [hr]; exact htrace
    · rw [hr]; exact htrace

/-! ## The channel loop of wl1271_cmd_scan -/

theorem scan_cmd_band (d : Defs) (ssid : Option (List Nat))
    (ssid_len active_scan high_prio band probe_requests rate : Nat)
    (channels : List ieee80211_channel) (n_ch : Nat) :
    (scan_cmd d ssid ssid_len active_scan high_prio band probe_requests rate channels
      n_ch).params.band =
      if band = d.WL1271_SCAN_BAND_DUAL then d.WL1271_SCAN_BAND_2_4_GHZ % 256 else band := by
  simp only [scan_cmd]
  (repeat' split) <;> rfl

/-! ## What wl1271_cmd_scan records and sends -/

theorem scan_record_scan_11a_off (d : Defs) (w : World) (ssid : Option (List Nat))
    (ssid_len active_scan high_prio band probe_requests : Nat)
    (h11a : d.wl1271_11a_enabled = false) :
    (scan_record d w ssid ssid_len active_scan high_prio band probe_requests).wl.scan
      = w.wl.scan := by
  simp [scan_record, h11a]

theorem scan_record_scan_not_dual (d : Defs) (w : World) (ssid : Option (List Nat))
    (ssid_len active_scan high_prio band probe_requests : Nat)
    (h11a : d.wl1271_11a_enabled = true) (hband : band ≠ d.WL1271_SCAN_BAND_DUAL) :
    (scan_record d w ssid ssid_len active_scan high_prio band probe_requests).wl.scan
      = { w.wl.scan with state := band } := by
  simp [scan_record, h11a, hband]

theorem scan_record_scan_state (d : Defs) (w : World) (ssid : Option (List Nat))
    (ssid_len active_scan high_prio band probe_requests : Nat)
    (h11a : d.wl1271_11a_enabled = true) :
    (scan_record d w ssid ssid_len active_scan high_prio band probe_requests).wl.scan.state
      = band := by
  simp only [scan_record, h11a, if_true]
  (repeat' split) <;> rfl

theorem scan_record_scan_dual (d : Defs) (w : World) (ssid : Option (List Nat))
    (ssid_len active_scan high_prio band probe_requests : Nat)
    (h11a : d.wl1271_11a_enabled = true) (hband : band = d.WL1271_SCAN_BAND_DUAL) :
    (scan_record d w ssid ssid_len active_scan high_prio band probe_requests).wl.scan =
      { state := band, active := active_scan, high_prio := high_prio,
        probe_requests := probe_requests,
        ssid_len := if ssid.isSome = true ∧ ssid_len ≠ 0 then ssid_len else 0,
        ssid := match ssid with
          | some s => if ssid_len ≠ 0 then memcpy w.wl.scan.ssid s ssid_len else w.wl.scan.ssid
          | none => w.wl.scan.ssid } := by
  simp only [scan_record, h11a, hband, if_true]
  cases ssid with
  | none => simp
  | some s =>
    by_cases hl : ssid_len = 0
    · simp [hl]
    · simp [hl]

/-- The scan record after a call: untouched, or what lines 675-688 make of
the one at entry; the latter whenever the call succeeds. -/
theorem scan_result_scan (d : Defs) (o : Oracle) (fuel : Nat) (w : World)
    (ssid : Option (List Nat)) (ssid_len : Nat) (ie : Option (List Nat))
    (ie_len active_scan high_prio band probe_requests : Nat) (r : Int × World)
    (h : wl1271_cmd_scan d o fuel w ssid ssid_len ie ie_len active_scan high_prio band
      probe_requests = some r) :
    (r.1 < 0 ∧ r.2.wl.scan = w.wl.scan) ∨
    (r.1 ≤ 0 ∧ ∃ w3, w3.wl = w.wl ∧ r.2.wl.scan =
      (scan_record d w3 ssid ssid_len (active_scan % 256) (high_prio % 256) (band % 256)
        (probe_requests % 256)).wl.scan) := by
  rcases scan_cases d o fuel w ssid ssid_len ie ie_len active_scan high_prio band
    probe_requests r h with ⟨hneg, hwl⟩ | ⟨_, ieee_band, rate, channels, _, _, hlate⟩
  · exact Or.inl ⟨hneg, by rw [hwl]⟩
  · obtain ⟨w3, hw3, hcase, _⟩ := scan_reaches_start_result d o fuel w _ _ _ _ _ _ _ r hlate
    right
    rcases hcase with ⟨hneg, hr⟩ | ⟨h0, hr⟩
    · exact ⟨le_of_lt hneg, w3, hw3, by rw [hr]; rfl⟩
    · exact ⟨le_of_eq h0, w3, hw3, by rw [hr]⟩

/-- A scan that succeeds was entered with the flag clear and has written the
command scan_cmd builds from the selected band, as a CMD_SCAN, to the command
mailbox. -/
theorem scan_success_sends (d : Defs) (o : Oracle) (fuel : Nat) (w : World)
    (ssid : Option (List Nat)) (ssid_len : Nat) (ie : Option (List Nat))
    (ie_len active_scan high_prio band probe_requests : Nat) (r : Int × World)
    (h : wl1271_cmd_scan d o fuel w ssid ssid_len ie ie_len active_scan high_prio band
      probe_requests = some r) (h0 : r.1 = 0) :
    w.wl.flag_scanning = false ∧ ∃ ieee_band rate channels pre rest,
      scan_select_band d w.wl (band % 256) = some (ieee_band, rate) ∧
      (w.wl.bands d ieee_band).channels = some channels ∧
      r.2.trace = w.trace ++ pre ++
        Action.write w.wl.cmd_box_addr
          (stamped d.CMD_SCAN (Buf.fresh (Body.scan
            (scan_cmd d ssid ssid_len (active_scan % 256) (high_prio % 256) (band % 256)
              (probe_requests % 256) rate channels (w.wl.bands d ieee_band).n_channels))))
          d.sizeof_cmd_scan :: rest := by
  rcases scan_cases d o fuel w ssid ssid_len ie ie_len active_scan high_prio band
    probe_requests r h with ⟨hneg, _⟩ | ⟨hflag, ieee_band, rate, channels, hsel, hch, hlate⟩
  · omega
  · obtain ⟨_, _, _, pre, rest, htr⟩ :=
      scan_reaches_start_result d o fuel w _ _ _ _ _ _ _ r hlate
    exact ⟨hflag, ieee_band, rate, channels, pre, rest, hsel, hch, htr⟩

/-! ## The delays of the poll loop -/

theorem waits_append (l₁ l₂ : List Action) : waits (l₁ ++ l₂) = waits l₁ ++ waits l₂ := by
  simp [waits]

/-- The delays of n rounds of the poll loop entered with the given poll_count:
round i (from 0) steps the 16-bit counter to poll_count + i + 1 and busy-waits
when that is below WL1271_CMD_FAST_POLL_COUNT. -/
theorem waits_poll_actions (d : Defs) (poll_count n : Nat) :
    waits (poll_actions d poll_count n) = (List.range n).map (fun i =>
      if (poll_count + i + 1) % 65536 < WL1271_CMD_FAST_POLL_COUNT then Action.udelay 10
      else Action.msleep 1) := by
  induction n generalizing poll_count with
  | zero => rfl
  | succ n ih =>
    have hstep : waits (poll_actions d poll_count (n + 1)) =
        (if (poll_count + 1) % 65536 < WL1271_CMD_FAST_POLL_COUNT then Action.udelay 10
          else Action.msleep 1) :: waits (poll_actions d ((poll_count + 1) % 65536) n) := by
      have e16 : (2 : Nat) ^ 16 = 65536 := by norm_num
      simp only [poll_actions, waits, e16]
      split <;> simp [Action.is_transport]
    rw [hstep, ih, List.range_succ_eq_map, List.map_cons, List.map_map]
    congr 1
    apply List.map_congr_left
    intro i _
    have hmod : ((poll_count + 1) % 65536 + i + 1) % 65536 = (poll_count + (i + 1) + 1) % 65536 := by
      omega
    simp only [Function.comp, hmod, Nat.succ_eq_add_one]

theorem waits_send_actions (d : Defs) (w : World) (id : Nat) (buf : Buf) (len n : Nat) :
    waits (send_actions d w id buf len n) = (List.range n).map (fun i =>
      if (i + 1) % 65536 < WL1271_CMD_FAST_POLL_COUNT then Action.udelay 10
      else Action.msleep 1) := by
  rw [send_actions, waits_append, waits_poll_actions]
  simp [waits, Action.is_transport]

theorem waits_finish_actions (d : Defs) (w : World) (res_len : Nat) :
    waits (finish_actions d w res_len) = [] := by
  simp [waits, finish_actions, Action.is_transport]

/-- The delays of a wl1271_cmd_send, whichever way it ends: as many as there
were readings without the command-complete bit, the k-th of them (from 1)
chosen by k as a 16-bit counter. -/
theorem send_waits (d : Defs) (o : Oracle) (fuel : Nat) (w : World) (id : Nat) (buf : Buf)
    (len res_len : Nat) (r : SendResult)
    (h : wl1271_cmd_send d o fuel w id buf len res_len = some r) :
    ∃ n acts, n < fuel ∧ (send_completes_at d o w n ∨ send_times_out_at d o w n) ∧
      r.world.trace = w.trace ++ acts ∧
      waits acts = (List.range n).map (fun i =>
        if (i + 1) % 65536 < WL1271_CMD_FAST_POLL_COUNT then Action.udelay 10
        else Action.msleep 1) := by
  obtain ⟨n, hn, hcase⟩ := cmd_send_spec d o fuel w id buf len res_len r h
  rcases hcase with ⟨hc, hr⟩ | ⟨ht, hr⟩
  · refine ⟨n, send_actions d w id buf len n ++ finish_actions d w res_len, hn, Or.inl hc, ?_, ?_⟩
    · rw [hr]; rfl
    · rw [waits_append, waits_finish_actions, List.append_nil, waits_send_actions]
  · refine ⟨n, send_actions d w id buf len n, hn, Or.inr ht, ?_, ?_⟩
    · rw [hr]; rfl
    · rw [waits_send_actions]

/-- On the example values, a device that shows the command-complete bit from
reading n on completes the send at reading n. -/
theorem delayed_completes (n : Nat) :
    send_completes_at example_defs (delayed_oracle n) example_world n := by
  refine ⟨fun k hk => ⟨?_, ?_⟩, ?_⟩
  · have hlt : ¬ n ≤ 0 + k := by omega
    simp only [send_reading, delayed_oracle, example_world, if_neg hlt]
    decide
  · simp only [send_late, send_deadline, delayed_oracle]
    decide
  · have hle : n ≤ 0 + n := by omega
    simp only [send_reading, delayed_oracle, example_world, if_pos hle]
    decide

/-- The poll loop can wait any number of times: on the example values the
send to a device that answers at reading n makes n delays. -/
theorem delayed_run_waits (n : Nat) :
    ∃ r, wl1271_cmd_send example_defs (delayed_oracle n) (n + 1) example_world 23 example_buf 16 0
        = some r ∧
      waits r.world.trace = (List.range n).map (fun i =>
        if (i + 1) % 65536 < WL1271_CMD_FAST_POLL_COUNT then Action.udelay 10
        else Action.msleep 1) := by
  refine ⟨_, cmd_send_complete example_defs (delayed_oracle n) (n + 1) example_world 23
    example_buf 16 0 n (delayed_completes n) (Nat.lt_succ_self n), ?_⟩
  have htr : (send_completed example_defs (delayed_oracle n) example_world 23 example_buf 16 0
      n).world.trace = send_actions example_defs example_world 23 example_buf 16 n ++
        finish_actions example_defs example_world 0 := by
    simp [send_completed, example_world]
  rw [htr, waits_append, waits_finish_actions, List.append_nil, waits_send_actions]

/-- The counter poll_count being 16 bits wide, the 65536th delay of a send is
a busy-wait again. -/
theorem poll_count_wraps :
    ∃ r, wl1271_cmd_send example_defs (delayed_oracle 65536) 65537 example_world 23 example_buf
        16 0 = some r ∧
      (waits r.world.trace).length = 65536 ∧
      (waits r.world.trace)[65535]? = some (Action.udelay 10) := by
  obtain ⟨r, hr, hw⟩ := delayed_run_waits 65536
  refine ⟨r, hr, ?_, ?_⟩
  · rw [hw, List.length_map, List.length_range]
  · rw [hw, List.getElem?_map, List.getElem?_range (by omega)]
    simp [WL1271_CMD_FAST_POLL_COUNT]

/-! ## The actions of the event loop -/

theorem wait_actions_length (mbox_a mbox_b n : Nat) :
    (wait_actions mbox_a mbox_b n).length = 3 * n := by
  induction n with
  | zero => rfl
  | succ n ih => simp only [wait_actions, List.length_cons, ih]; omega

/-- Round k of the event loop sleeps, reads mailbox A and reads mailbox B. -/
theorem wait_actions_round (mbox_a mbox_b n k : Nat) (hk : k < n) :
    (wait_actions mbox_a mbox_b n)[3 * k]? = some (Action.msleep 1) ∧
    (wait_actions mbox_a mbox_b n)[3 * k + 1]? = some (Action.read mbox_a 4) ∧
    (wait_actions mbox_a mbox_b n)[3 * k + 2]? = some (Action.read mbox_b 4) := by
  induction n generalizing k with
  | zero => omega
  | succ n ih =>
    cases k with
    | zero => simp [wait_actions]
    | succ k =>
      have h := ih k (by omega)
      have e0 : 3 * (k + 1) = 3 * k + 1 + 1 + 1 := by omega
      have e1 : 3 * (k + 1) + 1 = 3 * k + 1 + 1 + 1 + 1 := by omega
      have e2 : 3 * (k + 1) + 2 = 3 * k + 2 + 1 + 1 + 1 := by omega
      rw [e2, e1, e0]
      simp only [wait_actions, List.getElem?_cons_succ]
      exact ⟨h.1, h.2.1, h.2.2⟩

theorem mem_wait_actions (mbox_a mbox_b n : Nat) (a : Action)
    (h : a ∈ wait_actions mbox_a mbox_b n) :
    a = Action.msleep 1 ∨ a = Action.read mbox_a 4 ∨ a = Action.read mbox_b 4 := by
  induction n with
  | zero => simp [wait_actions] at h
  | succ n ih =>
    simp only [wait_actions, List.mem_cons] at h
    rcases h with h | h | h | h
    · exact Or.inl h
    · exact Or.inr (Or.inl h)
    · exact Or.inr (Or.inr h)
    · exact ih h

/-- Every result of wl1271_cmd_wait_for_event comes after some number of full
rounds of the loop, each a sleep and the two mailbox reads. -/
theorem wait_rounds (d : Defs) (o : Oracle) (fuel : Nat) (w : World) (mask : Nat)
    (r : Int × World) (h : wl1271_cmd_wait_for_event d o fuel w mask = some r) :
    ∃ n, n ≤ fuel ∧ r.2.trace = w.trace ++ wait_actions w.wl.mbox_ptr0 w.wl.mbox_ptr1 n ∧
      r.2.n_read = w.n_read + 2 * n ∧ r.2.wl = w.wl ∧
      ((r.1 = 0 ∧ 1 ≤ n ∧ wait_succeeds_at d o w mask (n - 1)) ∨
       (r.1 = - ETIMEDOUT ∧ wait_times_out_at d o w mask n)) := by
  obtain ⟨ret, w'⟩ := r
  obtain ⟨n, hn, hcase⟩ := wait_spec d o fuel w mask ret w' h
  rcases hcase with ⟨hs, hr, hw⟩ | ⟨ht, hr, hw⟩
  · refine ⟨n + 1, hn, ?_, ?_, ?_, Or.inl ⟨hr, by omega, hs⟩⟩
    · simp only [hw]; rfl
    · simp only [hw]; rfl
    · simp only [hw]; rfl
  · refine ⟨n, le_of_lt hn, ?_, ?_, ?_, Or.inr ⟨hr, ht⟩⟩
    · simp only [hw]; rfl
    · simp only [hw]; rfl
    · simp only [hw]; rfl

/-! ## The commands a scan writes -/

/-- The one command a send writes to device memory. -/
theorem send_writes (d : Defs) (o : Oracle) (fuel : Nat) (w : World) (id : Nat) (buf : Buf)
    (len res_len : Nat) (s : SendResult)
    (h : wl1271_cmd_send d o fuel w id buf len res_len = some s) :
    writes s.world.trace = writes w.trace ++ [stamped id buf] := by
  obtain ⟨_, _, _, ⟨rest, htr, hwr⟩, _⟩ := cmd_send_frame d o fuel w id buf len res_len s h
  rw [htr, writes_append]
  simp only [writes, hwr]

theorem scan_record_wl_congr (d : Defs) (w1 w2 : World) (ssid : Option (List Nat))
    (ssid_len active_scan high_prio band probe_requests : Nat) (h : w1.wl = w2.wl) :
    (scan_record d w1 ssid ssid_len active_scan high_prio band probe_requests).wl =
      (scan_record d w2 ssid ssid_len active_scan high_prio band probe_requests).wl := by
  simp only [scan_record, h]

/-- A template-set writes its command unless its buffer is not allocated, in
which case it fails. -/
theorem template_set_writes (d : Defs) (o : Oracle) (fuel : Nat) (w : World) (template_id : Nat)
    (buf : Option (List Nat)) (buf_len index rates : Nat) (r : Int × World)
    (h : wl1271_cmd_template_set d o fuel w template_id buf buf_len index rates = some r) :
    (r.1 < 0 ∧ writes r.2.trace = writes w.trace) ∨
    writes r.2.trace = writes w.trace ++ [stamped d.CMD_SET_TEMPLATE (Buf.fresh
      (Body.template_set (template_set_cmd d w.wl template_id buf buf_len index rates)))] := by
  rcases template_set_cases d o fuel w template_id buf buf_len index rates r h with
    ⟨_, hr⟩ | ⟨_, s, hs, hr⟩
  · left
    rw [hr]
    exact ⟨by simp [ENOMEM], rfl⟩
  · right
    rw [hr]
    have hw := send_writes d o fuel (kzalloc o w).2 _ _ _ _ s hs
    exact hw

/-- A probe-request build writes the probe-request template, or fails having
written nothing. -/
theorem probe_req_writes (d : Defs) (o : Oracle) (fuel : Nat) (w : World)
    (ssid : Option (List Nat)) (ssid_len : Nat) (ie : Option (List Nat)) (ie_len band : Nat)
    (r : Int × World)
    (h : wl1271_cmd_build_probe_req d o fuel w ssid ssid_len ie ie_len band = some r) :
    (r.1 < 0 ∧ writes r.2.trace = writes w.trace) ∨
    writes r.2.trace = writes w.trace ++ [stamped d.CMD_SET_TEMPLATE (Buf.fresh
      (Body.template_set (probe_req_template d o w band)))] := by
  simp only [wl1271_cmd_build_probe_req, ieee80211_probereq_get] at h
  cases hskb : o.skb w.n_skb with
  | none =>
    simp only [hskb, Option.some.injEq] at h
    subst h
    exact Or.inl ⟨by simp [ENOMEM], rfl⟩
  | some data =>
    simp only [hskb] at h
    by_cases hb : band % 256 = d.IEEE80211_BAND_2GHZ
    · rw [if_pos hb] at h
      rcases template_set_writes d o fuel _ _ _ _ _ _ r h with hl | hr
      · exact Or.inl hl
      · right
        rw [hr]
        simp only [probe_req_template, if_pos hb, hskb, Option.getD_some]
    · rw [if_neg hb] at h
      rcases template_set_writes d o fuel _ _ _ _ _ _ r h with hl | hr
      · exact Or.inl hl
      · right
        rw [hr]
        simp only [probe_req_template, if_neg hb, hskb, Option.getD_some]

/-- The last stage of a scan writes the scan command, and clears the flag
exactly when the send fails. -/
theorem scan_start_writes (d : Defs) (o : Oracle) (fuel : Nat) (w : World) (params : cmd_scan)
    (r : Int × World) (h : wl1271_cmd_scan_start d o fuel w params = some r) :
    writes r.2.trace = writes w.trace ++ [stamped d.CMD_SCAN (Buf.fresh (Body.scan params))] ∧
    ((r.1 < 0 ∧ r.2.wl = (clear_scanning w).wl) ∨ (r.1 = 0 ∧ r.2.wl = w.wl)) := by
  obtain ⟨s, hs, hcase⟩ := scan_start_cases d o fuel w params r h
  have hw := send_writes d o fuel w _ _ _ _ s hs
  have hwl := (cmd_send_frame d o fuel w _ _ _ _ s hs).1
  rcases hcase with ⟨hneg, hr⟩ | ⟨h0, hr⟩
  · rw [hr]
    refine ⟨hw, Or.inl ⟨hneg, ?_⟩⟩
    simp only [clear_scanning, hwl]
  · rw [hr]
    exact ⟨hw, Or.inr ⟨rfl, hwl⟩⟩

/-- The trigger stage of a scan: a failure with at most the trigger written and
the device state as it was, or the trigger and the scan command written with
the parameters recorded. -/
theorem scan_trigger_writes (d : Defs) (o : Oracle) (fuel : Nat) (w : World) (params : cmd_scan)
    (ssid : Option (List Nat)) (ssid_len active_scan high_prio band probe_requests : Nat)
    (r : Int × World)
    (h : wl1271_cmd_scan_trigger d o fuel w params ssid ssid_len active_scan high_prio band
      probe_requests = some r) :
    (r.1 < 0 ∧ r.2.wl = w.wl ∧ ∃ k, k ≤ 1 ∧ writes r.2.trace = writes w.trace ++
      [stamped d.CMD_TRIGGER_SCAN_TO (Buf.fresh (Body.trigger_scan_to { timeout := 0 }))].take k) ∨
    (writes r.2.trace = writes w.trace ++
        [stamped d.CMD_TRIGGER_SCAN_TO (Buf.fresh (Body.trigger_scan_to { timeout := 0 })),
         stamped d.CMD_SCAN (Buf.fresh (Body.scan params))] ∧
      ((r.1 < 0 ∧ r.2.wl = (clear_scanning
          (scan_record d w ssid ssid_len active_scan high_prio band probe_requests)).wl) ∨
       (r.1 = 0 ∧ r.2.wl =
          (scan_record d w ssid ssid_len active_scan high_prio band probe_requests).wl))) := by
  simp only [wl1271_cmd_scan_trigger, kzalloc] at h
  cases hk : o.kzalloc w.n_kzalloc with
  | false =>
    simp only [hk, Bool.not_false, if_true, Option.some.injEq] at h
    subst h
    exact Or.inl ⟨by simp [ENOMEM], rfl, 0, by omega, by simp⟩
  | true =>
    simp only [hk, Bool.not_true, Bool.false_eq_true, if_false] at h
    cases hs : wl1271_cmd_send d o fuel { w with n_kzalloc := w.n_kzalloc + 1 }
        d.CMD_TRIGGER_SCAN_TO (Buf.fresh (Body.trigger_scan_to { timeout := 0 }))
        d.sizeof_cmd_trigger_scan_to 0 with
    | none => rw [hs] at h; simp at h
    | some s =>
      rw [hs] at h
      simp only at h
      have hw := send_writes d o fuel _ _ _ _ _ s hs
      have hwl : s.world.wl = w.wl := (cmd_send_frame d o fuel _ _ _ _ _ s hs).1
      by_cases hneg : s.ret < 0
      · rw [if_pos hneg] at h
        simp only [Option.some.injEq] at h
        subst h
        exact Or.inl ⟨hneg, hwl, 1, le_refl 1, hw⟩
      · rw [if_neg hneg] at h
        obtain ⟨hw2, hcase⟩ := scan_start_writes d o fuel _ params r h
        have hrtr := (scan_record_flag d s.world ssid ssid_len active_scan high_prio band
          probe_requests).2.1
        have hcong := scan_record_wl_congr d s.world w ssid ssid_len active_scan high_prio band
          probe_requests hwl
        right
        refine ⟨?_, ?_⟩
        · rw [hw2, hrtr, hw]
          simp
        · rcases hcase with ⟨hr1, hr2⟩ | ⟨hr1, hr2⟩
          · left
            refine ⟨hr1, ?_⟩
            rw [hr2]
            simp only [clear_scanning, hcong]
          · right
            exact ⟨hr1, by rw [hr2, hcong]⟩

/-- The body of a scan: a failure with the device state as it was and an
initial segment of at most two of the three commands written, or all three
commands written with the parameters recorded, whatever the scan command's
send returns. -/
theorem scan_body_writes (d : Defs) (o : Oracle) (fuel : Nat) (w : World)
    (ssid : Option (List Nat)) (ssid_len : Nat) (ie : Option (List Nat))
    (ie_len active_scan high_prio band probe_requests ieee_band rate : Nat)
    (channels : List ieee80211_channel) (n_ch : Nat) (r : Int × World)
    (h : wl1271_cmd_scan_body d o fuel w ssid ssid_len ie ie_len active_scan high_prio band
      probe_requests ieee_band rate channels n_ch = some r) :
    (r.1 < 0 ∧ r.2.wl = w.wl ∧ ∃ k, k < 3 ∧ writes r.2.trace = writes w.trace ++
      (scan_commands d o w ssid ssid_len active_scan high_prio band probe_requests ieee_band rate
        channels n_ch).take k) ∨
    (writes r.2.trace = writes w.trace ++
        scan_commands d o w ssid ssid_len active_scan high_prio band probe_requests ieee_band rate
          channels n_ch ∧
      ((r.1 < 0 ∧ r.2.wl = (clear_scanning
          (scan_record d w ssid ssid_len active_scan high_prio band probe_requests)).wl) ∨
       (r.1 = 0 ∧ r.2.wl =
          (scan_record d w ssid ssid_len active_scan high_prio band probe_requests).wl))) := by
  simp only [wl1271_cmd_scan_body, kzalloc] at h
  cases hk : o.kzalloc w.n_kzalloc with
  | false =>
    simp only [hk, Bool.not_false, if_true, Option.some.injEq] at h
    subst h
    exact Or.inl ⟨by simp [ENOMEM], rfl, 0, by omega, by simp⟩
  | true =>
    simp only [hk, Bool.not_true, Bool.false_eq_true, if_false] at h
    cases hp : wl1271_cmd_build_probe_req d o fuel { w with n_kzalloc := w.n_kzalloc + 1 }
        ssid ssid_len ie ie_len ieee_band with
    | none => rw [hp] at h; simp at h
    | some p =>
      obtain ⟨ret, wp⟩ := p
      rw [hp] at h
      simp only at h
      have hpwl : wp.wl = w.wl := (probe_req_frame d o fuel _ _ _ _ _ _ _ hp).1
      have hpw := probe_req_writes d o fuel _ _ _ _ _ _ _ hp
      by_cases hneg : ret < 0
      · rw [if_pos hneg] at h
        simp only [Option.some.injEq] at h
        subst h
        rcases hpw with ⟨_, hw0⟩ | hw1
        · exact Or.inl ⟨hneg, hpwl, 0, by omega, by rw [hw0]; simp⟩
        · exact Or.inl ⟨hneg, hpwl, 1, by omega, by rw [hw1]; rfl⟩
      · rw [if_neg hneg] at h
        have hw1 : writes wp.trace = writes w.trace ++ [stamped d.CMD_SET_TEMPLATE (Buf.fresh
            (Body.template_set (probe_req_template d o w ieee_band)))] := by
          rcases hpw with ⟨hc, _⟩ | hw1
          · exact absurd hc hneg
          · exact hw1
        have hcong := scan_record_wl_congr d wp w ssid ssid_len active_scan high_prio band
          probe_requests hpwl
        rcases scan_trigger_writes d o fuel wp _ _ _ _ _ _ _ r h with
          ⟨hr1, hr2, k, hk1, hwk⟩ | ⟨hw3, hcase⟩
        · left
          refine ⟨hr1, by rw [hr2, hpwl], k + 1, by omega, ?_⟩
          rw [hwk, hw1]
          have hk01 : k = 0 ∨ k = 1 := by omega
          rcases hk01 with rfl | rfl <;> simp [scan_commands]
        · right
          refine ⟨?_, ?_⟩
          · rw [hw3, hw1]
            simp [scan_commands]
          · rcases hcase with ⟨hr1, hr2⟩ | ⟨hr1, hr2⟩
            · left
              refine ⟨hr1, ?_⟩
              rw [hr2]
              simp only [clear_scanning, hcong]
            · right
              exact ⟨hr1, by rw [hr2, hcong]⟩

/-- No command before the third of a scan is a scan command. -/
theorem scan_commands_take_body (d : Defs) (o : Oracle) (w : World) (ssid : Option (List Nat))
    (ssid_len active_scan high_prio band probe_requests ieee_band rate : Nat)
    (channels : List ieee80211_channel) (n_ch k : Nat) (hk : k < 3) (b : Buf)
    (hb : b ∈ (scan_commands d o w ssid ssid_len active_scan high_prio band probe_requests
      ieee_band rate channels n_ch).take k) (c : cmd_scan) : b.body ≠ Body.scan c := by
  have hk012 : k = 0 ∨ k = 1 ∨ k = 2 := by omega
  rcases hk012 with rfl | rfl | rfl
  · simp at hb
  · simp only [scan_commands, List.take_succ_cons, List.take_zero, List.mem_singleton] at hb
    subst hb
    simp [stamped, Buf.fresh]
  · simp only [scan_commands, List.take_succ_cons, List.take_zero, List.mem_cons,
      List.mem_singleton, List.not_mem_nil, or_false] at hb
    rcases hb with rfl | rfl <;> simp [stamped, Buf.fresh]

/-- What a wl1271_cmd_scan has written and recorded when it returns.  Either it
fails with the device state as at entry and no scan command written: it did
not get as far as setting the flag.  Or it has set the flag, recorded the
parameters and written the scan command after the template and the trigger,
and returns what the send of the scan command returns, the flag cleared again
when that is a failure. -/
theorem scan_writes (d : Defs) (o : Oracle) (fuel : Nat) (w : World)
    (ssid : Option (List Nat)) (ssid_len : Nat) (ie : Option (List Nat))
    (ie_len active_scan high_prio band probe_requests : Nat) (r : Int × World)
    (h : wl1271_cmd_scan d o fuel w ssid ssid_len ie ie_len active_scan high_prio band
      probe_requests = some r) :
    (r.1 < 0 ∧ r.2.wl = w.wl ∧ ∃ cmds, writes r.2.trace = writes w.trace ++ cmds ∧
      ∀ b, b ∈ cmds → ∀ c, b.body ≠ Body.scan c) ∨
    (w.wl.flag_scanning = false ∧ ∃ ieee_band rate channels,
      scan_select_band d w.wl (band % 256) = some (ieee_band, rate) ∧
      (w.wl.bands d ieee_band).channels = some channels ∧
      writes r.2.trace = writes w.trace ++
        scan_commands d o w ssid ssid_len (active_scan % 256) (high_prio % 256) (band % 256)
          (probe_requests % 256) ieee_band rate channels (w.wl.bands d ieee_band).n_channels ∧
      ((r.1 < 0 ∧ r.2.wl = (clear_scanning (scan_record d w ssid ssid_len (active_scan % 256)
          (high_prio % 256) (band % 256) (probe_requests % 256))).wl) ∨
       (r.1 = 0 ∧ r.2.wl = (scan_record d w ssid ssid_len (active_scan % 256)
          (high_prio % 256) (band % 256) (probe_requests % 256)).wl))) := by
  have hinval : ((- EINVAL, w) : Int × World).1 < 0 := by simp [EINVAL]
  have hnone : ∃ cmds, writes w.trace = writes w.trace ++ cmds ∧
      ∀ b, b ∈ cmds → ∀ c, b.body ≠ Body.scan c := ⟨[], by simp, fun b hb => by simp at hb⟩
  cases hsel : scan_select_band d w.wl (band % 256) with
  | none =>
    rw [scan_of_rejected_band d o fuel w _ _ _ _ _ _ _ _ hsel] at h
    simp only [Option.some.injEq] at h
    subst h
    exact Or.inl ⟨hinval, rfl, hnone⟩
  | some p =>
    obtain ⟨ieee_band, rate⟩ := p
    cases hch : (w.wl.bands d ieee_band).channels with
    | none =>
      rw [scan_of_no_channels d o fuel w _ _ _ _ _ _ _ _ _ _ hsel hch] at h
      simp only [Option.some.injEq] at h
      subst h
      exact Or.inl ⟨hinval, rfl, hnone⟩
    | some channels =>
      cases hflag : w.wl.flag_scanning with
      | true =>
        rw [scan_of_scanning d o fuel w _ _ _ _ _ _ _ _ hflag] at h
        simp only [Option.some.injEq] at h
        subst h
        exact Or.inl ⟨hinval, rfl, hnone⟩
      | false =>
        rw [scan_of_body d o fuel w _ _ _ _ _ _ _ _ _ _ _ hsel hch hflag] at h
        rcases scan_body_writes d o fuel w _ _ _ _ _ _ _ _ _ _ _ _ r h with
          ⟨hr1, hr2, k, hk, hwk⟩ | ⟨hw3, hcase⟩
        · exact Or.inl ⟨hr1, hr2, _, hwk, fun b hb c =>
            scan_commands_take_body d o w _ _ _ _ _ _ _ _ _ _ k hk b hb c⟩
        · exact Or.inr ⟨rfl, ieee_band, rate, channels, rfl, hch, hw3, hcase⟩

/-! ## The claims -/

/-- C1: wl1271_cmd_send returns 0 exactly when some reading of the interrupt
status register has the command-complete bit before a deadline check fails
and the status read back equals CMD_STATUS_SUCCESS; it returns -EIO exactly
when such a reading is obtained and the status read back differs; it returns
-ETIMEDOUT exactly when a deadline check fails before any such reading.  A
call returns at most one result, whatever the fuel, it returns no other
value, and with a live clock it does return. -/
theorem cmd_send_return_value (d : Defs) (o : Oracle) (w : World) (id : Nat) (buf : Buf)
    (len res_len : Nat) :
    (send_returns d o w id buf len res_len 0 ↔
      (∃ n, send_completes_at d o w n) ∧
        (read_back o w id buf res_len).header.status = d.CMD_STATUS_SUCCESS) ∧
    (send_returns d o w id buf len res_len (- EIO) ↔
      (∃ n, send_completes_at d o w n) ∧
        (read_back o w id buf res_len).header.status ≠ d.CMD_STATUS_SUCCESS) ∧
    (send_returns d o w id buf len res_len (- ETIMEDOUT) ↔ ∃ n, send_times_out_at d o w n) ∧
    (∀ fuel fuel' r r', wl1271_cmd_send d o fuel w id buf len res_len = some r →
      wl1271_cmd_send d o fuel' w id buf len res_len = some r' → r = r') ∧
    (∀ fuel r, wl1271_cmd_send d o fuel w id buf len res_len = some r →
      r.ret = 0 ∨ r.ret = - EIO ∨ r.ret = - ETIMEDOUT) ∧
    (Live d o → ∃ r, Converges (fun fuel => wl1271_cmd_send d o fuel w id buf len res_len) r) := by
  refine ⟨⟨?_, ?_⟩, ⟨?_, ?_⟩, ⟨?_, ?_⟩, ?_,
    fun fuel r h => (cmd_send_frame d o fuel w id buf len res_len r h).2.2.2.2,
    fun hlive => send_converges d o hlive w id buf len res_len⟩
  · rintro ⟨fuel, r, h, hret⟩
    obtain ⟨n, _, hcase⟩ := cmd_send_spec d o fuel w id buf len res_len r h
    rcases hcase with ⟨hc, hr⟩ | ⟨_, hr⟩
    · refine ⟨⟨n, hc⟩, ?_⟩
      rw [hr] at hret
      simp only [send_completed] at hret
      by_contra hne
      rw [if_pos hne] at hret
      simp [ EIO] at hret
    · rw [hr] at hret
      simp [send_timed_out, ETIMEDOUT] at hret
  · rintro ⟨⟨n, hc⟩, hs⟩
    refine ⟨n + 1, _, cmd_send_complete d o (n + 1) w id buf len res_len n hc (by omega), ?_⟩
    simp [send_completed, hs]
  · rintro ⟨fuel, r, h, hret⟩
    obtain ⟨n, _, hcase⟩ := cmd_send_spec d o fuel w id buf len res_len r h
    rcases hcase with ⟨hc, hr⟩ | ⟨_, hr⟩
    · refine ⟨⟨n, hc⟩, ?_⟩
      rw [hr] at hret
      simp only [send_completed] at hret
      intro heq
      rw [if_neg (by simpa using heq)] at hret
      simp [ EIO] at hret
    · rw [hr] at hret
      simp [send_timed_out, ETIMEDOUT, EIO] at hret
  · rintro ⟨⟨n, hc⟩, hs⟩
    refine ⟨n + 1, _, cmd_send_complete d o (n + 1) w id buf len res_len n hc (by omega), ?_⟩
    simp [send_completed, hs]
  · rintro ⟨fuel, r, h, hret⟩
    obtain ⟨n, _, hcase⟩ := cmd_send_spec d o fuel w id buf len res_len r h
    rcases hcase with ⟨_, hr⟩ | ⟨ht, _⟩
    · rw [hr] at hret
      simp only [send_completed] at hret
      split at hret <;> simp [ EIO, ETIMEDOUT] at hret
    · exact ⟨n, ht⟩
  · rintro ⟨n, ht⟩
    exact ⟨n + 1, _, cmd_send_timeout d o (n + 1) w id buf len res_len n ht (by omega), rfl⟩
  · intro fuel fuel' r r' h h'
    have h1 := cmd_send_mono d o fuel (max fuel fuel') w id buf len res_len r h (le_max_left _ _)
    have h2 := cmd_send_mono d o fuel' (max fuel fuel') w id buf len res_len r' h' (le_max_right _ _)
    rw [h1] at h2
    exact Option.some.inj h2

/-- A send that the device completes at its third reading with status success. -/
theorem cmd_send_return_value_witness :
    send_completes_at example_defs (answering_oracle 1 0) example_world 2 ∧
    send_returns example_defs (answering_oracle 1 0) example_world 23 example_buf 16 0 0 :=
  ⟨by decide,
   (cmd_send_return_value example_defs (answering_oracle 1 0) example_world 23 example_buf 16 0).1.2
     ⟨⟨2, by decide⟩, by decide⟩⟩

/-- C2: when a deadline check of wl1271_cmd_send fails before any reading shows
the command-complete bit, the call returns -ETIMEDOUT, writes nothing to the
interrupt-acknowledge register, reads nothing back from the device, and
leaves the status field of the buffer zero. -/
theorem cmd_send_timeout_is_silent (d : Defs) (o : Oracle) (w : World) (id : Nat) (buf : Buf)
    (len res_len n : Nat) (hreg : d.ACX_REG_INTERRUPT_TRIG ≠ d.ACX_REG_INTERRUPT_ACK)
    (h : send_times_out_at d o w n) :
    ∀ fuel, n < fuel → ∃ r acts,
      wl1271_cmd_send d o fuel w id buf len res_len = some r ∧
      r.ret = - ETIMEDOUT ∧
      r.world.trace = w.trace ++ acts ∧
      (∀ v, Action.write32 d.ACX_REG_INTERRUPT_ACK v ∉ acts) ∧
      (∀ addr l, Action.read addr l ∉ acts) ∧
      r.world.n_read = w.n_read ∧
      r.buf.header.status = 0 := by
  intro fuel hf
  refine ⟨send_timed_out d w id buf len n, send_actions d w id buf len n,
    cmd_send_timeout d o fuel w id buf len res_len n h hf, rfl, rfl,
    (send_actions_quiet d w id buf len n hreg).1, (send_actions_quiet d w id buf len n hreg).2,
    rfl, rfl⟩

/-- A send to a device that never answers, on the example values. -/
theorem cmd_send_timeout_is_silent_witness :
    send_times_out_at example_defs silent_oracle example_world 0 ∧
    ∃ r acts,
      wl1271_cmd_send example_defs silent_oracle 1 example_world 23 example_buf 16 0 = some r ∧
      r.ret = - ETIMEDOUT ∧
      r.world.trace = example_world.trace ++ acts ∧
      (∀ v, Action.write32 example_defs.ACX_REG_INTERRUPT_ACK v ∉ acts) ∧
      (∀ addr l, Action.read addr l ∉ acts) ∧
      r.world.n_read = example_world.n_read ∧
      r.buf.header.status = 0 :=
  ⟨by decide,
   cmd_send_timeout_is_silent example_defs silent_oracle example_world 23 example_buf 16 0 0
     (by decide) (by decide) 1 (by decide)⟩

/-- C3: when wl1271_cmd_send sees the command-complete bit, the actions of the
call end with the write of WL1271_ACX_INTR_CMD_COMPLETE to the
interrupt-acknowledge register, no other action of the call writes to that
register, and this is so for either value the call returns: 0 for a status
of success, -EIO for any other status. -/
theorem cmd_send_acknowledges_once (d : Defs) (o : Oracle) (w : World) (id : Nat) (buf : Buf)
    (len res_len n : Nat) (hreg : d.ACX_REG_INTERRUPT_TRIG ≠ d.ACX_REG_INTERRUPT_ACK)
    (h : send_completes_at d o w n) :
    ∀ fuel, n < fuel → ∃ r pre,
      wl1271_cmd_send d o fuel w id buf len res_len = some r ∧
      r.world.trace = w.trace ++
        (pre ++ [Action.write32 d.ACX_REG_INTERRUPT_ACK d.WL1271_ACX_INTR_CMD_COMPLETE]) ∧
      (∀ v, Action.write32 d.ACX_REG_INTERRUPT_ACK v ∉ pre) ∧
      (Action.write32 d.ACX_REG_INTERRUPT_ACK d.WL1271_ACX_INTR_CMD_COMPLETE).is_transport = true ∧
      r.ret = (if (read_back o w id buf res_len).header.status ≠ d.CMD_STATUS_SUCCESS
               then - EIO else 0) := by
  intro fuel hf
  refine ⟨send_completed d o w id buf len res_len n,
    send_actions d w id buf len n ++ [Action.read w.wl.cmd_box_addr (read_back_len res_len)],
    cmd_send_complete d o fuel w id buf len res_len n h hf, ?_, ?_, rfl, rfl⟩
  · simp [send_completed, finish_actions, List.append_assoc]
  · intro v hmem
    simp only [List.mem_append, List.mem_singleton] at hmem
    rcases hmem with hmem | hmem
    · exact (send_actions_quiet d w id buf len n hreg).1 v hmem
    · cases hmem

/-- A send that the device completes at its third reading with a failure status. -/
theorem cmd_send_acknowledges_once_witness :
    send_completes_at example_defs (answering_oracle 3 0) example_world 2 ∧
    ∃ r pre,
      wl1271_cmd_send example_defs (answering_oracle 3 0) 3 example_world 23 example_buf 16 0
        = some r ∧
      r.world.trace = example_world.trace ++
        (pre ++ [Action.write32 example_defs.ACX_REG_INTERRUPT_ACK
                  example_defs.WL1271_ACX_INTR_CMD_COMPLETE]) ∧
      (∀ v, Action.write32 example_defs.ACX_REG_INTERRUPT_ACK v ∉ pre) ∧
      (Action.write32 example_defs.ACX_REG_INTERRUPT_ACK
        example_defs.WL1271_ACX_INTR_CMD_COMPLETE).is_transport = true ∧
      r.ret = (if (read_back (answering_oracle 3 0) example_world 23 example_buf 0).header.status
                    ≠ example_defs.CMD_STATUS_SUCCESS
               then - EIO else 0) :=
  ⟨by decide,
   cmd_send_acknowledges_once example_defs (answering_oracle 3 0) example_world 23 example_buf 16 0 2
     (by decide) (by decide) 3 (by decide)⟩

/-- C4: wl1271_cmd_wait_for_event returns 0 in the first iteration whose
deadline check passes and in which mailbox A or mailbox B overlaps the mask
(exactly n + 1 rounds have then run), and -ETIMEDOUT when a deadline check
fails before any such iteration; these are the only ways it returns.  When
no iteration has an overlap it never returns 0, and it returns -ETIMEDOUT as
soon as a deadline check fails, which with a live clock happens. -/
theorem wait_for_event_return_value (d : Defs) (o : Oracle) (w : World) (mask : Nat) :
    (∀ n, wait_succeeds_at d o w mask n → ∀ fuel, n < fuel →
      wl1271_cmd_wait_for_event d o fuel w mask = some (0, (wait_entry w).after_wait (n + 1) 0)) ∧
    (∀ n, wait_times_out_at d o w mask n → ∀ fuel, n < fuel →
      wl1271_cmd_wait_for_event d o fuel w mask = some (- ETIMEDOUT, (wait_entry w).after_wait n 1)) ∧
    (wait_returns d o w mask 0 ↔ ∃ n, wait_succeeds_at d o w mask n) ∧
    (wait_returns d o w mask (- ETIMEDOUT) ↔ ∃ n, wait_times_out_at d o w mask n) ∧
    ((∀ k, wait_hit o w mask k = false) →
      (∀ fuel r, wl1271_cmd_wait_for_event d o fuel w mask = some r → r.1 = - ETIMEDOUT) ∧
      ((∃ k, wait_late d o w k = true) → wait_returns d o w mask (- ETIMEDOUT))) ∧
    (Live d o → ∃ r, Converges (fun fuel => wl1271_cmd_wait_for_event d o fuel w mask) r) := by
  refine ⟨fun n h fuel hf => wait_success d o fuel w mask n h hf,
    fun n h fuel hf => wait_timeout d o fuel w mask n h hf, ⟨?_, ?_⟩, ⟨?_, ?_⟩, ?_,
    fun hlive => wait_converges d o hlive w mask⟩
  · rintro ⟨fuel, ⟨ret, w'⟩, h, hret⟩
    obtain ⟨n, _, hcase⟩ := wait_spec d o fuel w mask ret w' h
    rcases hcase with ⟨hs, _, _⟩ | ⟨_, hr, _⟩
    · exact ⟨n, hs⟩
    · simp only at hret
      rw [hr] at hret
      simp [ETIMEDOUT] at hret
  · rintro ⟨n, hs⟩
    exact ⟨n + 1, _, wait_success d o (n + 1) w mask n hs (by omega), rfl⟩
  · rintro ⟨fuel, ⟨ret, w'⟩, h, hret⟩
    obtain ⟨n, _, hcase⟩ := wait_spec d o fuel w mask ret w' h
    rcases hcase with ⟨_, hr, _⟩ | ⟨ht, _, _⟩
    · simp only at hret
      rw [hr] at hret
      simp [ETIMEDOUT] at hret
    · exact ⟨n, ht⟩
  · rintro ⟨n, ht⟩
    exact ⟨n + 1, _, wait_timeout d o (n + 1) w mask n ht (by omega), rfl⟩
  · intro hzero
    constructor
    · rintro fuel ⟨ret, w'⟩ h
      obtain ⟨n, _, hcase⟩ := wait_spec d o fuel w mask ret w' h
      rcases hcase with ⟨hs, _, _⟩ | ⟨_, hr, _⟩
      · have := hs.2.2
        rw [hzero n] at this
        exact absurd this (by simp)
      · exact hr
    · intro hlate
      obtain ⟨n, hs | ht⟩ := wait_exits d o w mask hlate
      · have := hs.2.2
        rw [hzero n] at this
        exact absurd this (by simp)
      · exact ⟨n + 1, _, wait_timeout d o (n + 1) w mask n ht (by omega), rfl⟩

/-- A wait that finds the event in mailbox B in its first iteration. -/
theorem wait_for_event_return_value_witness :
    wait_succeeds_at example_defs (answering_oracle 1 0x20000) example_world 0x20000 0 ∧
    wl1271_cmd_wait_for_event example_defs (answering_oracle 1 0x20000) 1 example_world 0x20000
      = some (0, (wait_entry example_world).after_wait 1 0) :=
  ⟨by decide,
   (wait_for_event_return_value example_defs (answering_oracle 1 0x20000) example_world 0x20000).1
     0 (by decide) 1 (by decide)⟩

/-- C5: a wl1271_cmd_join entered with a session counter below
SESSION_COUNTER_MAX and whose join command is prepared (the kzalloc of line
305 succeeds) leaves the counter at (old + 1) mod SESSION_COUNTER_MAX: the
counter has that value when START_JOIN is sent and when the call returns,
whatever the call returns.  With a live clock the call does return. -/
theorem join_steps_session_counter (d : Defs) (o : Oracle) (w : World) (bss_type : Nat)
    (hrange : w.wl.session_counter < d.SESSION_COUNTER_MAX) :
    (∀ fuel w1 r, wl1271_cmd_join_cal d o fuel w = some w1 → o.kzalloc w1.n_kzalloc = true →
      wl1271_cmd_join d o fuel w bss_type = some r →
      (wl1271_cmd_join_prepare d (kzalloc o w1).2 bss_type).2.wl.session_counter
        = (w.wl.session_counter + 1) % d.SESSION_COUNTER_MAX ∧
      r.2.wl.session_counter = (w.wl.session_counter + 1) % d.SESSION_COUNTER_MAX) ∧
    (Live d o → ∃ r, Converges (fun fuel => wl1271_cmd_join d o fuel w bss_type) r) := by
  refine ⟨?_, fun hlive => join_converges d o hlive w bss_type⟩
  intro fuel w1 r hcal halloc h
  have hwl := (join_cal_frame d o fuel w w1 hcal).1
  have hprep : (wl1271_cmd_join_prepare d (kzalloc o w1).2 bss_type).2.wl.session_counter
      = (w.wl.session_counter + 1) % d.SESSION_COUNTER_MAX := by
    rw [prepare_session_counter]
    have : (kzalloc o w1).2.wl = w.wl := hwl
    rw [this]
    exact session_counter_step _ _ hrange
  refine ⟨hprep, ?_⟩
  rw [join_unfold d o fuel w w1 bss_type hcal, if_pos halloc] at h
  rw [(join_send_frame d o fuel _ _ r h).1]
  exact hprep

/-- A successful first join from session counter 6 with SESSION_COUNTER_MAX 7: the counter wraps to 0. -/
theorem join_steps_session_counter_witness :
    example_world.wl.session_counter < example_defs.SESSION_COUNTER_MAX ∧
    ∃ r, wl1271_cmd_join example_defs (scripted_oracle [] 0x20000 []) 1 example_world 0 = some r ∧
      r.1 = 0 ∧ example_world.wl.session_counter = 6 ∧ r.2.wl.session_counter = 0 :=
  ⟨by decide,
   ((wl1271_cmd_join example_defs (scripted_oracle [] 0x20000 []) 1 example_world 0).getD
      (0, example_world)),
   rfl, rfl, rfl,
   ((join_steps_session_counter example_defs (scripted_oracle [] 0x20000 []) example_world 0
      (by decide)).1 1 _ _ rfl rfl rfl).2⟩

/-- C6: in a wl1271_cmd_join whose join command is prepared (the kzalloc of
line 305 succeeds), both TX security counters are zero in the state in which
wl1271_cmd_send is entered for START_JOIN, whose write is the first action
from there on, and both are zero when the call returns, whatever it returns:
0, -EIO from a rejected START_JOIN, -ETIMEDOUT from the send or from the wait
for the join-complete event. -/
theorem join_resets_security_counters (d : Defs) (o : Oracle) (fuel : Nat) (w w1 : World)
    (bss_type : Nat) (hcal : wl1271_cmd_join_cal d o fuel w = some w1)
    (halloc : o.kzalloc w1.n_kzalloc = true) :
    (wl1271_cmd_join_prepare d (kzalloc o w1).2 bss_type).2.wl.tx_security_seq = 0 ∧
    (wl1271_cmd_join_prepare d (kzalloc o w1).2 bss_type).2.wl.tx_security_last_seq = 0 ∧
    wl1271_cmd_join d o fuel w bss_type =
      wl1271_cmd_join_send d o fuel (wl1271_cmd_join_prepare d (kzalloc o w1).2 bss_type).2
        (wl1271_cmd_join_prepare d (kzalloc o w1).2 bss_type).1 ∧
    (∀ r, wl1271_cmd_join d o fuel w bss_type = some r →
      r.2.wl.tx_security_seq = 0 ∧ r.2.wl.tx_security_last_seq = 0 ∧
      (r.1 = 0 ∨ r.1 = - EIO ∨ r.1 = - ETIMEDOUT) ∧
      ∃ rest, r.2.trace = w1.trace ++
        Action.write w.wl.cmd_box_addr
          (stamped d.CMD_START_JOIN (wl1271_cmd_join_prepare d (kzalloc o w1).2 bss_type).1)
          d.sizeof_cmd_join :: rest ∧ writes rest = []) ∧
    (Live d o → ∃ r, Converges (fun fuel => wl1271_cmd_join d o fuel w bss_type) r) := by
  have hsec := prepare_security d (kzalloc o w1).2 bss_type
  have hun : wl1271_cmd_join d o fuel w bss_type =
      wl1271_cmd_join_send d o fuel (wl1271_cmd_join_prepare d (kzalloc o w1).2 bss_type).2
        (wl1271_cmd_join_prepare d (kzalloc o w1).2 bss_type).1 := by
    rw [join_unfold d o fuel w w1 bss_type hcal, if_pos halloc]
  refine ⟨hsec.1, hsec.2, hun, ?_, fun hlive => join_converges d o hlive w bss_type⟩
  intro r h
  rw [hun] at h
  obtain ⟨hwl, _, rest, htr, hwr⟩ := join_send_frame d o fuel _ _ r h
  obtain ⟨hptr, _, _, hbox⟩ := prepare_world d (kzalloc o w1).2 bss_type
  have hw1 : (kzalloc o w1).2.wl = w.wl := (join_cal_frame d o fuel w w1 hcal).1
  refine ⟨by rw [hwl]; exact hsec.1, by rw [hwl]; exact hsec.2, ?_, rest, ?_, hwr⟩
  · obtain ⟨s, hs, hcase⟩ := join_send_cases d o fuel _ _ r h
    have hsret := (cmd_send_frame d o fuel _ _ _ _ _ s hs).2.2.2.2
    rcases hcase with ⟨_, hr⟩ | ⟨_, hwait⟩
    · rw [hr]; exact hsret
    · obtain ⟨ret, w'⟩ := r
      rcases (wait_frame d o fuel s.world _ ret w' hwait).2.2.2.2 with h0 | h0
      · exact Or.inl h0
      · exact Or.inr (Or.inr h0)
  · rw [htr, hptr, hbox, hw1]
    rfl

/-- A join whose START_JOIN the device rejects: both counters are zero all the same. -/
theorem join_resets_security_counters_witness :
    example_world.wl.tx_security_seq = 77 ∧ example_world.wl.tx_security_last_seq = 9 ∧
    ∃ r, wl1271_cmd_join example_defs (scripted_oracle [1, 1, 1, 2] 0 []) 1 example_world 0 = some r ∧
      r.1 = - EIO ∧ r.2.wl.tx_security_seq = 0 ∧ r.2.wl.tx_security_last_seq = 0 :=
  ⟨rfl, rfl,
   ((wl1271_cmd_join example_defs (scripted_oracle [1, 1, 1, 2] 0 []) 1 example_world 0).getD
      (0, example_world)),
   rfl, rfl,
   ((join_resets_security_counters example_defs (scripted_oracle [1, 1, 1, 2] 0 []) 1 example_world
      _ 0 rfl rfl).2.2.2.1 _ rfl).1,
   ((join_resets_security_counters example_defs (scripted_oracle [1, 1, 1, 2] 0 []) 1 example_world
      _ 0 rfl rfl).2.2.2.1 _ rfl).2.1⟩

/-- C7: calibration is set-once.  A join entered with do_cal still set runs
wl1271_cmd_cal first, clears do_cal exactly when that calibration succeeds,
and sends no TEST command after it.  A join entered with do_cal clear sends
no TEST command and leaves do_cal clear, and so does every run of successive
joins entered with do_cal clear. -/
theorem calibration_is_set_once (d : Defs) (o : Oracle) (fuel : Nat)
    (hid : d.CMD_TEST % 2 ^ 16 ≠ d.CMD_START_JOIN % 2 ^ 16) :
    (∀ w bss_type r, w.do_cal = true → wl1271_cmd_join d o fuel w bss_type = some r →
      ∃ cret wc, wl1271_cmd_cal d o fuel w = some (cret, wc) ∧
        (r.2.do_cal = false ↔ 0 ≤ cret) ∧
        ∃ acts, r.2.trace = wc.trace ++ acts ∧
          ∀ b, b ∈ writes acts → b.header.id ≠ d.CMD_TEST % 2 ^ 16) ∧
    (∀ w bss_type r, w.do_cal = false → wl1271_cmd_join d o fuel w bss_type = some r →
      r.2.do_cal = false ∧
      ∃ acts, r.2.trace = w.trace ++ acts ∧
        ∀ b, b ∈ writes acts → b.header.id ≠ d.CMD_TEST % 2 ^ 16) ∧
    (∀ bss_types w w', w.do_cal = false → join_calls d o fuel bss_types w = some w' →
      w'.do_cal = false ∧
      ∃ acts, w'.trace = w.trace ++ acts ∧
        ∀ b, b ∈ writes acts → b.header.id ≠ d.CMD_TEST % 2 ^ 16) ∧
    (Live d o → ∀ w bss_type,
      ∃ r, Converges (fun fuel => wl1271_cmd_join d o fuel w bss_type) r) := by
  have hpartb : ∀ w bss_type r, w.do_cal = false → wl1271_cmd_join d o fuel w bss_type = some r →
      r.2.do_cal = false ∧
      ∃ acts, r.2.trace = w.trace ++ acts ∧
        ∀ b, b ∈ writes acts → b.header.id ≠ d.CMD_TEST % 2 ^ 16 := by
    intro w bss_type r hdo h
    have hcal : wl1271_cmd_join_cal d o fuel w = some w := by
      simp [wl1271_cmd_join_cal, hdo]
    obtain ⟨hdc, acts, htr, hwr⟩ := join_after_cal d o fuel w w bss_type r hcal h
    refine ⟨hdc.trans hdo, acts, htr, ?_⟩
    intro b hb
    rw [hwr b hb]
    exact fun he => hid he.symm
  refine ⟨?_, hpartb, ?_, fun hlive w bss_type => join_converges d o hlive w bss_type⟩
  · intro w bss_type r hdo h
    obtain ⟨w1, hcal⟩ := join_cal_of_join d o fuel w bss_type r h
    obtain ⟨hdc, acts, htr, hwr⟩ := join_after_cal d o fuel w w1 bss_type r hcal h
    rcases join_cal_cases d o fuel w w1 hcal with ⟨hf, _⟩ | ⟨_, cret, wc, hc, hcase⟩
    · rw [hdo] at hf; cases hf
    · have hwc := (cal_frame d o fuel w cret wc hc).2.1
      refine ⟨cret, wc, hc, ?_, acts, ?_, ?_⟩
      · rcases hcase with ⟨hneg, hw⟩ | ⟨hpos, hw⟩
        · subst hw
          rw [hdc, hwc, hdo]
          constructor
          · intro hf; cases hf
          · intro h0; exact absurd hneg (not_lt.mpr h0)
        · subst hw
          rw [hdc]
          exact ⟨fun _ => hpos, fun _ => rfl⟩
      · rcases hcase with ⟨_, hw⟩ | ⟨_, hw⟩
        · subst hw; exact htr
        · subst hw; exact htr
      · intro b hb
        rw [hwr b hb]
        exact fun he => hid he.symm
  · intro bss_types
    induction bss_types with
    | nil =>
      intro w w' hdo h
      simp only [join_calls, Option.some.injEq] at h
      subst h
      exact ⟨hdo, [], by simp, fun b hb => by simp [writes] at hb⟩
    | cons bt rest ih =>
      intro w w' hdo h
      cases hj : wl1271_cmd_join d o fuel w bt with
      | none => simp [join_calls, hj] at h
      | some r =>
        obtain ⟨hdc, acts1, htr1, hw1⟩ := hpartb w bt r hdo hj
        have h' : join_calls d o fuel rest r.2 = some w' := by
          simpa [join_calls, hj] using h
        obtain ⟨hdc2, acts2, htr2, hw2⟩ := ih r.2 w' hdc h'
        refine ⟨hdc2, acts1 ++ acts2, by rw [htr2, htr1, List.append_assoc], ?_⟩
        intro b hb
        rw [writes_append, List.mem_append] at hb
        rcases hb with hb | hb
        · exact hw1 b hb
        · exact hw2 b hb

/-- Two successive joins: the first calibrates, the second sends no TEST command. -/
theorem calibration_is_set_once_witness :
    ∃ w1 r, wl1271_cmd_join example_defs (scripted_oracle [] 0x20000 []) 1 example_world 0
        = some (0, w1) ∧
      example_world.do_cal = true ∧ w1.do_cal = false ∧
      wl1271_cmd_join example_defs (scripted_oracle [] 0x20000 []) 1 w1 0 = some r ∧
      (r.2.do_cal = false ∧
        ∃ acts, r.2.trace = w1.trace ++ acts ∧
          ∀ b, b ∈ writes acts → b.header.id ≠ example_defs.CMD_TEST % 2 ^ 16) :=
  ⟨_, _, rfl, rfl, rfl, rfl,
   (calibration_is_set_once example_defs (scripted_oracle [] 0x20000 []) 1 (by decide)).2.1
     _ 0 _ rfl rfl⟩

/-- C8, the claim as stated fails: on a device that rejects the first
calibration command, with the join's command buffer not allocated (the second
kzalloc of the call), the calibration fails with -EIO and the join then
returns -ENOMEM having written the one TEST command of the calibration and no
START_JOIN. -/
theorem join_aborts_without_buffer :
    example_defs.CMD_TEST = 23 ∧ example_defs.CMD_START_JOIN = 11 ∧
    ∃ wc r, wl1271_cmd_cal example_defs (scripted_oracle [2] 0x20000 [true, false]) 1
        example_world = some (- EIO, wc) ∧
      wl1271_cmd_join example_defs (scripted_oracle [2] 0x20000 [true, false]) 1 example_world 0
        = some r ∧
      r.1 = - ENOMEM ∧ (writes r.2.trace).map (fun b => b.header.id) = [23] ∧
      r.2.wl = example_world.wl :=
  ⟨rfl, rfl, _, _, rfl, rfl, rfl, rfl, rfl⟩

/-- C8, amended: when the calibration run by wl1271_cmd_join fails, the join
goes on from the state the calibration left.  If its command buffer is
allocated, the join is the send-and-wait stage on the prepared command:
START_JOIN is written to the device, do_cal stays set, and the value returned
is the error of the START_JOIN send or else the result of the wait for the
join-complete event.  If the buffer is not allocated the join returns -ENOMEM
with nothing written after the calibration.  The calibration error is passed
on in neither case. -/
theorem join_survives_failed_calibration (d : Defs) (o : Oracle) (fuel : Nat) (w : World)
    (bss_type : Nat) (cret : Int) (wc : World) (hdo : w.do_cal = true)
    (hcal : wl1271_cmd_cal d o fuel w = some (cret, wc)) (hfail : cret < 0) :
    (o.kzalloc wc.n_kzalloc = true →
      wl1271_cmd_join d o fuel w bss_type =
        wl1271_cmd_join_send d o fuel (wl1271_cmd_join_prepare d (kzalloc o wc).2 bss_type).2
          (wl1271_cmd_join_prepare d (kzalloc o wc).2 bss_type).1 ∧
      ∀ r, wl1271_cmd_join d o fuel w bss_type = some r →
        (∃ rest, r.2.trace = wc.trace ++
          Action.write w.wl.cmd_box_addr
            (stamped d.CMD_START_JOIN (wl1271_cmd_join_prepare d (kzalloc o wc).2 bss_type).1)
            d.sizeof_cmd_join :: rest ∧ writes rest = []) ∧
        r.2.do_cal = true ∧
        ∃ s, wl1271_cmd_send d o fuel (wl1271_cmd_join_prepare d (kzalloc o wc).2 bss_type).2
            d.CMD_START_JOIN (wl1271_cmd_join_prepare d (kzalloc o wc).2 bss_type).1
            d.sizeof_cmd_join 0 = some s ∧
          ((s.ret < 0 ∧ r = (s.ret, s.world)) ∨
           (0 ≤ s.ret ∧
            wl1271_cmd_wait_for_event d o fuel s.world d.JOIN_EVENT_COMPLETE_ID = some r))) ∧
    (o.kzalloc wc.n_kzalloc = false →
      wl1271_cmd_join d o fuel w bss_type = some (- ENOMEM, (kzalloc o wc).2) ∧
      (kzalloc o wc).2.trace = wc.trace ∧ (kzalloc o wc).2.wl = w.wl ∧
      (kzalloc o wc).2.do_cal = true) ∧
    (Live d o → ∃ r, Converges (fun fuel => wl1271_cmd_join d o fuel w bss_type) r) := by
  have hjc : wl1271_cmd_join_cal d o fuel w = some wc := by
    simp [wl1271_cmd_join_cal, hdo, hcal, hfail]
  obtain ⟨hwl, hdc, _⟩ := cal_frame d o fuel w cret wc hcal
  refine ⟨?_, ?_, fun hlive => join_converges d o hlive w bss_type⟩
  · intro halloc
    have hun : wl1271_cmd_join d o fuel w bss_type =
        wl1271_cmd_join_send d o fuel (wl1271_cmd_join_prepare d (kzalloc o wc).2 bss_type).2
          (wl1271_cmd_join_prepare d (kzalloc o wc).2 bss_type).1 := by
      rw [join_unfold d o fuel w wc bss_type hjc, if_pos halloc]
    refine ⟨hun, ?_⟩
    intro r h
    rw [hun] at h
    obtain ⟨_, hdc2, rest, htr, hwr⟩ := join_send_frame d o fuel _ _ r h
    obtain ⟨hptr, hpdc, _, hbox⟩ := prepare_world d (kzalloc o wc).2 bss_type
    have hw1 : (kzalloc o wc).2.wl = w.wl := hwl
    refine ⟨⟨rest, ?_, hwr⟩, ?_, join_send_cases d o fuel _ _ r h⟩
    · rw [htr, hptr, hbox, hw1]; rfl
    · rw [hdc2, hpdc]
      show wc.do_cal = true
      rw [hdc, hdo]
  · intro halloc
    refine ⟨?_, rfl, hwl, ?_⟩
    · rw [join_unfold d o fuel w wc bss_type hjc, halloc]
      simp
    · show wc.do_cal = true
      rw [hdc, hdo]

/-- A join whose calibration is rejected by the device and which succeeds all the same, do_cal still set. -/
theorem join_survives_failed_calibration_witness :
    ∃ wc r, wl1271_cmd_cal example_defs (scripted_oracle [2] 0x20000 []) 1 example_world
        = some (- EIO, wc) ∧
      wl1271_cmd_join example_defs (scripted_oracle [2] 0x20000 []) 1 example_world 0 = some r ∧
      r.1 = 0 ∧ r.2.do_cal = true :=
  ⟨_, _, rfl, rfl, rfl,
   (((join_survives_failed_calibration example_defs (scripted_oracle [2] 0x20000 []) 1
      example_world 0 (- EIO) _ rfl rfl (by decide)).1 rfl).2 _ rfl).2.1⟩

/-- C9: wl1271_cmd_cal issues channel-tune, reference-point update and P2G
calibration in this order.  If the first sub-command fails, its error is
returned and at most the first command has reached the device; if the second
fails, its error is returned and at most the first two have; otherwise the
result is that of the third.  Whatever it returns, the commands written are
an initial segment of the three, and a non-negative return value is 0 with
all three sub-commands having returned 0 and all three commands written. -/
theorem cal_short_circuits (d : Defs) (o : Oracle) (fuel : Nat) (w : World) :
    (∀ r1 w1, wl1271_cmd_cal_channel_tune d o fuel w = some (r1, w1) → r1 < 0 →
      wl1271_cmd_cal d o fuel w = some (r1, w1) ∧
      ∃ acts j, w1.trace = w.trace ++ acts ∧ j ≤ 1 ∧ writes acts = (cal_commands d).take j) ∧
    (∀ r1 w1 r2 w2, wl1271_cmd_cal_channel_tune d o fuel w = some (r1, w1) → 0 ≤ r1 →
      wl1271_cmd_cal_update_ref_point d o fuel w1 = some (r2, w2) → r2 < 0 →
      wl1271_cmd_cal d o fuel w = some (r2, w2) ∧
      ∃ acts j, w2.trace = w.trace ++ acts ∧ j ≤ 2 ∧ writes acts = (cal_commands d).take j) ∧
    (∀ r1 w1 r2 w2 r3 w3, wl1271_cmd_cal_channel_tune d o fuel w = some (r1, w1) → 0 ≤ r1 →
      wl1271_cmd_cal_update_ref_point d o fuel w1 = some (r2, w2) → 0 ≤ r2 →
      wl1271_cmd_cal_p2g d o fuel w2 = some (r3, w3) →
      wl1271_cmd_cal d o fuel w = some (r3, w3)) ∧
    (∀ ret w', wl1271_cmd_cal d o fuel w = some (ret, w') →
      (∃ acts j, w'.trace = w.trace ++ acts ∧ j ≤ 3 ∧ writes acts = (cal_commands d).take j ∧
        (0 ≤ ret → j = 3)) ∧
      (0 ≤ ret → ret = 0 ∧ ∃ w1 w2,
        wl1271_cmd_cal_channel_tune d o fuel w = some (0, w1) ∧
        wl1271_cmd_cal_update_ref_point d o fuel w1 = some (0, w2) ∧
        wl1271_cmd_cal_p2g d o fuel w2 = some (0, w'))) ∧
    (Live d o → ∃ r, Converges (fun fuel => wl1271_cmd_cal d o fuel w) r) := by
  refine ⟨?_, ?_, ?_, ?_, fun hlive => cal_converges d o hlive w⟩
  · intro r1 w1 h1 hr1
    obtain ⟨_, _, acts, j, htr, hj, hwr, _⟩ := cal_writes_first d o fuel w r1 w1 h1
    exact ⟨cal_stops_at_first d o fuel w r1 w1 h1 hr1, acts, j, htr, hj, hwr⟩
  · intro r1 w1 r2 w2 h1 hr1 h2 hr2
    obtain ⟨_, _, acts, j, htr, _, hj, hwr, _⟩ := cal_writes_second d o fuel w r1 w1 r2 w2 h1 hr1 h2
    exact ⟨cal_stops_at_second d o fuel w r1 w1 r2 w2 h1 hr1 h2 hr2, acts, j, htr, hj, hwr⟩
  · intro r1 w1 r2 w2 r3 w3 h1 hr1 h2 hr2 h3
    exact cal_runs_third d o fuel w r1 w1 r2 w2 r3 w3 h1 hr1 h2 hr2 h3
  · intro ret w' h
    obtain ⟨_, _, acts, j, htr, hj, hwr, hok⟩ := cal_frame d o fuel w ret w' h
    refine ⟨⟨acts, j, htr, hj, hwr, fun h0 => (hok h0).2⟩, ?_⟩
    intro h0
    refine ⟨(hok h0).1, ?_⟩
    obtain ⟨r1, w1, h1, hcase⟩ := cal_cases d o fuel w ret w' h
    rcases hcase with ⟨hr1, hret, _⟩ | ⟨hr1, r2, w2, h2, hcase2⟩
    · rw [hret] at h0; exact absurd hr1 (not_lt.mpr h0)
    · rcases hcase2 with ⟨hr2, hret, _⟩ | ⟨hr2, h3⟩
      · rw [hret] at h0; exact absurd hr2 (not_lt.mpr h0)
      · have e1 : r1 = 0 := ((cal_writes_first d o fuel w r1 w1 h1).2.2.choose_spec.choose_spec.2.2.2 hr1).1
        have e2 : r2 = 0 :=
          ((cal_writes_second d o fuel w r1 w1 r2 w2 h1 hr1 h2).2.2.choose_spec.choose_spec.2.2.2.2 hr2).1
        subst e1; subst e2
        have e3 : ret = 0 := (hok h0).1
        subst e3
        exact ⟨w1, w2, h1, h2, h3⟩

/-- A calibration whose second sub-command the device rejects: the third is never sent. -/
theorem cal_short_circuits_witness :
    wl1271_cmd_cal example_defs (scripted_oracle [1, 2] 0 []) 1 example_world
      = some (- EIO, { example_world with
          n_jiffies := 2, n_read32 := 2, n_read := 2, n_kzalloc := 2,
          trace :=
            [Action.write 0x40000 (stamped 23 (cal_channel_tune_cmd example_defs)) 12,
             Action.write32 0x300474 1, Action.read32 0x3004B0, Action.read 0x40000 4,
             Action.write32 0x3004F0 16,
             Action.write 0x40000 (stamped 23 (cal_update_ref_point_cmd example_defs)) 16,
             Action.write32 0x300474 1, Action.read32 0x3004B0, Action.read 0x40000 4,
             Action.write32 0x3004F0 16] }) :=
  ((cal_short_circuits example_defs (scripted_oracle [1, 2] 0 []) 1 example_world).2.1
    0 _ (- EIO) _ rfl (by decide) rfl (by decide)).1

/-- C10: for a TKIP key laid out as A (16 bytes), B (8 bytes, TX MIC), C
(8 bytes, RX MIC), the command wl1271_cmd_set_key builds for key type TKIP
has A, C, B as the first 32 bytes of its key field, for every key_size; when
the command buffer is allocated, that command is what the call writes to the
device, and it writes nothing else to device memory.  With a live clock the
call returns. -/
theorem set_key_tkip_layout (d : Defs) (o : Oracle) (w : World)
    (action id key_type key_size : Nat) (A B C addr : List Nat) (tx_seq_32 tx_seq_16 : Nat)
    (hA : A.length = 16) (hB : B.length = 8) (hC : C.length = 8)
    (hk : key_type % 256 = d.KEY_TKIP) :
    (set_key_cmd d action id key_type key_size (A ++ B ++ C) addr tx_seq_32 tx_seq_16).key
      = A ++ C ++ B ++ (List.replicate d.MAX_KEY_SIZE 0).drop 32 ∧
    ((set_key_cmd d action id key_type key_size (A ++ B ++ C) addr tx_seq_32 tx_seq_16).key).take 32
      = A ++ C ++ B ∧
    (o.kzalloc w.n_kzalloc = true → ∀ fuel r,
      wl1271_cmd_set_key d o fuel w action id key_type key_size (A ++ B ++ C) addr
          tx_seq_32 tx_seq_16 = some r →
      ∃ rest, r.2.trace = w.trace ++
        Action.write w.wl.cmd_box_addr
          (stamped d.CMD_SET_KEYS (Buf.fresh (Body.set_keys
            (set_key_cmd d action id key_type key_size (A ++ B ++ C) addr tx_seq_32 tx_seq_16))))
          d.sizeof_cmd_set_keys :: rest ∧ writes rest = []) ∧
    (Live d o → ∃ r, Converges (fun fuel =>
      wl1271_cmd_set_key d o fuel w action id key_type key_size (A ++ B ++ C) addr
        tx_seq_32 tx_seq_16) r) := by
  have hkey := set_key_cmd_tkip d action id key_type key_size A B C addr tx_seq_32 tx_seq_16
    hA hB hC hk
  refine ⟨hkey, ?_, ?_, ?_⟩
  · rw [hkey]
    have hlen : (A ++ C ++ B).length = 32 := by simp [hA, hB, hC]
    exact List.take_left' hlen
  · intro halloc fuel r h
    obtain ⟨s, hs, hr⟩ := set_key_sends d o fuel w action id key_type key_size (A ++ B ++ C) addr
      tx_seq_32 tx_seq_16 r halloc h
    obtain ⟨_, _, _, ⟨rest, htr, hwr⟩, _⟩ := cmd_send_frame d o fuel _ _ _ _ _ s hs
    rw [hr]
    exact ⟨rest, htr, hwr⟩
  · intro hlive
    exact set_key_converges d o hlive w action id key_type key_size (A ++ B ++ C) addr
      tx_seq_32 tx_seq_16

/-- A TKIP key with distinguishable MIC halves, and key_size 5. -/
theorem set_key_tkip_layout_witness :
    ∃ r rest,
      wl1271_cmd_set_key example_defs (scripted_oracle [] 0 []) 1 example_world 1 0 2 5
        ((List.range 16 ++ [101, 102, 103, 104, 105, 106, 107, 108])
          ++ [201, 202, 203, 204, 205, 206, 207, 208])
        [1, 2, 3, 4, 5, 6] 0 0 = some r ∧
      r.2.trace = example_world.trace ++
        Action.write example_world.wl.cmd_box_addr
          (stamped example_defs.CMD_SET_KEYS (Buf.fresh (Body.set_keys
            (set_key_cmd example_defs 1 0 2 5
              ((List.range 16 ++ [101, 102, 103, 104, 105, 106, 107, 108])
                ++ [201, 202, 203, 204, 205, 206, 207, 208])
              [1, 2, 3, 4, 5, 6] 0 0))))
          example_defs.sizeof_cmd_set_keys :: rest ∧
      (set_key_cmd example_defs 1 0 2 5
          ((List.range 16 ++ [101, 102, 103, 104, 105, 106, 107, 108])
            ++ [201, 202, 203, 204, 205, 206, 207, 208])
          [1, 2, 3, 4, 5, 6] 0 0).key.take 32
        = List.range 16 ++ [201, 202, 203, 204, 205, 206, 207, 208]
            ++ [101, 102, 103, 104, 105, 106, 107, 108] :=
  ⟨_, _, rfl, rfl,
   (set_key_tkip_layout example_defs (scripted_oracle [] 0 []) example_world 1 0 2 5
      (List.range 16) [101, 102, 103, 104, 105, 106, 107, 108]
      [201, 202, 203, 204, 205, 206, 207, 208] [1, 2, 3, 4, 5, 6] 0 0
      (by decide) (by decide) (by decide) (by decide)).2.1⟩

/-- C11: the TKIP reordering of wl1271_cmd_set_key is its own inverse on 32-byte
keys.  For a key of 32 bytes the first 32 bytes of the key field are the
first 16 bytes, the last 8 and the middle 8 of the key; building a command
from those 32 bytes again gives back the caller's key, whatever the other
arguments of the two calls. -/
theorem tkip_reorder_round_trips (d : Defs) (key_type : Nat) (key : List Nat)
    (action id key_size tx_seq_32 tx_seq_16 : Nat) (addr : List Nat)
    (action' id' key_size' tx_seq_32' tx_seq_16' : Nat) (addr' : List Nat)
    (hlen : key.length = 32) (hk : key_type % 256 = d.KEY_TKIP) :
    (set_key_cmd d action id key_type key_size key addr tx_seq_32 tx_seq_16).key.take 32
      = key.take 16 ++ key.drop 24 ++ (key.drop 16).take 8 ∧
    (set_key_cmd d action' id' key_type key_size'
        ((set_key_cmd d action id key_type key_size key addr tx_seq_32 tx_seq_16).key.take 32)
        addr' tx_seq_32' tx_seq_16').key.take 32
      = key := by
  obtain ⟨hsplit, hA, hB, hC⟩ := key_split key hlen
  have hwire : (set_key_cmd d action id key_type key_size key addr tx_seq_32 tx_seq_16).key.take 32
      = key.take 16 ++ key.drop 24 ++ (key.drop 16).take 8 := by
    conv => lhs; rw [hsplit]
    rw [set_key_cmd_tkip d action id key_type key_size _ _ _ addr tx_seq_32 tx_seq_16 hA hB hC hk]
    exact List.take_left' (by simp [hA, hB, hC])
  refine ⟨hwire, ?_⟩
  rw [hwire,
    set_key_cmd_tkip d action' id' key_type key_size' _ _ _ addr' tx_seq_32' tx_seq_16' hA hC hB hk]
  rw [List.take_left' (by simp [hA, hB, hC])]
  exact hsplit.symm

/-- A key whose three parts are told apart by their bytes, reordered twice. -/
theorem tkip_reorder_round_trips_witness :
    (set_key_cmd example_defs 1 0 2 32
        ((set_key_cmd example_defs 1 0 2 32 (List.range 32) [1, 2, 3, 4, 5, 6] 0 0).key.take 32)
        [1, 2, 3, 4, 5, 6] 0 0).key.take 32
      = List.range 32 :=
  (tkip_reorder_round_trips example_defs 2 (List.range 32) 1 0 32 0 0 [1, 2, 3, 4, 5, 6]
    1 0 32 0 0 [1, 2, 3, 4, 5, 6] (by decide) (by decide)).2

/-- C12: the BSSID reversal of wl1271_cmd_join is its own inverse.  On a
six-byte address the loop of lines 315-316 puts byte 5 - i of the source at
index i, the join command carries the station BSSID reversed in this way, and
reversing twice gives the address back. -/
theorem bssid_reversal_involutive (d : Defs) (w : World) (bss_type : Nat)
    (src dst dst' : List Nat) (hsrc : src.length = 6) (hdst : dst.length = 6)
    (hdst' : dst'.length = 6) :
    (∀ i, i < 6 → (reverse_bssid dst src).getD i 0 = src.getD (5 - i) 0) ∧
    (reverse_bssid dst src).length = 6 ∧
    reverse_bssid dst' (reverse_bssid dst src) = src ∧
    (∃ j, (wl1271_cmd_join_prepare d w bss_type).1 = Buf.fresh (Body.join j) ∧
      j.bssid = reverse_bssid (List.replicate ETH_ALEN 0) w.wl.bssid) := by
  obtain ⟨a, b, c, e, f, g, rfl⟩ := list_of_length_six src hsrc
  obtain ⟨a1, b1, c1, e1, f1, g1, rfl⟩ := list_of_length_six dst hdst
  obtain ⟨a2, b2, c2, e2, f2, g2, rfl⟩ := list_of_length_six dst' hdst'
  refine ⟨?_, ?_, ?_, prepare_bssid d w bss_type⟩
  · intro i hi
    rw [reverse_bssid_six]
    interval_cases i <;> rfl
  · rw [reverse_bssid_six]; rfl
  · rw [reverse_bssid_six, reverse_bssid_six]

/-- The example station address, reversed twice. -/
theorem bssid_reversal_involutive_witness :
    reverse_bssid (List.replicate 6 0) (reverse_bssid (List.replicate 6 0) example_wl.bssid)
      = example_wl.bssid :=
  (bssid_reversal_involutive example_defs example_world 0 example_wl.bssid (List.replicate 6 0)
    (List.replicate 6 0) (by decide) (by decide) (by decide)).2.2.1

/-- C20: for a key type other than TKIP and a key_size that fits the key field,
the key field of the command wl1271_cmd_set_key builds is the caller's first
key_size key bytes followed by zero bytes only.  For key type WEP the address
field is all zero; for every other key type, TKIP included, it is the
caller's six-byte address.  When the command buffer is allocated this
command is what the call writes to the device. -/
theorem set_key_plain_layout (d : Defs) (o : Oracle) (w : World)
    (action id key_type key_size : Nat) (key addr : List Nat) (tx_seq_32 tx_seq_16 : Nat)
    (hsize : key_size < 256) (haddr : addr.length = 6) :
    (key_type % 256 ≠ d.KEY_TKIP → key_size ≤ d.MAX_KEY_SIZE → key_size ≤ key.length →
      (set_key_cmd d action id key_type key_size key addr tx_seq_32 tx_seq_16).key
        = key.take key_size ++ List.replicate (d.MAX_KEY_SIZE - key_size) 0 ∧
      (set_key_cmd d action id key_type key_size key addr tx_seq_32 tx_seq_16).key.length
        = d.MAX_KEY_SIZE ∧
      (key.take key_size).length = key_size) ∧
    (key_type % 256 = d.KEY_WEP →
      (set_key_cmd d action id key_type key_size key addr tx_seq_32 tx_seq_16).addr
        = List.replicate 6 0) ∧
    (key_type % 256 ≠ d.KEY_WEP →
      (set_key_cmd d action id key_type key_size key addr tx_seq_32 tx_seq_16).addr = addr) ∧
    (o.kzalloc w.n_kzalloc = true → ∀ fuel r,
      wl1271_cmd_set_key d o fuel w action id key_type key_size key addr tx_seq_32 tx_seq_16
        = some r →
      ∃ rest, r.2.trace = w.trace ++
        Action.write w.wl.cmd_box_addr
          (stamped d.CMD_SET_KEYS (Buf.fresh (Body.set_keys
            (set_key_cmd d action id key_type key_size key addr tx_seq_32 tx_seq_16))))
          d.sizeof_cmd_set_keys :: rest ∧ writes rest = []) ∧
    (Live d o → ∃ r, Converges (fun fuel =>
      wl1271_cmd_set_key d o fuel w action id key_type key_size key addr tx_seq_32 tx_seq_16) r) := by
  have hmod : key_size % 256 = key_size := Nat.mod_eq_of_lt hsize
  refine ⟨?_, ?_, ?_, ?_, ?_⟩
  · intro hk hfit hkey
    have hfield := set_key_cmd_plain d action id key_type key_size key addr tx_seq_32 tx_seq_16 hk
    rw [hmod] at hfield
    refine ⟨hfield, ?_, ?_⟩
    · rw [hfield]
      simp only [List.length_append, List.length_take, List.length_replicate]
      omega
    · simp only [List.length_take]
      omega
  · intro hwep
    rw [set_key_cmd_addr, if_neg (by simpa using hwep)]
    rfl
  · intro hwep
    rw [set_key_cmd_addr, if_pos hwep]
    simp only [memcpy, ETH_ALEN]
    rw [List.take_of_length_le (by omega)]
    simp
  · intro halloc fuel r h
    obtain ⟨s, hs, hr⟩ := set_key_sends d o fuel w action id key_type key_size key addr
      tx_seq_32 tx_seq_16 r halloc h
    obtain ⟨_, _, _, ⟨rest, htr, hwr⟩, _⟩ := cmd_send_frame d o fuel _ _ _ _ _ s hs
    rw [hr]
    exact ⟨rest, htr, hwr⟩
  · intro hlive
    exact set_key_converges d o hlive w action id key_type key_size key addr tx_seq_32 tx_seq_16

/-- A five-byte WEP key, and the same key with another key type. -/
theorem set_key_plain_layout_witness :
    (set_key_cmd example_defs 1 0 1 5 [11, 12, 13, 14, 15] [1, 2, 3, 4, 5, 6] 0 0).key
      = [11, 12, 13, 14, 15] ++ List.replicate 27 0 ∧
    (set_key_cmd example_defs 1 0 1 5 [11, 12, 13, 14, 15] [1, 2, 3, 4, 5, 6] 0 0).addr
      = List.replicate 6 0 ∧
    (set_key_cmd example_defs 1 0 3 5 [11, 12, 13, 14, 15] [1, 2, 3, 4, 5, 6] 0 0).addr
      = [1, 2, 3, 4, 5, 6] :=
  ⟨((set_key_plain_layout example_defs (scripted_oracle [] 0 []) example_world 1 0 1 5
      [11, 12, 13, 14, 15] [1, 2, 3, 4, 5, 6] 0 0 (by decide) (by decide)).1
      (by decide) (by decide) (by decide)).1,
   (set_key_plain_layout example_defs (scripted_oracle [] 0 []) example_world 1 0 1 5
      [11, 12, 13, 14, 15] [1, 2, 3, 4, 5, 6] 0 0 (by decide) (by decide)).2.1 (by decide),
   (set_key_plain_layout example_defs (scripted_oracle [] 0 []) example_world 1 0 3 5
      [11, 12, 13, 14, 15] [1, 2, 3, 4, 5, 6] 0 0 (by decide) (by decide)).2.2.1 (by decide)⟩

/-- C18: wl1271_cmd_template_set does not fail on the payload size.  For every
payload length the length field of the command is min(buf_len,
WL1271_CMD_TEMPL_MAX_SIZE), the template data are the first that many bytes
of the payload followed by zero bytes (all zero bytes for a NULL payload),
and unless the command buffer is not allocated the SET_TEMPLATE command is
written to the device and the call returns what its send returns.  With a
live clock the call returns. -/
theorem template_set_truncates (d : Defs) (o : Oracle) (w : World) (template_id : Nat)
    (buf_len index rates : Nat) (hmax : d.WL1271_CMD_TEMPL_MAX_SIZE < 2 ^ 16) :
    (∀ buf, (template_set_cmd d w.wl template_id buf buf_len index rates).len
      = min buf_len d.WL1271_CMD_TEMPL_MAX_SIZE) ∧
    (∀ payload,
      (template_set_cmd d w.wl template_id (some payload) buf_len index rates).template_data
        = payload.take (min buf_len d.WL1271_CMD_TEMPL_MAX_SIZE) ++
          List.replicate
            (d.WL1271_CMD_TEMPL_MAX_SIZE - min buf_len d.WL1271_CMD_TEMPL_MAX_SIZE) 0) ∧
    (template_set_cmd d w.wl template_id none buf_len index rates).template_data
      = List.replicate d.WL1271_CMD_TEMPL_MAX_SIZE 0 ∧
    (∀ buf fuel r,
      wl1271_cmd_template_set d o fuel w template_id buf buf_len index rates = some r →
      (o.kzalloc w.n_kzalloc = false ∧ r = (- ENOMEM, (kzalloc o w).2)) ∨
      (o.kzalloc w.n_kzalloc = true ∧
        (∃ s, wl1271_cmd_send d o fuel (kzalloc o w).2 d.CMD_SET_TEMPLATE
            (Buf.fresh (Body.template_set
              (template_set_cmd d w.wl template_id buf buf_len index rates)))
            d.sizeof_cmd_template_set 0 = some s ∧ r = (s.ret, s.world)) ∧
        ∃ rest, r.2.trace = w.trace ++
          Action.write w.wl.cmd_box_addr
            (stamped d.CMD_SET_TEMPLATE (Buf.fresh (Body.template_set
              (template_set_cmd d w.wl template_id buf buf_len index rates))))
            d.sizeof_cmd_template_set :: rest ∧ writes rest = [])) ∧
    (Live d o → ∀ buf, ∃ r, Converges (fun fuel =>
      wl1271_cmd_template_set d o fuel w template_id buf buf_len index rates) r) := by
  refine ⟨?_, ?_, ?_, ?_, ?_⟩
  · intro buf
    rw [template_set_cmd_len]
    exact Nat.mod_eq_of_lt (lt_of_le_of_lt (Nat.min_le_right _ _) hmax)
  · intro payload
    exact template_set_cmd_data d w.wl template_id payload buf_len index rates
  · exact template_set_cmd_data_null d w.wl template_id buf_len index rates
  · intro buf fuel r h
    rcases template_set_cases d o fuel w template_id buf buf_len index rates r h with
      ⟨hk, hr⟩ | ⟨hk, s, hs, hr⟩
    · exact Or.inl ⟨hk, hr⟩
    · right
      obtain ⟨_, _, _, ⟨rest, htr, hwr⟩, _⟩ := cmd_send_frame d o fuel _ _ _ _ _ s hs
      refine ⟨hk, ⟨s, hs, hr⟩, rest, ?_, hwr⟩
      rw [hr]
      exact htr
  · intro hlive buf
    exact template_set_converges d o hlive w template_id buf buf_len index rates

/-- A payload of 300 bytes against a maximum of 252: the command is sent with
length 252 and the first 252 bytes. -/
theorem template_set_truncates_witness :
    example_defs.WL1271_CMD_TEMPL_MAX_SIZE = 252 ∧
    (template_set_cmd example_defs example_world.wl 5 (some (List.range 300)) 300 0 1).len = 252 ∧
    (template_set_cmd example_defs example_world.wl 5 (some (List.range 300)) 300 0 1).template_data
      = (List.range 300).take (min 300 example_defs.WL1271_CMD_TEMPL_MAX_SIZE) ++
        List.replicate (example_defs.WL1271_CMD_TEMPL_MAX_SIZE
          - min 300 example_defs.WL1271_CMD_TEMPL_MAX_SIZE) 0 ∧
    ∃ r, wl1271_cmd_template_set example_defs (scripted_oracle [] 0 []) 1 example_world 5
        (some (List.range 300)) 300 0 1 = some r ∧ r.1 = 0 :=
  ⟨rfl,
   (template_set_truncates example_defs (scripted_oracle [] 0 []) example_world 5 300 0 1
      (by decide)).1 (some (List.range 300)),
   (template_set_truncates example_defs (scripted_oracle [] 0 []) example_world 5 300 0 1
      (by decide)).2.1 (List.range 300),
   _, rfl, rfl⟩

/-- C19, the claim as stated fails: a configure of a buffer of 65544 bytes,
which is 65536 more than the 8 bytes of the example acx header, writes a
command whose length field is 0 and not 65536, the field being 16 bits wide. -/
theorem acx_length_field_wraps :
    example_defs.sizeof_acx_header ≤ 65544 ∧
    65544 - example_defs.sizeof_acx_header = 65536 ∧
    ∃ r, wl1271_cmd_configure example_defs (scripted_oracle [] 0 []) 1 example_world 77
        { id := 0, status := 0 } { id := 0, len := 0, payload := List.replicate 65536 0 } 65544
        = some r ∧
      writes r.world.trace =
        [{ header := { id := 2, status := 0 },
           body := Body.acx { id := 77, len := 0, payload := List.replicate 65536 0 } }] :=
  ⟨by decide, by decide, _, rfl, rfl⟩

/-- C19, amended: for a buffer of len bytes, len at least the acx header size and
the payload length len - sizeof(struct acx_header) below 65536, both calls
stamp the buffer with the id and that payload length.  Interrogate writes
sizeof(struct acx_header) bytes of it and, when the command completes, reads
len bytes back into the buffer; configure writes all len bytes and reads back
sizeof(struct wl1271_cmd_header) bytes.  With a live clock both return. -/
theorem acx_access_lengths (d : Defs) (o : Oracle) (w : World) (id : Nat)
    (header : wl1271_cmd_header) (acx : acx_body) (len : Nat)
    (hhdr : sizeof_cmd_header ≤ d.sizeof_acx_header) (hlo : d.sizeof_acx_header ≤ len)
    (hhi : len - d.sizeof_acx_header < 65536) :
    acx_stamped d id header acx len =
      { header := header,
        body := Body.acx { id := id % 2 ^ 16, len := len - d.sizeof_acx_header,
                           payload := acx.payload } } ∧
    (∀ fuel r, wl1271_cmd_interrogate d o fuel w id header acx len = some r →
      ∃ n, n < fuel ∧
        ((send_completes_at d o w n ∧
          r.world.trace = w.trace ++
            ([Action.write w.wl.cmd_box_addr
                (stamped d.CMD_INTERROGATE (acx_stamped d id header acx len)) d.sizeof_acx_header,
              Action.write32 d.ACX_REG_INTERRUPT_TRIG d.INTR_TRIG_CMD,
              Action.read32 d.ACX_REG_INTERRUPT_NO_CLEAR] ++ poll_actions d 0 n ++
             [Action.read w.wl.cmd_box_addr len,
              Action.write32 d.ACX_REG_INTERRUPT_ACK d.WL1271_ACX_INTR_CMD_COMPLETE]) ∧
          r.buf = (stamped d.CMD_INTERROGATE (acx_stamped d id header acx len)).overwrite
            (o.read w.n_read w.wl.cmd_box_addr len) len) ∨
         (send_times_out_at d o w n ∧
          r.world.trace = w.trace ++
            ([Action.write w.wl.cmd_box_addr
                (stamped d.CMD_INTERROGATE (acx_stamped d id header acx len)) d.sizeof_acx_header,
              Action.write32 d.ACX_REG_INTERRUPT_TRIG d.INTR_TRIG_CMD,
              Action.read32 d.ACX_REG_INTERRUPT_NO_CLEAR] ++ poll_actions d 0 n)))) ∧
    (∀ fuel r, wl1271_cmd_configure d o fuel w id header acx len = some r →
      ∃ n, n < fuel ∧
        ((send_completes_at d o w n ∧
          r.world.trace = w.trace ++
            ([Action.write w.wl.cmd_box_addr
                (stamped d.CMD_CONFIGURE (acx_stamped d id header acx len)) len,
              Action.write32 d.ACX_REG_INTERRUPT_TRIG d.INTR_TRIG_CMD,
              Action.read32 d.ACX_REG_INTERRUPT_NO_CLEAR] ++ poll_actions d 0 n ++
             [Action.read w.wl.cmd_box_addr sizeof_cmd_header,
              Action.write32 d.ACX_REG_INTERRUPT_ACK d.WL1271_ACX_INTR_CMD_COMPLETE]) ∧
          r.buf = (stamped d.CMD_CONFIGURE (acx_stamped d id header acx len)).overwrite
            (o.read w.n_read w.wl.cmd_box_addr sizeof_cmd_header) sizeof_cmd_header) ∨
         (send_times_out_at d o w n ∧
          r.world.trace = w.trace ++
            ([Action.write w.wl.cmd_box_addr
                (stamped d.CMD_CONFIGURE (acx_stamped d id header acx len)) len,
              Action.write32 d.ACX_REG_INTERRUPT_TRIG d.INTR_TRIG_CMD,
              Action.read32 d.ACX_REG_INTERRUPT_NO_CLEAR] ++ poll_actions d 0 n)))) ∧
    (Live d o →
      (∃ r, Converges (fun fuel => wl1271_cmd_interrogate d o fuel w id header acx len) r) ∧
      (∃ r, Converges (fun fuel => wl1271_cmd_configure d o fuel w id header acx len) r)) := by
  have hlen0 : len ≠ 0 := by
    have : 0 < sizeof_cmd_header := by decide
    omega
  have hrb : read_back_len len = len := by simp [read_back_len, hlen0]
  refine ⟨?_, ?_, ?_, ?_⟩
  · simp only [acx_stamped, acx_payload_len_eq d len hlo hhi]
  · intro fuel r h
    obtain ⟨n, hn, hcase⟩ := cmd_send_spec d o fuel w _ _ _ _ r h
    refine ⟨n, hn, ?_⟩
    rcases hcase with ⟨hc, hr⟩ | ⟨ht, hr⟩
    · left
      refine ⟨hc, ?_, ?_⟩
      · rw [hr, send_completed_trace, hrb]
      · rw [hr]
        simp only [send_completed, read_back, hrb]
    · right
      exact ⟨ht, by rw [hr, send_timed_out_trace]⟩
  · intro fuel r h
    rw [configure_eq_send] at h
    obtain ⟨n, hn, hcase⟩ := cmd_send_spec d o fuel w _ _ _ _ r h
    refine ⟨n, hn, ?_⟩
    rcases hcase with ⟨hc, hr⟩ | ⟨ht, hr⟩
    · left
      refine ⟨hc, ?_, ?_⟩
      · rw [hr, send_completed_trace]
        rfl
      · rw [hr]
        rfl
    · right
      exact ⟨ht, by rw [hr, send_timed_out_trace]⟩
  · intro hlive
    refine ⟨send_converges d o hlive w _ _ _ _, ?_⟩
    obtain ⟨r, n, hr⟩ := send_converges d o hlive w d.CMD_CONFIGURE
      (acx_stamped d id header acx len) len 0
    exact ⟨r, n, fun fuel hf => by
      show wl1271_cmd_configure d o fuel w id header acx len = _
      rw [configure_eq_send]
      exact hr fuel hf⟩

/-- An interrogate of a 12-byte buffer: the length field is 4. -/
theorem acx_access_lengths_witness :
    acx_stamped example_defs 77 { id := 0, status := 0 }
        { id := 0, len := 0, payload := [1, 2, 3, 4] } 12 =
      { header := { id := 0, status := 0 },
        body := Body.acx { id := 77 % 2 ^ 16, len := 12 - example_defs.sizeof_acx_header,
                           payload := [1, 2, 3, 4] } } :=
  (acx_access_lengths example_defs (scripted_oracle [] 0 []) example_world 77
    { id := 0, status := 0 } { id := 0, len := 0, payload := [1, 2, 3, 4] } 12
    (by decide) (by decide) (by decide)).1

/-- C13: for every band and every other argument, wl1271_cmd_scan called
while the scanning flag is set returns -EINVAL and leaves the world as it
was: nothing is written to the device (the trace is the same), and the flag
and the recorded scan state are the same.  No fuel is needed. -/
theorem scan_rejected_while_scanning (d : Defs) (o : Oracle) (fuel : Nat) (w : World)
    (ssid : Option (List Nat)) (ssid_len : Nat) (ie : Option (List Nat))
    (ie_len active_scan high_prio band probe_requests : Nat)
    (hflag : w.wl.flag_scanning = true) :
    ∃ r, wl1271_cmd_scan d o fuel w ssid ssid_len ie ie_len active_scan high_prio band
        probe_requests = some r ∧
      r.1 = - EINVAL ∧ r.2 = w ∧ r.2.trace = w.trace ∧ r.2.wl.flag_scanning = true ∧
      r.2.wl.scan = w.wl.scan :=
  ⟨(- EINVAL, w),
   scan_of_scanning d o fuel w ssid ssid_len ie ie_len active_scan high_prio band probe_requests
     hflag,
   rfl, rfl, rfl, hflag, rfl⟩

/-- A dual-band active scan with the upper band enabled, asked for while a scan
is in progress. -/
theorem scan_rejected_while_scanning_witness :
    example_world_scanning.wl.flag_scanning = true ∧
    ∃ r, wl1271_cmd_scan example_defs_11a (scripted_oracle [] 0 []) 0 example_world_scanning
        (some [0x61, 0x62]) 2 none 0 1 0 2 2 = some r ∧
      r.1 = - EINVAL ∧ r.2 = example_world_scanning ∧ r.2.trace = example_world_scanning.trace ∧
      r.2.wl.flag_scanning = true ∧ r.2.wl.scan = example_world_scanning.wl.scan :=
  ⟨rfl, scan_rejected_while_scanning example_defs_11a (scripted_oracle [] 0 []) 0
    example_world_scanning (some [0x61, 0x62]) 2 none 0 1 0 2 2 rfl⟩

/-- C14: wl1271_cmd_scan returns -EINVAL with the world as it was, so with
nothing sent, when the band (a byte) is none of the 2.4 GHz, dual and 5 GHz
selectors, when it is not the 2.4 GHz selector and the upper band is not
enabled, and when the selected band has no channel list.  A 2.4 GHz request
is selected with the 2.4 GHz band and basic rate whether or not the upper band
is enabled, and with a channel list and the flag clear it never returns
-EINVAL.  The band field of the scan command the call builds is the 2.4 GHz
selector for a dual-band request and the requested band otherwise.  Every
dual-band call either fails having written no scan command, or has written
the probe-request template, the trigger and that scan command, in this order
and nothing else, whatever the send of the scan command then returns; so any
scan command a dual-band call writes carries the 2.4 GHz selector, and a call
that returns 0 has written one. -/
theorem scan_band_validation (d : Defs) (o : Oracle) (fuel : Nat) (w : World)
    (ssid : Option (List Nat)) (ssid_len : Nat) (ie : Option (List Nat))
    (ie_len active_scan high_prio band probe_requests : Nat) :
    (band % 256 ≠ d.WL1271_SCAN_BAND_2_4_GHZ → band % 256 ≠ d.WL1271_SCAN_BAND_DUAL →
      band % 256 ≠ d.WL1271_SCAN_BAND_5_GHZ →
      wl1271_cmd_scan d o fuel w ssid ssid_len ie ie_len active_scan high_prio band
        probe_requests = some (- EINVAL, w)) ∧
    (d.wl1271_11a_enabled = false → band % 256 ≠ d.WL1271_SCAN_BAND_2_4_GHZ →
      wl1271_cmd_scan d o fuel w ssid ssid_len ie ie_len active_scan high_prio band
        probe_requests = some (- EINVAL, w)) ∧
    (∀ ieee_band rate, scan_select_band d w.wl (band % 256) = some (ieee_band, rate) →
      (w.wl.bands d ieee_band).channels = none →
      wl1271_cmd_scan d o fuel w ssid ssid_len ie ie_len active_scan high_prio band
        probe_requests = some (- EINVAL, w)) ∧
    (band % 256 = d.WL1271_SCAN_BAND_2_4_GHZ →
      scan_select_band d w.wl (band % 256) = some (d.IEEE80211_BAND_2GHZ, w.wl.conf_tx_basic_rate) ∧
      ∀ channels, (w.wl.bands d d.IEEE80211_BAND_2GHZ).channels = some channels →
        w.wl.flag_scanning = false → ∀ r,
        wl1271_cmd_scan d o fuel w ssid ssid_len ie ie_len active_scan high_prio band
          probe_requests = some r → r.1 ≠ - EINVAL) ∧
    (band % 256 = d.WL1271_SCAN_BAND_DUAL → ∀ r,
      wl1271_cmd_scan d o fuel w ssid ssid_len ie ie_len active_scan high_prio band
        probe_requests = some r → r.1 = 0 →
      ∃ c pre rest, r.2.trace = w.trace ++ pre ++
          Action.write w.wl.cmd_box_addr (stamped d.CMD_SCAN (Buf.fresh (Body.scan c)))
            d.sizeof_cmd_scan :: rest ∧
        c.params.band = d.WL1271_SCAN_BAND_2_4_GHZ % 256) ∧
    (∀ rate channels n_ch,
      (scan_cmd d ssid ssid_len (active_scan % 256) (high_prio % 256) (band % 256)
        (probe_requests % 256) rate channels n_ch).params.band =
        if band % 256 = d.WL1271_SCAN_BAND_DUAL then d.WL1271_SCAN_BAND_2_4_GHZ % 256
        else band % 256) ∧
    (band % 256 = d.WL1271_SCAN_BAND_DUAL → ∀ r,
      wl1271_cmd_scan d o fuel w ssid ssid_len ie ie_len active_scan high_prio band
        probe_requests = some r →
      ((r.1 < 0 ∧ ∃ cmds, writes r.2.trace = writes w.trace ++ cmds ∧
          ∀ b, b ∈ cmds → ∀ c, b.body ≠ Body.scan c) ∨
       (∃ ieee_band rate channels,
          scan_select_band d w.wl (band % 256) = some (ieee_band, rate) ∧
          (w.wl.bands d ieee_band).channels = some channels ∧
          writes r.2.trace = writes w.trace ++
            scan_commands d o w ssid ssid_len (active_scan % 256) (high_prio % 256) (band % 256)
              (probe_requests % 256) ieee_band rate channels
              (w.wl.bands d ieee_band).n_channels ∧
          (scan_cmd d ssid ssid_len (active_scan % 256) (high_prio % 256) (band % 256)
            (probe_requests % 256) rate channels
            (w.wl.bands d ieee_band).n_channels).params.band
              = d.WL1271_SCAN_BAND_2_4_GHZ % 256)) ∧
      (r.1 = 0 → ∃ cmds c, writes r.2.trace = writes w.trace ++ cmds ++
          [stamped d.CMD_SCAN (Buf.fresh (Body.scan c))] ∧
        c.params.band = d.WL1271_SCAN_BAND_2_4_GHZ % 256) ∧
      ∀ cmds, writes r.2.trace = writes w.trace ++ cmds → ∀ b, b ∈ cmds → ∀ c,
        b.body = Body.scan c → c.params.band = d.WL1271_SCAN_BAND_2_4_GHZ % 256) := by
  refine ⟨?_, ?_, ?_, ?_, ?_, ?_, ?_⟩
  · intro h1 h2 h3
    refine scan_of_rejected_band d o fuel w _ _ _ _ _ _ _ _ ?_
    rw [scan_select_band_none_iff]
    rintro (h | ⟨h, _⟩ | ⟨h, _⟩)
    · exact h1 h
    · exact h2 h
    · exact h3 h
  · intro h11a h1
    refine scan_of_rejected_band d o fuel w _ _ _ _ _ _ _ _ ?_
    rw [scan_select_band_none_iff]
    rintro (h | ⟨_, h⟩ | ⟨_, h⟩)
    · exact h1 h
    · rw [h11a] at h; exact Bool.noConfusion h
    · rw [h11a] at h; exact Bool.noConfusion h
  · intro ieee_band rate hsel hch
    exact scan_of_no_channels d o fuel w _ _ _ _ _ _ _ _ _ _ hsel hch
  · intro hband
    have hsel : scan_select_band d w.wl (band % 256)
        = some (d.IEEE80211_BAND_2GHZ, w.wl.conf_tx_basic_rate) := by
      unfold scan_select_band
      rw [if_pos hband]
    refine ⟨hsel, ?_⟩
    intro channels hch hflag r h
    rw [scan_of_body d o fuel w _ _ _ _ _ _ _ _ _ _ _ hsel hch hflag] at h
    exact scan_errno_ne_einval r.1 (scan_body_ret d o fuel w _ _ _ _ _ _ _ _ _ _ _ _ r h)
  · intro hband r h h0
    obtain ⟨_, ieee_band, rate, channels, pre, rest, _, _, htr⟩ :=
      scan_success_sends d o fuel w ssid ssid_len ie ie_len active_scan high_prio band
        probe_requests r h h0
    refine ⟨_, pre, rest, htr, ?_⟩
    rw [scan_cmd_band, if_pos hband]
  · intro rate channels n_ch
    exact scan_cmd_band d ssid ssid_len _ _ _ _ rate channels n_ch
  · intro hband r h
    have hcmd : ∀ rate channels n_ch,
        (scan_cmd d ssid ssid_len (active_scan % 256) (high_prio % 256) (band % 256)
          (probe_requests % 256) rate channels n_ch).params.band
          = d.WL1271_SCAN_BAND_2_4_GHZ % 256 := by
      intro rate channels n_ch
      rw [scan_cmd_band, if_pos hband]
    rcases scan_writes d o fuel w ssid ssid_len ie ie_len active_scan high_prio band
      probe_requests r h with ⟨hneg, _, cmds, hw, hno⟩ | ⟨_, ieee_band, rate, channels, hsel, hch,
        hw, hcase⟩
    · refine ⟨Or.inl ⟨hneg, cmds, hw, hno⟩, fun h0 => by omega, ?_⟩
      intro cmds2 hw2 b hb c hbc
      have heq : cmds2 = cmds := List.append_cancel_left (hw2.symm.trans hw)
      rw [heq] at hb
      exact absurd hbc (hno b hb c)
    · refine ⟨Or.inr ⟨ieee_band, rate, channels, hsel, hch, hw, hcmd _ _ _⟩, fun _ => ?_, ?_⟩
      · refine ⟨[stamped d.CMD_SET_TEMPLATE
            (Buf.fresh (Body.template_set (probe_req_template d o w ieee_band))),
          stamped d.CMD_TRIGGER_SCAN_TO (Buf.fresh (Body.trigger_scan_to { timeout := 0 }))],
          _, ?_, hcmd rate channels (w.wl.bands d ieee_band).n_channels⟩
        rw [hw]
        simp [scan_commands]
      · intro cmds2 hw2 b hb c hbc
        have heq : cmds2 = scan_commands d o w ssid ssid_len (active_scan % 256)
            (high_prio % 256) (band % 256) (probe_requests % 256) ieee_band rate channels
            (w.wl.bands d ieee_band).n_channels := List.append_cancel_left (hw2.symm.trans hw)
        rw [heq] at hb
        simp only [scan_commands, List.mem_cons, List.mem_singleton, List.not_mem_nil,
          or_false] at hb
        rcases hb with rfl | rfl | rfl
        · simp [stamped, Buf.fresh] at hbc
        · simp [stamped, Buf.fresh] at hbc
        · simp only [stamped, Buf.fresh, Body.scan.injEq] at hbc
          rw [← hbc]
          exact hcmd _ _ _

/-- With the upper band disabled a dual-band request (selector 2) is rejected
and nothing is sent.  With the upper band enabled, a dual-band request whose
scan command the device rejects returns -EIO having written the template
(command 19), the trigger (21) and the scan command (8), and the scan command
written carries band 0, the 2.4 GHz selector. -/
theorem scan_band_validation_witness :
    example_defs.wl1271_11a_enabled = false ∧
    example_defs.WL1271_SCAN_BAND_DUAL = 2 ∧
    wl1271_cmd_scan example_defs (scripted_oracle [] 0 []) 1 example_world none 0 none 0 1 0 2 2
      = some (- EINVAL, example_world) ∧
    example_defs_11a.WL1271_SCAN_BAND_2_4_GHZ = 0 ∧
    ∃ r, wl1271_cmd_scan example_defs_11a (scripted_oracle [1, 1, 2] 0 []) 1 example_world none 0
        none 0 1 0 2 2 = some r ∧
      r.1 = - EIO ∧ (writes r.2.trace).map (fun b => b.header.id) = [19, 21, 8] ∧
      ∀ b, b ∈ writes r.2.trace → ∀ c, b.body = Body.scan c → c.params.band = 0 :=
  ⟨rfl, rfl,
   (scan_band_validation example_defs (scripted_oracle [] 0 []) 1 example_world none 0 none 0 1 0
      2 2).2.1 rfl (by decide),
   rfl, _, rfl, rfl, rfl,
   ((scan_band_validation example_defs_11a (scripted_oracle [1, 1, 2] 0 []) 1 example_world none
      0 none 0 1 0 2 2).2.2.2.2.2.2 rfl _ rfl).2.2 _ rfl⟩

/-- C15: for a wl1271_cmd_scan entered with the scanning flag clear, the flag is
set when the call returns exactly when the call returns 0.  Every result is
either a failure that leaves the device state, the flag with it, as at entry
(band or channel list rejected, allocation, probe-request template or
scan-timeout trigger failed), or the result of sending the scan command from
a world in which the flag is already set, the flag being cleared again when
that send fails.  With a live clock the call returns. -/
theorem scan_flag_iff_success (d : Defs) (o : Oracle) (w : World)
    (ssid : Option (List Nat)) (ssid_len : Nat) (ie : Option (List Nat))
    (ie_len active_scan high_prio band probe_requests : Nat)
    (hflag : w.wl.flag_scanning = false) :
    (∀ fuel r, wl1271_cmd_scan d o fuel w ssid ssid_len ie ie_len active_scan high_prio band
        probe_requests = some r →
      (r.2.wl.flag_scanning = true ↔ r.1 = 0) ∧
      ((r.1 < 0 ∧ r.2.wl = w.wl) ∨
       ∃ w3 params, w3.wl = w.wl ∧
        (scan_record d w3 ssid ssid_len (active_scan % 256) (high_prio % 256) (band % 256)
          (probe_requests % 256)).wl.flag_scanning = true ∧
        wl1271_cmd_scan_start d o fuel
          (scan_record d w3 ssid ssid_len (active_scan % 256) (high_prio % 256) (band % 256)
            (probe_requests % 256)) params = some r ∧
        (r.1 < 0 → r.2.wl.flag_scanning = false))) ∧
    (Live d o → ∃ r, Converges (fun fuel => wl1271_cmd_scan d o fuel w ssid ssid_len ie ie_len
      active_scan high_prio band probe_requests) r) := by
  refine ⟨?_, fun hlive => scan_converges d o hlive w ssid ssid_len ie ie_len active_scan
    high_prio band probe_requests⟩
  intro fuel r h
  rcases scan_cases d o fuel w ssid ssid_len ie ie_len active_scan high_prio band
    probe_requests r h with ⟨hneg, hwl⟩ | ⟨_, ieee_band, rate, channels, _, _, hlate⟩
  · refine ⟨?_, Or.inl ⟨hneg, hwl⟩⟩
    rw [hwl, hflag]
    constructor
    · intro hc; exact Bool.noConfusion hc
    · intro hc; omega
  · obtain ⟨w3, hw3, hcase, _⟩ := scan_reaches_start_result d o fuel w _ _ _ _ _ _ _ r hlate
    obtain ⟨w3b, hw3b, _, hst⟩ := hlate
    have hset := (scan_record_flag d w3 ssid ssid_len (active_scan % 256) (high_prio % 256)
      (band % 256) (probe_requests % 256)).1
    have hsetb := (scan_record_flag d w3b ssid ssid_len (active_scan % 256) (high_prio % 256)
      (band % 256) (probe_requests % 256)).1
    rcases hcase with ⟨hneg, hr⟩ | ⟨h0, hr⟩
    · have hoff : r.2.wl.flag_scanning = false := by rw [hr]; rfl
      refine ⟨?_, Or.inr ⟨w3b, _, hw3b, hsetb, hst, fun _ => hoff⟩⟩
      rw [hoff]
      constructor
      · intro hc; exact Bool.noConfusion hc
      · intro hc; omega
    · have hon : r.2.wl.flag_scanning = true := by rw [hr]; exact hset
      refine ⟨?_, Or.inr ⟨w3b, _, hw3b, hsetb, hst, fun hneg => by omega⟩⟩
      exact ⟨fun _ => h0, fun _ => hon⟩

/-- A 2.4 GHz scan on the example device, whose commands all complete: the
call returns 0 with the flag set. -/
theorem scan_flag_iff_success_witness :
    ∃ r, wl1271_cmd_scan example_defs (scripted_oracle [] 0 []) 1 example_world none 0 none 0
        1 0 0 2 = some r ∧ r.1 = 0 ∧ r.2.wl.flag_scanning = true :=
  ⟨_, rfl, rfl,
   ((scan_flag_iff_success example_defs (scripted_oracle [] 0 []) example_world none 0 none 0
      1 0 0 2 rfl).1 1 _ rfl).1.2 rfl⟩

/-- C16, the claim as stated fails: with the upper band enabled, a 2.4 GHz scan
(selector 0, not the dual selector 2) that succeeds changes the band selector
of the scan record, from 7 to 0. -/
theorem scan_2_4_ghz_records_band :
    example_defs_11a.wl1271_11a_enabled = true ∧
    example_defs_11a.WL1271_SCAN_BAND_2_4_GHZ = 0 ∧
    example_defs_11a.WL1271_SCAN_BAND_DUAL = 2 ∧
    example_world.wl.scan.state = 7 ∧
    ∃ r, wl1271_cmd_scan example_defs_11a (scripted_oracle [] 0 []) 1 example_world none 0 none 0
        1 0 0 2 = some r ∧ r.1 = 0 ∧ r.2.wl.scan.state = 0 ∧
      r.2.wl.scan ≠ example_world.wl.scan :=
  ⟨rfl, rfl, rfl, rfl, _, rfl, rfl, rfl, by decide⟩

/-- C16, amended: wl1271_cmd_scan records the band selector whenever the upper
band is enabled and the call gets as far as setting the flag, and the other
parameters (active flag, priority flag, probe-request count, SSID and its
length) only when the band is, besides, the dual one.  A call gets that far
exactly when it writes the scan command, the send of which follows the
recording; so every call either fails with the device state as at entry and
no scan command written, or has written the template, the trigger and the
scan command and has then, whatever it returns, a scan record that is: the
one before the call when the upper band is disabled; the one before the call
with the requested band for selector when the upper band is enabled and the
band is not the dual one; and for the dual band the requested band, active
flag, priority flag, probe-request count and SSID with its length (length 0
and the SSID left alone when no SSID is given).  Hence with the upper band
disabled the record is never changed, and for a band other than dual nothing
but the selector is. -/
theorem scan_records_parameters (d : Defs) (o : Oracle) (fuel : Nat) (w : World)
    (ssid : Option (List Nat)) (ssid_len : Nat) (ie : Option (List Nat))
    (ie_len active_scan high_prio band probe_requests : Nat) (r : Int × World)
    (h : wl1271_cmd_scan d o fuel w ssid ssid_len ie ie_len active_scan high_prio band
      probe_requests = some r) :
    (d.wl1271_11a_enabled = false → r.2.wl.scan = w.wl.scan) ∧
    (band % 256 ≠ d.WL1271_SCAN_BAND_DUAL →
      r.2.wl.scan = w.wl.scan ∨ r.2.wl.scan = { w.wl.scan with state := band % 256 }) ∧
    (r.1 = 0 → d.wl1271_11a_enabled = true →
      r.2.wl.scan.state = band % 256 ∧
      (band % 256 ≠ d.WL1271_SCAN_BAND_DUAL →
        r.2.wl.scan = { w.wl.scan with state := band % 256 }) ∧
      (band % 256 = d.WL1271_SCAN_BAND_DUAL →
        r.2.wl.scan =
          { state := band % 256, active := active_scan % 256, high_prio := high_prio % 256,
            probe_requests := probe_requests % 256,
            ssid_len := if ssid.isSome = true ∧ ssid_len ≠ 0 then ssid_len else 0,
            ssid := if ssid_len ≠ 0 then
                (ssid.map (fun s => memcpy w.wl.scan.ssid s ssid_len)).getD w.wl.scan.ssid
              else w.wl.scan.ssid })) ∧
    ((r.1 < 0 ∧ r.2.wl = w.wl ∧ ∃ cmds, writes r.2.trace = writes w.trace ++ cmds ∧
        ∀ b, b ∈ cmds → ∀ c, b.body ≠ Body.scan c) ∨
     (r.1 ≤ 0 ∧ ∃ ieee_band rate channels,
        writes r.2.trace = writes w.trace ++
          scan_commands d o w ssid ssid_len (active_scan % 256) (high_prio % 256) (band % 256)
            (probe_requests % 256) ieee_band rate channels (w.wl.bands d ieee_band).n_channels ∧
        (d.wl1271_11a_enabled = false → r.2.wl.scan = w.wl.scan) ∧
        (d.wl1271_11a_enabled = true →
          r.2.wl.scan.state = band % 256 ∧
          (band % 256 ≠ d.WL1271_SCAN_BAND_DUAL →
            r.2.wl.scan = { w.wl.scan with state := band % 256 }) ∧
          (band % 256 = d.WL1271_SCAN_BAND_DUAL →
            r.2.wl.scan =
              { state := band % 256, active := active_scan % 256, high_prio := high_prio % 256,
                probe_requests := probe_requests % 256,
                ssid_len := if ssid.isSome = true ∧ ssid_len ≠ 0 then ssid_len else 0,
                ssid := if ssid_len ≠ 0 then
                    (ssid.map (fun s => memcpy w.wl.scan.ssid s ssid_len)).getD w.wl.scan.ssid
                  else w.wl.scan.ssid })))) ∧
    (∀ cmds, writes r.2.trace = writes w.trace ++ cmds →
      (∃ b, b ∈ cmds ∧ ∃ c, b.body = Body.scan c) →
      d.wl1271_11a_enabled = true →
      r.2.wl.scan.state = band % 256 ∧
      (band % 256 = d.WL1271_SCAN_BAND_DUAL →
        r.2.wl.scan.active = active_scan % 256 ∧ r.2.wl.scan.high_prio = high_prio % 256 ∧
        r.2.wl.scan.probe_requests = probe_requests % 256 ∧
        r.2.wl.scan.ssid_len = if ssid.isSome = true ∧ ssid_len ≠ 0 then ssid_len else 0)) := by
  have hrecorded : ∀ rec : wl1271_scan,
      rec = (scan_record d w ssid ssid_len (active_scan % 256) (high_prio % 256) (band % 256)
        (probe_requests % 256)).wl.scan →
      (d.wl1271_11a_enabled = false → rec = w.wl.scan) ∧
      (d.wl1271_11a_enabled = true →
        rec.state = band % 256 ∧
        (band % 256 ≠ d.WL1271_SCAN_BAND_DUAL → rec = { w.wl.scan with state := band % 256 }) ∧
        (band % 256 = d.WL1271_SCAN_BAND_DUAL →
          rec =
            { state := band % 256, active := active_scan % 256, high_prio := high_prio % 256,
              probe_requests := probe_requests % 256,
              ssid_len := if ssid.isSome = true ∧ ssid_len ≠ 0 then ssid_len else 0,
              ssid := if ssid_len ≠ 0 then
                  (ssid.map (fun s => memcpy w.wl.scan.ssid s ssid_len)).getD w.wl.scan.ssid
                else w.wl.scan.ssid })) := by
    intro rec hrec
    refine ⟨fun h11a => ?_, fun h11a => ⟨?_, fun hband => ?_, fun hband => ?_⟩⟩
    · rw [hrec, scan_record_scan_11a_off d w _ _ _ _ _ _ h11a]
    · rw [hrec, scan_record_scan_state d w _ _ _ _ _ _ h11a]
    · rw [hrec, scan_record_scan_not_dual d w _ _ _ _ _ _ h11a hband]
    · rw [hrec, scan_record_scan_dual d w _ _ _ _ _ _ h11a hband]
      cases ssid with
      | none => simp
      | some s => simp
  rcases scan_writes d o fuel w ssid ssid_len ie ie_len active_scan high_prio band
    probe_requests r h with ⟨hneg, hwl, cmds, hw, hno⟩ | ⟨_, ieee_band, rate, channels, _, _,
      hw, hcase⟩
  · have hsame : r.2.wl.scan = w.wl.scan := by rw [hwl]
    refine ⟨fun _ => hsame, fun _ => Or.inl hsame, fun h0 => by omega,
      Or.inl ⟨hneg, hwl, cmds, hw, hno⟩, ?_⟩
    intro cmds2 hw2 hex
    have heq : cmds2 = cmds := List.append_cancel_left (hw2.symm.trans hw)
    obtain ⟨b, hb, c, hbc⟩ := hex
    rw [heq] at hb
    exact absurd hbc (hno b hb c)
  · have hrec : r.2.wl.scan = (scan_record d w ssid ssid_len (active_scan % 256)
        (high_prio % 256) (band % 256) (probe_requests % 256)).wl.scan := by
      rcases hcase with ⟨_, hr⟩ | ⟨_, hr⟩
      · rw [hr]; rfl
      · rw [hr]
    have hle : r.1 ≤ 0 := by
      rcases hcase with ⟨hr, _⟩ | ⟨hr, _⟩ <;> omega
    obtain ⟨hoff, hon⟩ := hrecorded r.2.wl.scan hrec
    refine ⟨hoff, ?_, fun _ h11a => hon h11a,
      Or.inr ⟨hle, ieee_band, rate, channels, hw, hoff, hon⟩, ?_⟩
    · intro hband
      cases h11a : d.wl1271_11a_enabled with
      | false => exact Or.inl (hoff h11a)
      | true => exact Or.inr ((hon h11a).2.1 hband)
    · intro _ _ _ h11a
      refine ⟨(hon h11a).1, fun hband => ?_⟩
      rw [(hon h11a).2.2 hband]
      exact ⟨rfl, rfl, rfl, rfl⟩

/-- A dual-band scan for the SSID "ab" with the upper band enabled, whose scan
command the device rejects: the call returns -EIO with the flag clear, and
the record holds the dual selector and the parameters of the call all the
same. -/
theorem scan_records_parameters_witness :
    ∃ r, wl1271_cmd_scan example_defs_11a (scripted_oracle [1, 1, 2] 0 []) 1 example_world
        (some [0x61, 0x62]) 2 none 0 1 1 2 3 = some r ∧ r.1 = - EIO ∧
      r.2.wl.flag_scanning = false ∧
      (writes r.2.trace).map (fun b => b.header.id) = [19, 21, 8] ∧
      r.2.wl.scan.ssid = [0x61, 0x62] ++ List.replicate 30 0 ∧
      r.2.wl.scan.state = 2 ∧
      (r.2.wl.scan.active = 1 ∧ r.2.wl.scan.high_prio = 1 ∧ r.2.wl.scan.probe_requests = 3 ∧
        r.2.wl.scan.ssid_len = 2) :=
  ⟨_, rfl, rfl, rfl, rfl, rfl,
   ((scan_records_parameters example_defs_11a (scripted_oracle [1, 1, 2] 0 []) 1 example_world
      (some [0x61, 0x62]) 2 none 0 1 1 2 3 _ rfl).2.2.2.2 _ rfl
      ⟨_, List.Mem.tail _ (List.Mem.tail _ (List.Mem.head _)), _, rfl⟩ rfl).1,
   ((scan_records_parameters example_defs_11a (scripted_oracle [1, 1, 2] 0 []) 1 example_world
      (some [0x61, 0x62]) 2 none 0 1 1 2 3 _ rfl).2.2.2.2 _ rfl
      ⟨_, List.Mem.tail _ (List.Mem.tail _ (List.Mem.head _)), _, rfl⟩ rfl).2 rfl⟩

set_option maxRecDepth 20000

/-- C21, the claim as stated fails: a send whose command-complete bit shows at
the 51st reading of the interrupt register waits 50 times, and its 50th wait
is the 1 millisecond sleep, not a 10 microsecond busy-wait; only the first 49
waits are busy-waits. -/
theorem fiftieth_wait_sleeps :
    ∃ r, wl1271_cmd_send example_defs (delayed_oracle 50) 51 example_world 23 example_buf 16 0
        = some r ∧ r.ret = 0 ∧
      waits r.world.trace = List.replicate 49 (Action.udelay 10) ++ [Action.msleep 1] :=
  ⟨_, rfl, rfl, rfl⟩

/-- C21, amended: in the completion poll loop of wl1271_cmd_send the first 49
waits each busy-wait 10 microseconds and the later ones sleep 1 millisecond.
Counting the waits of a call from 1, the k-th wait is a busy-wait exactly when
k, as the 16-bit counter poll_count holds it, is below
WL1271_CMD_FAST_POLL_COUNT: a busy-wait for every k up to 49 and a sleep for
every k from 50 to 65535.  The waits of a call are as many as its readings
without the command-complete bit. -/
theorem poll_wait_pattern (d : Defs) (o : Oracle) (fuel : Nat) (w : World) (id : Nat) (buf : Buf)
    (len res_len : Nat) (r : SendResult)
    (h : wl1271_cmd_send d o fuel w id buf len res_len = some r) :
    ∃ n acts, n < fuel ∧ (send_completes_at d o w n ∨ send_times_out_at d o w n) ∧
      r.world.trace = w.trace ++ acts ∧ (waits acts).length = n ∧
      ∀ k, 1 ≤ k → k ≤ n →
        (waits acts)[k - 1]? = some
          (if k % 65536 < WL1271_CMD_FAST_POLL_COUNT then Action.udelay 10
           else Action.msleep 1) ∧
        (k ≤ 49 → (waits acts)[k - 1]? = some (Action.udelay 10)) ∧
        (50 ≤ k → k ≤ 65535 → (waits acts)[k - 1]? = some (Action.msleep 1)) := by
  obtain ⟨n, acts, hn, hcase, htr, hw⟩ := send_waits d o fuel w id buf len res_len r h
  refine ⟨n, acts, hn, hcase, htr, ?_, ?_⟩
  · rw [hw, List.length_map, List.length_range]
  · intro k hk1 hkn
    have hget : (waits acts)[k - 1]? = some
        (if k % 65536 < WL1271_CMD_FAST_POLL_COUNT then Action.udelay 10
         else Action.msleep 1) := by
      rw [hw, List.getElem?_map, List.getElem?_range (by omega)]
      have hk : k - 1 + 1 = k := by omega
      simp only [Option.map_some', hk]
    refine ⟨hget, ?_, ?_⟩
    · intro h49
      rw [hget, if_pos]
      have hmod : k % 65536 = k := Nat.mod_eq_of_lt (by omega)
      rw [hmod]
      unfold WL1271_CMD_FAST_POLL_COUNT
      omega
    · intro h50 hmax
      rw [hget, if_neg]
      have hmod : k % 65536 = k := Nat.mod_eq_of_lt (by omega)
      rw [hmod]
      unfold WL1271_CMD_FAST_POLL_COUNT
      omega

/-- A device that shows the command-complete bit at its third reading: the send
waits twice, both times a busy-wait of 10 microseconds. -/
theorem poll_wait_pattern_witness :
    ∃ r, wl1271_cmd_send example_defs (answering_oracle 1 0) 3 example_world 23 example_buf 16 0
        = some r ∧
      ∃ n acts, n < 3 ∧
        (send_completes_at example_defs (answering_oracle 1 0) example_world n ∨
         send_times_out_at example_defs (answering_oracle 1 0) example_world n) ∧
        r.world.trace = example_world.trace ++ acts ∧ (waits acts).length = n ∧
        ∀ k, 1 ≤ k → k ≤ n →
          (waits acts)[k - 1]? = some
            (if k % 65536 < WL1271_CMD_FAST_POLL_COUNT then Action.udelay 10
             else Action.msleep 1) ∧
          (k ≤ 49 → (waits acts)[k - 1]? = some (Action.udelay 10)) ∧
          (50 ≤ k → k ≤ 65535 → (waits acts)[k - 1]? = some (Action.msleep 1)) :=
  ⟨_, rfl,
   poll_wait_pattern example_defs (answering_oracle 1 0) 3 example_world 23 example_buf 16 0 _
     rfl⟩

/-- C22, the claim as stated fails: with a word in event mailbox A that overlaps
the mask, the one iteration of the wait still reads event mailbox B (at
0x50100) after mailbox A (at 0x50000), and then returns 0. -/
theorem wait_reads_mailbox_b_after_hit :
    example_world.wl.mbox_ptr0 = 0x50000 ∧ example_world.wl.mbox_ptr1 = 0x50100 ∧
    wait_mbox_a (mailbox_a_oracle 0x20000) example_world 0 &&& 0x20000 = 0x20000 ∧
    ∃ r, wl1271_cmd_wait_for_event example_defs (mailbox_a_oracle 0x20000) 1 example_world
        0x20000 = some r ∧ r.1 = 0 ∧
      r.2.trace = [Action.msleep 1, Action.read 0x50000 4, Action.read 0x50100 4] ∧
      r.2.n_read = 2 :=
  ⟨rfl, rfl, by decide, _, rfl, rfl, rfl, rfl⟩

/-- C22, amended: every iteration of wl1271_cmd_wait_for_event that gets past
its deadline check sleeps, reads event mailbox A and reads event mailbox B,
whatever the word read from mailbox A.  The actions of a call are these three
per iteration and nothing else: no write to a mailbox or to any register, so
no event bit is acknowledged, and the device state is left as it was. -/
theorem wait_reads_both_mailboxes (d : Defs) (o : Oracle) (fuel : Nat) (w : World) (mask : Nat)
    (r : Int × World) (h : wl1271_cmd_wait_for_event d o fuel w mask = some r) :
    ∃ n acts, r.2.trace = w.trace ++ acts ∧ acts.length = 3 * n ∧
      r.2.n_read = w.n_read + 2 * n ∧ r.2.wl = w.wl ∧
      ((r.1 = 0 ∧ 1 ≤ n ∧ wait_succeeds_at d o w mask (n - 1)) ∨
       (r.1 = - ETIMEDOUT ∧ wait_times_out_at d o w mask n)) ∧
      (∀ k, k < n →
        acts[3 * k]? = some (Action.msleep 1) ∧
        acts[3 * k + 1]? = some (Action.read w.wl.mbox_ptr0 4) ∧
        acts[3 * k + 2]? = some (Action.read w.wl.mbox_ptr1 4)) ∧
      (∀ addr buf len, Action.write addr buf len ∉ acts) ∧
      (∀ reg val, Action.write32 reg val ∉ acts) ∧
      writes acts = [] := by
  obtain ⟨n, _, htr, hread, hwl, hcase⟩ := wait_rounds d o fuel w mask r h
  refine ⟨n, wait_actions w.wl.mbox_ptr0 w.wl.mbox_ptr1 n, htr, wait_actions_length _ _ n, hread,
    hwl, hcase, fun k hk => wait_actions_round _ _ n k hk, ?_, ?_, writes_wait_actions _ _ n⟩
  · intro addr buf len hmem
    rcases mem_wait_actions _ _ n _ hmem with hc | hc | hc <;> exact Action.noConfusion hc
  · intro reg val hmem
    rcases mem_wait_actions _ _ n _ hmem with hc | hc | hc <;> exact Action.noConfusion hc

/-- The wait on a device that shows the awaited bit in event mailbox B at
once: one iteration, which reads both mailboxes and writes nothing. -/
theorem wait_reads_both_mailboxes_witness :
    ∃ r, wl1271_cmd_wait_for_event example_defs (answering_oracle 1 0x20000) 1 example_world
        0x20000 = some r ∧
      ∃ n acts, r.2.trace = example_world.trace ++ acts ∧ acts.length = 3 * n ∧
        r.2.n_read = example_world.n_read + 2 * n ∧ r.2.wl = example_world.wl ∧
        ((r.1 = 0 ∧ 1 ≤ n ∧
            wait_succeeds_at example_defs (answering_oracle 1 0x20000) example_world 0x20000
              (n - 1)) ∨
         (r.1 = - ETIMEDOUT ∧
            wait_times_out_at example_defs (answering_oracle 1 0x20000) example_world 0x20000
              n)) ∧
        (∀ k, k < n →
          acts[3 * k]? = some (Action.msleep 1) ∧
          acts[3 * k + 1]? = some (Action.read example_world.wl.mbox_ptr0 4) ∧
          acts[3 * k + 2]? = some (Action.read example_world.wl.mbox_ptr1 4)) ∧
        (∀ addr buf len, Action.write addr buf len ∉ acts) ∧
        (∀ reg val, Action.write32 reg val ∉ acts) ∧
        writes acts = [] :=
  ⟨_, rfl,
   wait_reads_both_mailboxes example_defs (answering_oracle 1 0x20000) 1 example_world 0x20000 _
     rfl⟩

/-- C23: when mac80211 hands out no frame, wl1271_cmd_build_ps_poll returns 0
with nothing written to the device (the world is the one at entry but for the
frame asked for), whereas wl1271_cmd_build_null_data (where it asks for a
frame, that is outside an IBSS), wl1271_cmd_build_klv_null_data and
wl1271_cmd_build_probe_req return -ENOMEM, they too with nothing written.  So
wl1271_cmd_build_ps_poll can return 0 with no PS-poll template set.  In an
IBSS wl1271_cmd_build_null_data asks for no frame and sets the template from
a NULL pointer. -/
theorem ps_poll_succeeds_without_frame (d : Defs) (o : Oracle) (fuel : Nat) (w : World)
    (aid : Nat) (h : o.skb w.n_skb = none) :
    wl1271_cmd_build_ps_poll d o fuel w aid = some (0, { w with n_skb := w.n_skb + 1 }) ∧
    (∀ r, wl1271_cmd_build_ps_poll d o fuel w aid = some r →
      r.1 = 0 ∧ r.2.trace = w.trace ∧ writes r.2.trace = writes w.trace ∧ r.2.wl = w.wl) ∧
    (w.wl.bss_type ≠ d.BSS_TYPE_IBSS →
      wl1271_cmd_build_null_data d o fuel w = some (- ENOMEM, { w with n_skb := w.n_skb + 1 })) ∧
    wl1271_cmd_build_klv_null_data d o fuel w
      = some (- ENOMEM, { w with n_skb := w.n_skb + 1 }) ∧
    (∀ ssid ssid_len ie ie_len band,
      wl1271_cmd_build_probe_req d o fuel w ssid ssid_len ie ie_len band
        = some (- ENOMEM, { w with n_skb := w.n_skb + 1 })) ∧
    (w.wl.bss_type = d.BSS_TYPE_IBSS →
      wl1271_cmd_build_null_data d o fuel w =
        wl1271_cmd_template_set d o fuel w d.CMD_TEMPL_NULL_DATA none d.sizeof_null_data_template
          0 d.WL1271_RATE_AUTOMATIC) := by
  have hps : wl1271_cmd_build_ps_poll d o fuel w aid
      = some (0, { w with n_skb := w.n_skb + 1 }) := by
    simp only [wl1271_cmd_build_ps_poll, ieee80211_pspoll_get, h]
  refine ⟨hps, ?_, ?_, ?_, ?_, ?_⟩
  · intro r hr
    rw [hps] at hr
    simp only [Option.some.injEq] at hr
    subst hr
    exact ⟨rfl, rfl, rfl, rfl⟩
  · intro hbss
    simp only [wl1271_cmd_build_null_data, if_neg hbss, ieee80211_nullfunc_get, h]
  · simp only [wl1271_cmd_build_klv_null_data, ieee80211_nullfunc_get, h]
  · intro ssid ssid_len ie ie_len band
    simp only [wl1271_cmd_build_probe_req, ieee80211_probereq_get, h]
  · intro hbss
    simp only [wl1271_cmd_build_null_data, if_pos hbss]

/-- On a host where mac80211 hands out no frame, the PS-poll build returns 0
and leaves the trace empty, and the other three builds return -ENOMEM. -/
theorem ps_poll_succeeds_without_frame_witness :
    frameless_oracle.skb example_world.n_skb = none ∧
    (∃ r, wl1271_cmd_build_ps_poll example_defs frameless_oracle 1 example_world 1 = some r ∧
      r.1 = 0 ∧ r.2.trace = []) ∧
    wl1271_cmd_build_null_data example_defs frameless_oracle 1 example_world
      = some (- ENOMEM, { example_world with n_skb := example_world.n_skb + 1 }) ∧
    wl1271_cmd_build_klv_null_data example_defs frameless_oracle 1 example_world
      = some (- ENOMEM, { example_world with n_skb := example_world.n_skb + 1 }) ∧
    wl1271_cmd_build_probe_req example_defs frameless_oracle 1 example_world none 0 none 0 0
      = some (- ENOMEM, { example_world with n_skb := example_world.n_skb + 1 }) :=
  ⟨rfl,
   ⟨_, (ps_poll_succeeds_without_frame example_defs frameless_oracle 1 example_world 1 rfl).1,
    rfl, rfl⟩,
   (ps_poll_succeeds_without_frame example_defs frameless_oracle 1 example_world 1 rfl).2.2.1
     (by decide),
   (ps_poll_succeeds_without_frame example_defs frameless_oracle 1 example_world 1 rfl).2.2.2.1,
   (ps_poll_succeeds_without_frame example_defs frameless_oracle 1 example_world 1
     rfl).2.2.2.2.1 none 0 none 0 0⟩

end Wl1271
